import Mathlib

/-!
# Sensor-hub firmware: fusion estimator (`firmware/src/fusion/fusion.c`) and timer (`firmware/src/timer.c`)

A shallow embedding of the fusion engine, followed by the time arithmetic and
the timer list of the timer.  Scalars (`float` in the source) are elements of
an arbitrary linearly ordered field `α`; the definitions are polymorphic and
computable, so they can be evaluated over `ℚ` and reasoned about over `ℝ`.

The estimator proper (the bootstrap, `fusionPredict`, `fusionUpdate`) is
embedded in exact arithmetic; the guard of `fusionPredict` compares the norm
so computed with `kEps`, which has the binary32 value of its literal.  The two
sample handlers `fusionHandleAcc` and `fusionHandleMag` decide on computed
`float`s: which sample is rejected, when the heartbeat fires.  There every
operation of their own, and of the vector kernel they call, is followed by the
rounding `Env.fl` (the calls of `fusionPredict` and `fusionUpdate` apart), and
the thresholds they compare with (`FREE_FALL_THRESHOLD_SQ`,
`MIN_VALID_CROSS_PRODUCT_MAG_SQ`) have the values of the macros in binary32 and
binary64 arithmetic.  With `fl` the identity the handlers compute in exact
arithmetic as well; with `fl = roundFloat` their tests are decided as on the
target, for finite samples (NaN and infinities are not values of `α`).

The headers `fusion/fusion.h`, `fusion/mat.h`, `fusion/vec.h`, `fusion/quat.h`
are not among the sources.  What `fusion.c` needs from them is either modelled
from the specification (the elementary vector and matrix operations) or taken
as a parameter (`Env`: the flag bit values, the C math library and the kernel
routines whose convention the specification leaves open).

Matrices are indexed as in the source, `A i j` standing for `A->elem[i][j]`;
`matrixCross` in `fusion.c` shows that the first index is the row.
State fields that are C arrays are flattened: `P[i][j]` is `Pij`,
`GQGt[i][j]` is `GQGtij`, `Phi0[i]` is `Phi0_i`, `mData[i]` is `mDatai`,
`mCount[i]` is `mCounti`.
-/

namespace ContextHub

/-- Three-component vector, `struct Vec3` of the math kernel. -/
structure Vec3 (α : Type) where
  x : α
  y : α
  z : α

/-- Four-component vector, `struct Vec4` of the math kernel (x, y, z, w). -/
structure Vec4 (α : Type) where
  x : α
  y : α
  z : α
  w : α

/-- Quaternions are stored as `Vec4`, scalar part last. -/
abbrev Quat (α : Type) := Vec4 α

/-- The 3x3 matrix type, `struct Mat33`; `A i j` is `A->elem[i][j]`. -/
abbrev Mat33 (α : Type) := Matrix (Fin 3) (Fin 3) α

/-- The 4x4 matrix type, `struct Mat44`; `A i j` is `A->elem[i][j]`. -/
abbrev Mat44 (α : Type) := Matrix (Fin 4) (Fin 4) α

/-- What `fusion.c` takes from outside the sources: the flag bits declared in
`fusion/fusion.h`, the rounding of a real number to a `float` (`fl`), the C
math library, and the kernel routines whose exact convention the specification
does not fix.  Every theorem below that mentions an `Env` holds for all of its
values unless a hypothesis says otherwise. -/
structure Env (α : Type) where
  FUSION_USE_MAG : Nat
  FUSION_USE_GYRO : Nat
  FUSION_REINITIALIZE : Nat
  fl : α → α
  sqrtf : α → α
  sinf : α → α
  cosf : α → α
  expf : α → α
  quatToMatrix : Quat α → Mat33 α
  initQuat : Mat33 α → Quat α
  quatNormalize : Quat α → Quat α
  findOrthogonalVector : α → α → α → Vec3 α
  mat33IsPositiveSemidefinite : Mat33 α → α → Bool

/-- `struct FusionParam`: the four noise parameters. -/
structure FusionParam (α : Type) where
  gyro_var : α
  gyro_bias_var : α
  acc_stdev : α
  mag_stdev : α

/-- `struct Fusion`: the engine state (declared in `fusion/fusion.h`).
`mInitState`, `mCount*` and `flags` are taken to be unsigned 32-bit words. -/
structure Fusion (α : Type) where
  x0 : Quat α
  x1 : Vec3 α
  P00 : Mat33 α
  P01 : Mat33 α
  P10 : Mat33 α
  P11 : Mat33 α
  GQGt00 : Mat33 α
  GQGt01 : Mat33 α
  GQGt10 : Mat33 α
  GQGt11 : Mat33 α
  Phi0_0 : Mat33 α
  Phi0_1 : Mat33 α
  Ba : Vec3 α
  Bm : Vec3 α
  mInitState : Nat
  mGyroRate : α
  mData0 : Vec3 α
  mData1 : Vec3 α
  mData2 : Vec3 α
  mCount0 : Nat
  mCount1 : Nat
  mCount2 : Nat
  flags : Nat
  param : FusionParam α

/-- What a sample handler returns and leaves behind: the `int` result, the
engine state, and the function-local `static float fake_mag_decimation` of
`fusionHandleAcc`, made explicit. -/
structure HandlerResult (α : Type) where
  ret : Int
  fusion : Fusion α
  fake_mag_decimation : α

/-! ## Constants of `fusion.c`

The parameter defaults and the literals used inside the estimator proper have
the values of their decimals.  The thresholds that the handlers and the guard
of `fusionPredict` compare a computed value with have the values the literals
take in the source: binary32 for a `float` literal, binary64 for a `double`
one, products rounded likewise (`threshold_values` below relates them to the
decimals). -/

def ACC : Nat := 1
def MAG : Nat := 2
def GYRO : Nat := 4

/-- The value of `EINVAL` in `<errno.h>`. -/
def EINVAL : Int := 22

section Scalars

variable {α : Type} [LinearOrderedField α]

def DEFAULT_GYRO_VAR : α := 1 / 10000000
def DEFAULT_GYRO_BIAS_VAR : α := 1 / 1000000000000
def DEFAULT_ACC_STDEV : α := 15 / 1000
def DEFAULT_MAG_STDEV : α := 10 / 1000

def GEOMAG_GYRO_VAR : α := 1 / 10000
def GEOMAG_GYRO_BIAS_VAR : α := 1 / 100000000
def GEOMAG_ACC_STDEV : α := 5 / 100
def GEOMAG_MAG_STDEV : α := 1 / 10

def SYMMETRY_TOLERANCE : α := 1 / 10000000000
def FAKE_MAG_INTERVAL : α := 1

/-- `NOMINAL_GRAVITY`, the `float` literal `9.81f`. -/
def NOMINAL_GRAVITY : α := 10286531 / 1048576

/-- `FREE_FALL_THRESHOLD`, the `float` product `0.1f * NOMINAL_GRAVITY`
(0.98100006...). -/
def FREE_FALL_THRESHOLD : α := 8229225 / 8388608

/-- `FREE_FALL_THRESHOLD_SQ`, the `float` product
`FREE_FALL_THRESHOLD * FREE_FALL_THRESHOLD` (0.96236115...). -/
def FREE_FALL_THRESHOLD_SQ : α := 16145741 / 16777216

def MAX_VALID_MAGNETIC_FIELD : α := 100
def MAX_VALID_MAGNETIC_FIELD_SQ : α := MAX_VALID_MAGNETIC_FIELD * MAX_VALID_MAGNETIC_FIELD

def MIN_VALID_MAGNETIC_FIELD : α := 10
def MIN_VALID_MAGNETIC_FIELD_SQ : α := MIN_VALID_MAGNETIC_FIELD * MIN_VALID_MAGNETIC_FIELD

/-- `MIN_VALID_CROSS_PRODUCT_MAG`, the `double` literal `1.0e-3`. -/
def MIN_VALID_CROSS_PRODUCT_MAG : α := 1152921504606847 / 1152921504606846976

/-- `MIN_VALID_CROSS_PRODUCT_MAG_SQ`, the `double` product of
`MIN_VALID_CROSS_PRODUCT_MAG` with itself; the `float` it is compared with is
converted to `double`, which does not change its value. -/
def MIN_VALID_CROSS_PRODUCT_MAG_SQ : α := 4722366482869645 / 4722366482869645213696

/-- `kEps`, the `float` literal `1.0E-4f` (0.0000999999974...). -/
def kEps : α := 13743895 / 137438953472

/-! ## The math kernel (`fusion/vec.h`, `fusion/mat.h`) -/

/-- Modelled from the spec: `initVec3` of the absent vector kernel, the vector
with the given components. -/
def initVec3 (x y z : α) : Vec3 α := ⟨x, y, z⟩

/-- Modelled from the spec: `initVec4` of the absent vector kernel. -/
def initVec4 (x y z w : α) : Vec4 α := ⟨x, y, z, w⟩

/-- Modelled from the spec: `vec3Add(v, w)` of the absent vector kernel, the
in-place sum `v += w`. -/
def vec3Add (v w : Vec3 α) : Vec3 α := ⟨v.x + w.x, v.y + w.y, v.z + w.z⟩

/-- Modelled from the spec: `vec3Sub(v, w)` of the absent vector kernel, the
in-place difference `v -= w`. -/
def vec3Sub (v w : Vec3 α) : Vec3 α := ⟨v.x - w.x, v.y - w.y, v.z - w.z⟩

/-- Modelled from the spec: `vec3ScalarMul(v, c)` of the absent vector kernel,
the in-place scaling `v *= c`. -/
def vec3ScalarMul (v : Vec3 α) (c : α) : Vec3 α := ⟨v.x * c, v.y * c, v.z * c⟩

/-- Modelled from the spec: `vec3Cross(out, u, v)` of the absent vector kernel,
the cross product `u × v`. -/
def vec3Cross (u v : Vec3 α) : Vec3 α :=
  ⟨u.y * v.z - u.z * v.y, u.z * v.x - u.x * v.z, u.x * v.y - u.y * v.x⟩

/-- Modelled from the spec: `vec3NormSquared` of the absent vector kernel, the
squared Euclidean norm. -/
def vec3NormSquared (v : Vec3 α) : α := v.x * v.x + v.y * v.y + v.z * v.z

/-- Modelled from the spec: `vec3Norm` of the absent vector kernel, the square
root (of the C math library) of the squared norm. -/
def vec3Norm (env : Env α) (v : Vec3 α) : α := env.sqrtf (vec3NormSquared v)

/-- Modelled from the spec: `vec3Normalize` of the absent vector kernel, the
vector scaled by the inverse of its norm. -/
def vec3Normalize (env : Env α) (v : Vec3 α) : Vec3 α :=
  vec3ScalarMul v (1 / vec3Norm env v)

/-- Modelled from the spec: `initZeroMatrix` of the absent matrix kernel. -/
def initZeroMatrix : Mat33 α := 0

/-- Modelled from the spec: `initDiagonalMatrix(A, x)` of the absent matrix
kernel, the matrix `diag(x, x, x)`. -/
def initDiagonalMatrix (x : α) : Mat33 α := Matrix.diagonal fun _ => x

/-- Modelled from the spec: `initMatrixColumns` of the absent matrix kernel,
the matrix whose columns are the three vectors. -/
def initMatrixColumns (v1 v2 v3 : Vec3 α) : Mat33 α :=
  !![v1.x, v2.x, v3.x; v1.y, v2.y, v3.y; v1.z, v2.z, v3.z]

/-- Modelled from the spec: `mat33Add(out, A)` of the absent matrix kernel,
the in-place sum `out += A`. -/
def mat33Add (out A : Mat33 α) : Mat33 α := out + A

/-- Modelled from the spec: `mat33Sub(out, A)` of the absent matrix kernel,
the in-place difference `out -= A`. -/
def mat33Sub (out A : Mat33 α) : Mat33 α := out - A

/-- Modelled from the spec: `mat33ScalarMul(A, c)` of the absent matrix kernel,
the in-place scaling `A *= c`. -/
def mat33ScalarMul (A : Mat33 α) (c : α) : Mat33 α := c • A

/-- Modelled from the spec: `mat33Multiply(out, A, B)` of the absent matrix
kernel, the product `A · B`. -/
def mat33Multiply (A B : Mat33 α) : Mat33 α := A * B

/-- Modelled from the spec: `mat33MultiplyTransposed(out, A, B)` of the absent
matrix kernel, the product `Aᵀ · B`. -/
def mat33MultiplyTransposed (A B : Mat33 α) : Mat33 α := A.transpose * B

/-- Modelled from the spec: `mat33MultiplyTransposed2(out, A, B)` of the absent
matrix kernel, the product `A · Bᵀ`. -/
def mat33MultiplyTransposed2 (A B : Mat33 α) : Mat33 α := A * B.transpose

/-- Modelled from the spec: `mat33Transpose(out, A)` of the absent matrix
kernel. -/
def mat33Transpose (A : Mat33 α) : Mat33 α := A.transpose

/-- Modelled from the spec: `mat33Apply(out, A, v)` of the absent matrix
kernel, the matrix-vector product `A · v`. -/
def mat33Apply (A : Mat33 α) (v : Vec3 α) : Vec3 α :=
  ⟨A 0 0 * v.x + A 0 1 * v.y + A 0 2 * v.z,
   A 1 0 * v.x + A 1 1 * v.y + A 1 2 * v.z,
   A 2 0 * v.x + A 2 1 * v.y + A 2 2 * v.z⟩

/-- Modelled from the spec: `mat44Apply(out, A, v)` of the absent matrix
kernel, the matrix-vector product `A · v` on four components. -/
def mat44Apply (A : Mat44 α) (v : Vec4 α) : Vec4 α :=
  ⟨A 0 0 * v.x + A 0 1 * v.y + A 0 2 * v.z + A 0 3 * v.w,
   A 1 0 * v.x + A 1 1 * v.y + A 1 2 * v.z + A 1 3 * v.w,
   A 2 0 * v.x + A 2 1 * v.y + A 2 2 * v.z + A 2 3 * v.w,
   A 3 0 * v.x + A 3 1 * v.y + A 3 2 * v.z + A 3 3 * v.w⟩

/-- The determinant of a 3x3 matrix, expanded along the first row. -/
def mat33Det (A : Mat33 α) : α :=
  A 0 0 * (A 1 1 * A 2 2 - A 1 2 * A 2 1)
    - A 0 1 * (A 1 0 * A 2 2 - A 1 2 * A 2 0)
    + A 0 2 * (A 1 0 * A 2 1 - A 1 1 * A 2 0)

/-- Modelled from the spec: `mat33Invert(out, A)` of the absent matrix kernel,
"a direct 3×3 inverse": the adjugate divided by the determinant. -/
def mat33Invert (A : Mat33 α) : Mat33 α :=
  (1 / mat33Det A) •
    !![A 1 1 * A 2 2 - A 1 2 * A 2 1, A 0 2 * A 2 1 - A 0 1 * A 2 2, A 0 1 * A 1 2 - A 0 2 * A 1 1;
       A 1 2 * A 2 0 - A 1 0 * A 2 2, A 0 0 * A 2 2 - A 0 2 * A 2 0, A 0 2 * A 1 0 - A 0 0 * A 1 2;
       A 1 0 * A 2 1 - A 1 1 * A 2 0, A 0 1 * A 2 0 - A 0 0 * A 2 1, A 0 0 * A 1 1 - A 0 1 * A 1 0]

/-! ## The vector kernel in `float` arithmetic

What `fusionHandleAcc` and `fusionHandleMag` test is the `float` the kernel
returns.  These are the kernel routines they call, with the rounding `fl` after
every product, sum and difference, the sums taken from left to right. -/

/-- Modelled from the spec: `vec3ScalarMul(v, c)` computed in `float`. -/
def vec3ScalarMulF (env : Env α) (v : Vec3 α) (c : α) : Vec3 α :=
  ⟨env.fl (v.x * c), env.fl (v.y * c), env.fl (v.z * c)⟩

/-- Modelled from the spec: `vec3Cross(out, u, v)` computed in `float`. -/
def vec3CrossF (env : Env α) (u v : Vec3 α) : Vec3 α :=
  ⟨env.fl (env.fl (u.y * v.z) - env.fl (u.z * v.y)),
   env.fl (env.fl (u.z * v.x) - env.fl (u.x * v.z)),
   env.fl (env.fl (u.x * v.y) - env.fl (u.y * v.x))⟩

/-- Modelled from the spec: `vec3NormSquared` computed in `float`. -/
def vec3NormSquaredF (env : Env α) (v : Vec3 α) : α :=
  env.fl (env.fl (env.fl (v.x * v.x) + env.fl (v.y * v.y)) + env.fl (v.z * v.z))

/-- Modelled from the spec: `vec3Norm` computed in `float`. -/
def vec3NormF (env : Env α) (v : Vec3 α) : α := env.sqrtf (vec3NormSquaredF env v)

/-- Modelled from the spec: `mat33Apply(out, A, v)` computed in `float`. -/
def mat33ApplyF (env : Env α) (A : Mat33 α) (v : Vec3 α) : Vec3 α :=
  ⟨env.fl (env.fl (env.fl (A 0 0 * v.x) + env.fl (A 0 1 * v.y)) + env.fl (A 0 2 * v.z)),
   env.fl (env.fl (env.fl (A 1 0 * v.x) + env.fl (A 1 1 * v.y)) + env.fl (A 1 2 * v.z)),
   env.fl (env.fl (env.fl (A 2 0 * v.x) + env.fl (A 2 1 * v.y)) + env.fl (A 2 2 * v.z))⟩

/-! ## `fusion.c` -/

/-- `initFusion`. -/
def initFusion (env : Env α) (fusion : Fusion α) (flags : Nat) : Fusion α :=
  let fusion := { fusion with flags := flags }
  let fusion :=
    if flags &&& env.FUSION_USE_GYRO ≠ 0 then
      { fusion with param :=
          { gyro_var := DEFAULT_GYRO_VAR, gyro_bias_var := DEFAULT_GYRO_BIAS_VAR,
            acc_stdev := DEFAULT_ACC_STDEV, mag_stdev := DEFAULT_MAG_STDEV } }
    else
      { fusion with param :=
          { gyro_var := GEOMAG_GYRO_VAR, gyro_bias_var := GEOMAG_GYRO_BIAS_VAR,
            acc_stdev := GEOMAG_ACC_STDEV, mag_stdev := GEOMAG_MAG_STDEV } }
  if flags &&& env.FUSION_REINITIALIZE ≠ 0 then
    { fusion with
        Ba := initVec3 0 0 1
        Bm := initVec3 0 1 0
        x0 := initVec4 0 0 0 0
        x1 := initVec3 0 0 0
        mInitState := 0
        mGyroRate := 0
        mCount0 := 0
        mCount1 := 0
        mCount2 := 0
        mData0 := initVec3 0 0 0
        mData1 := initVec3 0 0 0
        mData2 := initVec3 0 0 0 }
  else
    { fusion with
        mInitState := fusion.mInitState &&&
          (ACC ||| (if fusion.flags &&& env.FUSION_USE_MAG ≠ 0 then MAG else 0)
               ||| (if fusion.flags &&& env.FUSION_USE_GYRO ≠ 0 then GYRO else 0)) }

/-- `fusionHasEstimate`. -/
def fusionHasEstimate (env : Env α) (fusion : Fusion α) : Bool :=
  fusion.mInitState ==
    (ACC ||| (if fusion.flags &&& env.FUSION_USE_MAG ≠ 0 then MAG else 0)
         ||| (if fusion.flags &&& env.FUSION_USE_GYRO ≠ 0 then GYRO else 0))

/-- `internalInit`. -/
def internalInit (fusion : Fusion α) (q : Quat α) (dT : α) : Fusion α :=
  let dT2 := dT * dT
  let dT3 := dT2 * dT
  let q00 := fusion.param.gyro_var * dT + (33333 / 100000) * fusion.param.gyro_bias_var * dT3
  let q11 := fusion.param.gyro_var * dT
  let q10 := (1 / 2) * fusion.param.gyro_bias_var * dT2
  let q01 := q10
  { fusion with
      x0 := q
      x1 := initVec3 0 0 0
      GQGt00 := initDiagonalMatrix q00
      GQGt01 := initDiagonalMatrix (-q10)
      GQGt10 := initDiagonalMatrix (-q01)
      GQGt11 := initDiagonalMatrix q11
      P00 := initZeroMatrix
      P01 := initZeroMatrix
      P10 := initZeroMatrix
      P11 := initZeroMatrix }

/-- The `switch (what)` of `fusion_init_complete`: one sample is accumulated.
`++fusion->mCount[i]` wraps at 32 bits. -/
def fusion_init_accumulate (env : Env α) (fusion : Fusion α) (what : Nat) (d : Vec3 α)
    (dT : α) : Fusion α :=
  if what = ACC then
    let fusion :=
      if ¬ (fusion.flags &&& env.FUSION_USE_GYRO ≠ 0) then { fusion with mGyroRate := dT }
      else fusion
    let unityD := vec3Normalize env d
    let fusion := { fusion with mData0 := vec3Add fusion.mData0 unityD }
    let fusion := { fusion with mCount0 := (fusion.mCount0 + 1) % 2 ^ 32 }
    if fusion.mCount0 = 32 then { fusion with mInitState := fusion.mInitState ||| ACC }
    else fusion
  else if what = MAG then
    let unityD := vec3Normalize env d
    let fusion := { fusion with mData1 := vec3Add fusion.mData1 unityD }
    let fusion := { fusion with mCount1 := (fusion.mCount1 + 1) % 2 ^ 32 }
    { fusion with mInitState := fusion.mInitState ||| MAG }
  else if what = GYRO then
    let fusion := { fusion with mGyroRate := dT }
    let scaledD := vec3ScalarMul d dT
    let fusion := { fusion with mData2 := vec3Add fusion.mData2 scaledD }
    let fusion := { fusion with mCount2 := (fusion.mCount2 + 1) % 2 ^ 32 }
    { fusion with mInitState := fusion.mInitState ||| GYRO }
  else fusion

/-- The closing `if (fusionHasEstimate(fusion))` block of `fusion_init_complete`:
the averaged samples are turned into the initial attitude and the filter is
seeded. -/
def fusion_init_finalize (env : Env α) (fusion : Fusion α) : Fusion α :=
  let fusion :=
    { fusion with mData0 := vec3ScalarMul fusion.mData0 (1 / (fusion.mCount0 : α)) }
  let fusion :=
    if fusion.flags &&& env.FUSION_USE_MAG ≠ 0 then
      { fusion with mData1 := vec3ScalarMul fusion.mData1 (1 / (fusion.mCount1 : α)) }
    else fusion
  let up := fusion.mData0
  let east :=
    if fusion.flags &&& env.FUSION_USE_MAG ≠ 0 then
      vec3Normalize env (vec3Cross fusion.mData1 up)
    else env.findOrthogonalVector up.x up.y up.z
  let north := vec3Cross up east
  let R := initMatrixColumns east north up
  let q := env.initQuat R
  internalInit fusion q fusion.mGyroRate

/-- `fusion_init_complete`: the returned `int` and the state left behind. -/
def fusion_init_complete (env : Env α) (fusion : Fusion α) (what : Nat) (d : Vec3 α)
    (dT : α) : Int × Fusion α :=
  if fusionHasEstimate env fusion then (1, fusion)
  else
    let fusion := fusion_init_accumulate env fusion what d dT
    if fusionHasEstimate env fusion then (0, fusion_init_finalize env fusion)
    else (0, fusion)

/-- `matrixCross`: the skew matrix of `p` with `diag` on the diagonal. -/
def matrixCross (p : Vec3 α) (diag : α) : Mat33 α :=
  !![diag, -p.z, p.y;
     p.z, diag, -p.x;
     -p.y, p.x, diag]

/-- `fusionCheckState`. -/
def fusionCheckState (env : Env α) (fusion : Fusion α) : Fusion α :=
  if (!env.mat33IsPositiveSemidefinite fusion.P00 SYMMETRY_TOLERANCE
      || !env.mat33IsPositiveSemidefinite fusion.P11 SYMMETRY_TOLERANCE) then
    { fusion with
        P00 := initZeroMatrix
        P01 := initZeroMatrix
        P10 := initZeroMatrix
        P11 := initZeroMatrix }
  else fusion

/-- `fusionPredict`. -/
def fusionPredict (env : Env α) (fusion : Fusion α) (w : Vec3 α) (dT : α) : Fusion α :=
  let q := fusion.x0
  let b := fusion.x1
  let we := vec3Sub w b
  let I33 : Mat33 α := initDiagonalMatrix 1
  let I33dT : Mat33 α := initDiagonalMatrix dT
  let wx := matrixCross we 0
  let wx2 := mat33Multiply wx wx
  let norm_we := vec3Norm env we
  if |norm_we| < kEps then fusion
  else
    let lwedT := norm_we * dT
    let hlwedT := (1 / 2) * lwedT
    let ilwe := 1 / norm_we
    let k0 := (1 - env.cosf lwedT) * (ilwe * ilwe)
    let k1 := env.sinf lwedT
    let k2 := env.cosf hlwedT
    let psi := vec3ScalarMul we (env.sinf hlwedT * ilwe)
    let negPsi := vec3ScalarMul psi (-1)
    let O33 := matrixCross negPsi k2
    let O : Mat44 α :=
      !![O33 0 0, O33 0 1, O33 0 2, psi.x;
         O33 1 0, O33 1 1, O33 1 2, psi.y;
         O33 2 0, O33 2 1, O33 2 2, psi.z;
         -psi.x, -psi.y, -psi.z, k2]
    let tmp := mat33ScalarMul wx (k1 * ilwe)
    let Phi0_0 := mat33Sub I33 tmp
    let tmp := mat33ScalarMul wx2 k0
    let Phi0_0 := mat33Add Phi0_0 tmp
    let tmp := mat33ScalarMul wx k0
    let Phi0_1 := tmp
    let Phi0_1 := mat33Sub Phi0_1 I33dT
    let tmp := mat33ScalarMul wx2 (ilwe * ilwe * ilwe * (lwedT - k1))
    let Phi0_1 := mat33Sub Phi0_1 tmp
    let x0 := mat44Apply O q
    let x0 : Quat α := if x0.w < 0 then ⟨-x0.x, -x0.y, -x0.z, -x0.w⟩ else x0
    -- Pnew = Phi * P
    let Pnew00 := mat33Multiply Phi0_0 fusion.P00
    let tmp := mat33Multiply Phi0_1 fusion.P10
    let Pnew00 := mat33Add Pnew00 tmp
    let Pnew01 := mat33Multiply Phi0_0 fusion.P01
    let tmp := mat33Multiply Phi0_1 fusion.P11
    let Pnew01 := mat33Add Pnew01 tmp
    let Pnew10 := fusion.P10
    let Pnew11 := fusion.P11
    -- P = Pnew * Phi^T
    let P00 := mat33MultiplyTransposed2 Pnew00 Phi0_0
    let tmp := mat33MultiplyTransposed2 Pnew01 Phi0_1
    let P00 := mat33Add P00 tmp
    let P01 := Pnew01
    let P10 := mat33MultiplyTransposed2 Pnew10 Phi0_0
    let tmp := mat33MultiplyTransposed2 Pnew11 Phi0_1
    let P10 := mat33Add P10 tmp
    let P11 := Pnew11
    let P00 := mat33Add P00 fusion.GQGt00
    let P01 := mat33Add P01 fusion.GQGt01
    let P10 := mat33Add P10 fusion.GQGt10
    let P11 := mat33Add P11 fusion.GQGt11
    fusionCheckState env
      { fusion with
          Phi0_0 := Phi0_0
          Phi0_1 := Phi0_1
          x0 := x0
          P00 := P00
          P01 := P01
          P10 := P10
          P11 := P11 }

/-- `fusionHandleGyro`. -/
def fusionHandleGyro (env : Env α) (fusion : Fusion α) (w : Vec3 α) (dT : α) : Fusion α :=
  let r := fusion_init_complete env fusion GYRO w dT
  if r.1 = 0 then r.2
  else fusionPredict env r.2 w dT

/-- The loop body of `scaleCovariance` for one pair `(r, j)`: the value `apat`. -/
def scaleCovarianceEntry (A P : Mat33 α) (r j : Fin 3) : α :=
  (List.finRange 3).foldl
    (fun apat c =>
      let v := ((List.finRange 3).filter fun k => c < k).foldl
        (fun v k => v + A k r * P c k) (A c r * P c c * (1 / 2))
      apat + 2 * v * A c j)
    0

/-- `scaleCovariance`: for every `r` and every `j ≥ r` the loop stores the same
`apat` in `out[r][j]` and in `out[j][r]`. -/
def scaleCovariance (A P : Mat33 α) : Mat33 α :=
  Matrix.of fun i j => if i ≤ j then scaleCovarianceEntry A P i j else scaleCovarianceEntry A P j i

/-- `getF`: the three columns `F[0]`, `F[1]`, `F[2]`. -/
def getF (q : Vec4 α) : Vec4 α × Vec4 α × Vec4 α :=
  (⟨q.w, q.z, -q.y, -q.x⟩, ⟨-q.z, q.w, q.x, -q.y⟩, ⟨q.y, -q.x, q.w, -q.z⟩)

/-- `fusionUpdate`. -/
def fusionUpdate (env : Env α) (fusion : Fusion α) (z Bi : Vec3 α) (sigma : α) : Fusion α :=
  let A := env.quatToMatrix fusion.x0
  let Bb := mat33Apply A Bi
  let L := matrixCross Bb 0
  let R : Mat33 α := initDiagonalMatrix (sigma * sigma)
  let S := scaleCovariance L fusion.P00
  let S := mat33Add S R
  let Si := mat33Invert S
  let LtSi := mat33MultiplyTransposed L Si
  let K0 := mat33Multiply fusion.P00 LtSi
  let K1 := mat33MultiplyTransposed fusion.P01 LtSi
  let K0L := mat33Multiply K0 L
  let K1L := mat33Multiply K1 L
  let tmp := mat33Multiply K0L fusion.P00
  let P00 := mat33Sub fusion.P00 tmp
  let tmp := mat33Multiply K1L fusion.P01
  let P11 := mat33Sub fusion.P11 tmp
  let tmp := mat33Multiply K0L fusion.P01
  let P01 := mat33Sub fusion.P01 tmp
  let P10 := mat33Transpose P01
  let e := vec3Sub z Bb
  let dq := mat33Apply K0 e
  let F := getF fusion.x0
  let q : Vec4 α :=
    ⟨fusion.x0.x + (1 / 2) * (F.1.x * dq.x + F.2.1.x * dq.y + F.2.2.x * dq.z),
     fusion.x0.y + (1 / 2) * (F.1.y * dq.x + F.2.1.y * dq.y + F.2.2.y * dq.z),
     fusion.x0.z + (1 / 2) * (F.1.z * dq.x + F.2.1.z * dq.y + F.2.2.z * dq.z),
     fusion.x0.w + (1 / 2) * (F.1.w * dq.x + F.2.1.w * dq.y + F.2.2.w * dq.z)⟩
  let x0 := env.quatNormalize q
  let x1 :=
    if fusion.flags &&& env.FUSION_USE_MAG ≠ 0 then
      let db := mat33Apply K1 e
      vec3Add fusion.x1 db
    else fusion.x1
  fusionCheckState env
    { fusion with
        P00 := P00
        P11 := P11
        P01 := P01
        P10 := P10
        x0 := x0
        x1 := x1 }

/-- `fusionGetRotationMatrix`. -/
def fusionGetRotationMatrix (env : Env α) (fusion : Fusion α) : Mat33 α :=
  env.quatToMatrix fusion.x0

/-- `fusionGetAttitude`. -/
def fusionGetAttitude (fusion : Fusion α) : Vec4 α := fusion.x0

/-- `fusionGetBias`. -/
def fusionGetBias (fusion : Fusion α) : Vec3 α := fusion.x1

/-- `fusionHandleAcc`, in `float` arithmetic; the argument
`fake_mag_decimation` is the value of the function-local static on entry. -/
def fusionHandleAcc (env : Env α) (fusion : Fusion α) (fake_mag_decimation : α)
    (a : Vec3 α) (dT : α) : HandlerResult α :=
  let r := fusion_init_complete env fusion ACC a dT
  let fusion := r.2
  if r.1 = 0 then ⟨-EINVAL, fusion, fake_mag_decimation⟩
  else
    let norm2 := vec3NormSquaredF env a
    if norm2 < FREE_FALL_THRESHOLD_SQ then ⟨-EINVAL, fusion, fake_mag_decimation⟩
    else
      let l := env.sqrtf norm2
      let l_inv := env.fl (1 / l)
      let fusion :=
        if ¬ (fusion.flags &&& env.FUSION_USE_GYRO ≠ 0) then
          let w_dummy := initVec3 (env.fl (fusion.x1.x + kEps)) (env.fl (fusion.x1.y + kEps))
            (env.fl (fusion.x1.z + kEps))
          fusionPredict env fusion w_dummy dT
        else fusion
      let s : Fusion α × α :=
        if ¬ (fusion.flags &&& env.FUSION_USE_MAG ≠ 0) then
          let fake_mag_decimation := env.fl (fake_mag_decimation + dT)
          if fake_mag_decimation > FAKE_MAG_INTERVAL then
            let R := fusionGetRotationMatrix env fusion
            let m := mat33ApplyF env R fusion.Bm
            (fusionUpdate env fusion m fusion.Bm fusion.param.mag_stdev, 0)
          else (fusion, fake_mag_decimation)
        else (fusion, fake_mag_decimation)
      let fusion := s.1
      let fake_mag_decimation := s.2
      let unityA := vec3ScalarMulF env a l_inv
      let d := env.sqrtf |env.fl (l - NOMINAL_GRAVITY)|
      let p := env.fl (env.fl (l_inv * fusion.param.acc_stdev) * env.expf d)
      ⟨0, fusionUpdate env fusion unityA fusion.Ba p, fake_mag_decimation⟩

/-- `fusionHandleMag`, in `float` arithmetic; the static of `fusionHandleAcc` is
passed through. -/
def fusionHandleMag (env : Env α) (fusion : Fusion α) (fake_mag_decimation : α)
    (m : Vec3 α) : HandlerResult α :=
  let r := fusion_init_complete env fusion MAG m 0
  let fusion := r.2
  if r.1 = 0 then ⟨-EINVAL, fusion, fake_mag_decimation⟩
  else
    let magFieldSq := vec3NormSquaredF env m
    if magFieldSq > MAX_VALID_MAGNETIC_FIELD_SQ then ⟨-EINVAL, fusion, fake_mag_decimation⟩
    else if magFieldSq < MIN_VALID_MAGNETIC_FIELD_SQ then
      ⟨-EINVAL, fusion, fake_mag_decimation⟩
    else
      let R := fusionGetRotationMatrix env fusion
      let up := mat33ApplyF env R fusion.Ba
      let east := vec3CrossF env m up
      if vec3NormSquaredF env east < MIN_VALID_CROSS_PRODUCT_MAG_SQ then
        ⟨-EINVAL, fusion, fake_mag_decimation⟩
      else
        let north := vec3CrossF env up east
        let invNorm := env.fl (1 / vec3NormF env north)
        let north := vec3ScalarMulF env north invNorm
        ⟨0, fusionUpdate env fusion north fusion.Bm (env.fl (fusion.param.mag_stdev * invNorm)),
          fake_mag_decimation⟩

end Scalars

/-! ## A concrete environment over `ℚ`

Used to evaluate the definitions at concrete inputs.  The flag bits are three
distinct bits; the arithmetic is exact (`fl` is the identity); the square root
is exact on squares of rationals; the remaining library routines are rational
stand-ins. -/

/-- Rotation matrix of a quaternion (x, y, z, w), the usual formula. -/
def evalQuatToMatrix (q : Quat ℚ) : Mat33 ℚ :=
  !![1 - 2 * (q.y * q.y + q.z * q.z), 2 * (q.x * q.y - q.z * q.w), 2 * (q.x * q.z + q.y * q.w);
     2 * (q.x * q.y + q.z * q.w), 1 - 2 * (q.x * q.x + q.z * q.z), 2 * (q.y * q.z - q.x * q.w);
     2 * (q.x * q.z - q.y * q.w), 2 * (q.y * q.z + q.x * q.w), 1 - 2 * (q.x * q.x + q.y * q.y)]

/-- Symmetry within the tolerance and a non-negative diagonal. -/
def evalIsPositiveSemidefinite (A : Mat33 ℚ) (tolerance : ℚ) : Bool :=
  decide (0 ≤ A 0 0) && decide (0 ≤ A 1 1) && decide (0 ≤ A 2 2)
    && decide (|A 0 1 - A 1 0| ≤ tolerance) && decide (|A 0 2 - A 2 0| ≤ tolerance)
    && decide (|A 1 2 - A 2 1| ≤ tolerance)

/-- The environment used for evaluation. -/
def evalEnv : Env ℚ where
  FUSION_USE_MAG := 1
  FUSION_USE_GYRO := 2
  FUSION_REINITIALIZE := 4
  fl := fun x => x
  sqrtf := Rat.sqrt
  sinf := fun x => x - x * x * x / 6
  cosf := fun x => 1 - x * x / 2
  expf := fun x => 1 + x + x * x / 2
  quatToMatrix := evalQuatToMatrix
  initQuat := fun R =>
    let w := Rat.sqrt (1 + R 0 0 + R 1 1 + R 2 2) / 2
    ⟨(R 2 1 - R 1 2) / (4 * w), (R 0 2 - R 2 0) / (4 * w), (R 1 0 - R 0 1) / (4 * w), w⟩
  quatNormalize := fun q =>
    let n := Rat.sqrt (q.x * q.x + q.y * q.y + q.z * q.z + q.w * q.w)
    ⟨q.x / n, q.y / n, q.z / n, q.w / n⟩
  findOrthogonalVector := fun x y _ =>
    if x = 0 ∧ y = 0 then ⟨1, 0, 0⟩
    else
      let n := Rat.sqrt (x * x + y * y)
      ⟨-y / n, x / n, 0⟩
  mat33IsPositiveSemidefinite := evalIsPositiveSemidefinite

/-! ## `float` arithmetic over `ℚ` -/

/-- Rounding to the nearest number of a binary floating-point format with `p`
bits of precision and least normal exponent `emin`, ties to even.  The
exponent is not bounded above: overflow to infinity is not modelled. -/
@[irreducible]
def roundBinary (p : Nat) (emin : Int) (x : ℚ) : ℚ :=
  let e : Int := max (Int.log 2 |x|) emin
  let q : ℚ := 2 ^ (e - ((p : Int) - 1))
  let t : ℚ := |x| / q
  let n : Int := ⌊t⌋
  let r : ℚ := t - n
  let m : Int :=
    if r < 1 / 2 then n else if 1 / 2 < r then n + 1 else if n % 2 = 0 then n else n + 1
  (if x < 0 then -1 else 1) * (m : ℚ) * q

/-- Rounding to `float` (IEEE 754 binary32). -/
def roundFloat (x : ℚ) : ℚ := roundBinary 24 (-126) x

/-- Rounding to `double` (IEEE 754 binary64). -/
def roundDouble (x : ℚ) : ℚ := roundBinary 53 (-1022) x

/-- The environment of `evalEnv` with `float` arithmetic: every operation of
the sample handlers is rounded to binary32.  The library routines remain the
rational stand-ins of `evalEnv`. -/
def floatEnv : Env ℚ := { evalEnv with fl := roundFloat }

/-- An all-zero engine state with the given flags and bootstrap mask. -/
def zeroFusion (flags mInitState : Nat) : Fusion ℚ where
  x0 := ⟨0, 0, 0, 0⟩
  x1 := ⟨0, 0, 0⟩
  P00 := 0
  P01 := 0
  P10 := 0
  P11 := 0
  GQGt00 := 0
  GQGt01 := 0
  GQGt10 := 0
  GQGt11 := 0
  Phi0_0 := 0
  Phi0_1 := 0
  Ba := ⟨0, 0, 1⟩
  Bm := ⟨0, 1, 0⟩
  mInitState := mInitState
  mGyroRate := 0
  mData0 := ⟨0, 0, 0⟩
  mData1 := ⟨0, 0, 0⟩
  mData2 := ⟨0, 0, 0⟩
  mCount0 := 0
  mCount1 := 0
  mCount2 := 0
  flags := flags
  param := ⟨0, 0, 0, 0⟩

/-- A bootstrapped geomag-mode engine (USE_MAG only) at the identity attitude
with identity covariance blocks. -/
def geomagFusion : Fusion ℚ :=
  { zeroFusion 1 3 with
      x0 := ⟨0, 0, 0, 1⟩
      P00 := 1
      P01 := 1
      P10 := 1
      P11 := 1 }


/-! ## Feeding samples

The sensor dispatcher, which is outside `fusion.c`, calls one handler per
sample.  A sequence of such calls is a left fold over the list of samples;
the state threaded through is the engine together with the static
accumulator of `fusionHandleAcc`. -/

/-- One sensor sample as the dispatcher delivers it. -/
inductive Sample (α : Type) where
  | acc (a : Vec3 α) (dT : α)
  | mag (m : Vec3 α)
  | gyro (w : Vec3 α) (dT : α)

/-- True for an accelerometer sample. -/
def Sample.isAcc {α : Type} : Sample α → Bool
  | .acc _ _ => true
  | _ => false

/-- True for a magnetometer sample. -/
def Sample.isMag {α : Type} : Sample α → Bool
  | .mag _ => true
  | _ => false

/-- True for a gyro sample. -/
def Sample.isGyro {α : Type} : Sample α → Bool
  | .gyro _ _ => true
  | _ => false

/-- The handler call made for one sample. -/
def handleSample {α : Type} [LinearOrderedField α] (env : Env α) (s : Fusion α × α) :
    Sample α → Fusion α × α
  | .acc a dT =>
      ((fusionHandleAcc env s.1 s.2 a dT).fusion,
        (fusionHandleAcc env s.1 s.2 a dT).fake_mag_decimation)
  | .mag m =>
      ((fusionHandleMag env s.1 s.2 m).fusion, (fusionHandleMag env s.1 s.2 m).fake_mag_decimation)
  | .gyro w dT => (fusionHandleGyro env s.1 w dT, s.2)

/-- The handler calls made for a sequence of samples, in order. -/
def handleSamples {α : Type} [LinearOrderedField α] (env : Env α) (s : Fusion α × α)
    (l : List (Sample α)) : Fusion α × α :=
  l.foldl (handleSample env) s

/-- The bootstrap mask with the given bits: ACC, MAG, GYRO. -/
def maskOf (a m g : Bool) : Nat :=
  (if a then ACC else 0) ||| (if m then MAG else 0) ||| (if g then GYRO else 0)


/-- The covariance symmetry predicate: `P[1][0]` is the transpose of `P[0][1]`
and the diagonal blocks `P[0][0]`, `P[1][1]` are symmetric. -/
def CovSymmetric {α : Type} (f : Fusion α) : Prop :=
  f.P10 = f.P01.transpose ∧ f.P00.transpose = f.P00 ∧ f.P11.transpose = f.P11

instance {α : Type} [DecidableEq α] (f : Fusion α) : Decidable (CovSymmetric f) := by
  unfold CovSymmetric
  infer_instance

/-- The process-noise blocks of `f` are the ones `internalInit` builds when
called on the engine `g` with the quaternion `q` and the step `dT`. -/
def GQGtSeeded {α : Type} [LinearOrderedField α] (f g : Fusion α) (q : Quat α) (dT : α) :
    Prop :=
  f.GQGt00 = (internalInit g q dT).GQGt00 ∧ f.GQGt01 = (internalInit g q dT).GQGt01 ∧
    f.GQGt10 = (internalInit g q dT).GQGt10 ∧ f.GQGt11 = (internalInit g q dT).GQGt11


/-! ## Parts of `fusionPredict` and `fusionUpdate` named for the statements -/

/-- The 4x4 quaternion-update matrix `O` that `fusionPredict` builds from the
bias-corrected rate `we` and the step `dT` (the body of `fusionPredict` from
`lwedT` to `O.elem[2][3]`). -/
def fusionPredictO {α : Type} [LinearOrderedField α] (env : Env α) (we : Vec3 α) (dT : α) :
    Mat44 α :=
  let norm_we := vec3Norm env we
  let lwedT := norm_we * dT
  let hlwedT := (1 / 2) * lwedT
  let ilwe := 1 / norm_we
  let k2 := env.cosf hlwedT
  let psi := vec3ScalarMul we (env.sinf hlwedT * ilwe)
  let negPsi := vec3ScalarMul psi (-1)
  let O33 := matrixCross negPsi k2
  !![O33 0 0, O33 0 1, O33 0 2, psi.x;
     O33 1 0, O33 1 1, O33 1 2, psi.y;
     O33 2 0, O33 2 1, O33 2 2, psi.z;
     -psi.x, -psi.y, -psi.z, k2]

/-- The squared Euclidean norm of a 4-vector. -/
def vec4NormSquared {α : Type} [LinearOrderedField α] (v : Vec4 α) : α :=
  v.x * v.x + v.y * v.y + v.z * v.z + v.w * v.w

/-- The negated 4-vector, as `fusionPredict` negates `x0` component by
component. -/
def vec4Neg {α : Type} [LinearOrderedField α] (v : Vec4 α) : Vec4 α :=
  ⟨-v.x, -v.y, -v.z, -v.w⟩

/-- The effect of Predict past its guard in the words of the specification
(section 4.3, steps 3 to 9) for the bias-corrected rate `we`: the coefficients,
the transition blocks `Phi0`, the quaternion step with `O`, the covariance
recursion, the process noise and the sanity check. -/
def fusionPredictSpec {α : Type} [LinearOrderedField α] (env : Env α) (fusion : Fusion α)
    (we : Vec3 α) (dT : α) : Fusion α :=
  let norm_we := env.sqrtf (we.x * we.x + we.y * we.y + we.z * we.z)
  let theta := norm_we * dT
  let inv := 1 / norm_we
  let k0 := (1 - env.cosf theta) * (inv * inv)
  let k1 := env.sinf theta
  let W : Mat33 α := !![0, -we.z, we.y; we.z, 0, -we.x; -we.y, we.x, 0]
  let Phi0 : Mat33 α := 1 - (k1 * inv) • W + k0 • (W * W)
  let Phi1 : Mat33 α :=
    k0 • W - Matrix.diagonal (fun _ => dT) - (inv * inv * inv * (theta - k1)) • (W * W)
  let x := mat44Apply (fusionPredictO env we dT) fusion.x0
  let Pnew00 := Phi0 * fusion.P00 + Phi1 * fusion.P10
  let Pnew01 := Phi0 * fusion.P01 + Phi1 * fusion.P11
  fusionCheckState env
    { fusion with
        Phi0_0 := Phi0
        Phi0_1 := Phi1
        x0 := if x.w < 0 then vec4Neg x else x
        P00 := Pnew00 * Phi0.transpose + Pnew01 * Phi1.transpose + fusion.GQGt00
        P01 := Pnew01 + fusion.GQGt01
        P10 := fusion.P10 * Phi0.transpose + fusion.P11 * Phi1.transpose + fusion.GQGt10
        P11 := fusion.P11 + fusion.GQGt11 }

/-- An environment over any ordered field from a given math library: the flag
bits of `evalEnv`, exact arithmetic (`fl` is the identity), the usual
quaternion formulas, and a PSD test that checks symmetry within the tolerance
and a non-negative diagonal. -/
def stdEnv {α : Type} [LinearOrderedField α] (sqrtf sinf cosf expf : α → α) : Env α where
  FUSION_USE_MAG := 1
  FUSION_USE_GYRO := 2
  FUSION_REINITIALIZE := 4
  fl := fun x => x
  sqrtf := sqrtf
  sinf := sinf
  cosf := cosf
  expf := expf
  quatToMatrix := fun q =>
    !![1 - 2 * (q.y * q.y + q.z * q.z), 2 * (q.x * q.y - q.z * q.w), 2 * (q.x * q.z + q.y * q.w);
       2 * (q.x * q.y + q.z * q.w), 1 - 2 * (q.x * q.x + q.z * q.z), 2 * (q.y * q.z - q.x * q.w);
       2 * (q.x * q.z - q.y * q.w), 2 * (q.y * q.z + q.x * q.w), 1 - 2 * (q.x * q.x + q.y * q.y)]
  initQuat := fun R =>
    let w := sqrtf (1 + R 0 0 + R 1 1 + R 2 2) / 2
    ⟨(R 2 1 - R 1 2) / (4 * w), (R 0 2 - R 2 0) / (4 * w), (R 1 0 - R 0 1) / (4 * w), w⟩
  quatNormalize := fun q =>
    let n := sqrtf (q.x * q.x + q.y * q.y + q.z * q.z + q.w * q.w)
    ⟨q.x / n, q.y / n, q.z / n, q.w / n⟩
  findOrthogonalVector := fun x y _ =>
    if x = 0 ∧ y = 0 then ⟨1, 0, 0⟩
    else
      let n := sqrtf (x * x + y * y)
      ⟨-y / n, x / n, 0⟩
  mat33IsPositiveSemidefinite := fun A tolerance =>
    decide (0 ≤ A 0 0) && decide (0 ≤ A 1 1) && decide (0 ≤ A 2 2)
      && decide (|A 0 1 - A 1 0| ≤ tolerance) && decide (|A 0 2 - A 2 0| ≤ tolerance)
      && decide (|A 1 2 - A 2 1| ≤ tolerance)

/-- An engine state over any ordered field: identity attitude, zero bias,
zero covariance and noise blocks, with the given flags and bootstrap mask. -/
def identityFusion {α : Type} [LinearOrderedField α] (flags mInitState : Nat) : Fusion α where
  x0 := ⟨0, 0, 0, 1⟩
  x1 := ⟨0, 0, 0⟩
  P00 := 0
  P01 := 0
  P10 := 0
  P11 := 0
  GQGt00 := 0
  GQGt01 := 0
  GQGt10 := 0
  GQGt11 := 0
  Phi0_0 := 0
  Phi0_1 := 0
  Ba := ⟨0, 0, 1⟩
  Bm := ⟨0, 1, 0⟩
  mInitState := mInitState
  mGyroRate := 0
  mData0 := ⟨0, 0, 0⟩
  mData1 := ⟨0, 0, 0⟩
  mData2 := ⟨0, 0, 0⟩
  mCount0 := 0
  mCount1 := 0
  mCount2 := 0
  flags := flags
  param := ⟨0, 0, 0, 0⟩


/-- The triple product `A · P · Aᵀ` computed with the general matrix multiply of
the kernel, which is what the specification says `scaleCovariance` computes. -/
def scaleCovarianceSpec {α : Type} [LinearOrderedField α] (A P : Mat33 α) : Mat33 α :=
  mat33MultiplyTransposed2 (mat33Multiply A P) A

/-- The triple product in the other reading of the storage convention,
`Aᵀ · P · A`, again with the general matrix multiply of the kernel. -/
def scaleCovarianceSpecT {α : Type} [LinearOrderedField α] (A P : Mat33 α) : Mat33 α :=
  mat33Multiply (mat33MultiplyTransposed A P) A

/-- The innovation covariance `S` of `fusionUpdate`: `scaleCovariance(L, P[0][0])`
plus `R = diag(sigma²)`, with `L = matrixCross(Bb, 0)` and `Bb = A · Bi`. -/
def fusionUpdateS {α : Type} [LinearOrderedField α] (env : Env α) (fusion : Fusion α)
    (Bi : Vec3 α) (sigma : α) : Mat33 α :=
  let A := env.quatToMatrix fusion.x0
  let Bb := mat33Apply A Bi
  let L := matrixCross Bb 0
  let R : Mat33 α := initDiagonalMatrix (sigma * sigma)
  let S := scaleCovariance L fusion.P00
  mat33Add S R

/-- The geomag block of `fusionHandleAcc`: without a gyro, Predict is driven
with the dummy rate `x1 + kEps · (1,1,1)`. -/
def fusionHandleAccPredict {α : Type} [LinearOrderedField α] (env : Env α) (fusion : Fusion α)
    (dT : α) : Fusion α :=
  if ¬ (fusion.flags &&& env.FUSION_USE_GYRO ≠ 0) then
    let w_dummy := initVec3 (env.fl (fusion.x1.x + kEps)) (env.fl (fusion.x1.y + kEps))
      (env.fl (fusion.x1.z + kEps))
    fusionPredict env fusion w_dummy dT
  else fusion

/-- The synthetic magnetometer update of `fusionHandleAcc`: `Bm` rotated through
the current attitude, fed back as a measurement of `Bm`. -/
def fusionHandleAccFakeMag {α : Type} [LinearOrderedField α] (env : Env α)
    (fusion : Fusion α) : Fusion α :=
  let R := fusionGetRotationMatrix env fusion
  let m := mat33ApplyF env R fusion.Bm
  fusionUpdate env fusion m fusion.Bm fusion.param.mag_stdev

/-- The closing update of `fusionHandleAcc` with the unit-length sample and the
adaptive weight. -/
def fusionHandleAccUpdate {α : Type} [LinearOrderedField α] (env : Env α) (fusion : Fusion α)
    (a : Vec3 α) : Fusion α :=
  let norm2 := vec3NormSquaredF env a
  let l := env.sqrtf norm2
  let l_inv := env.fl (1 / l)
  let unityA := vec3ScalarMulF env a l_inv
  let d := env.sqrtf |env.fl (l - NOMINAL_GRAVITY)|
  let p := env.fl (env.fl (l_inv * fusion.param.acc_stdev) * env.expf d)
  fusionUpdate env fusion unityA fusion.Ba p

/-- A bootstrapped 9-DOF engine at the identity attitude whose orientation
covariance has an off-diagonal entry. -/
def coupledFusion : Fusion ℚ :=
  { zeroFusion 3 7 with
      x0 := ⟨0, 0, 0, 1⟩
      P00 := !![2, 1, 0; 1, 2, 0; 0, 0, 1] }

/-- The stationary scenario just before its last sample: 9-DOF mode after
REINITIALIZE, 32 accelerometer samples `(0,0,9.81)` at `dT = 0.01` and the
magnetometer sample `(0,30,-40)` handled, the gyro sample still to come. -/
def scenarioBeforeGyro : Fusion ℚ × ℚ :=
  handleSamples evalEnv (initFusion evalEnv (zeroFusion 3 7) 7, 0)
    (List.replicate 32 (Sample.acc ⟨0, 0, 981 / 100⟩ (1 / 100)) ++ [Sample.mag ⟨0, 30, -40⟩])

/-! # Timer (`firmware/src/timer.c`)

`timer.h` is not among the sources.  A `nanotime_t` holds seconds and
nanoseconds in two unsigned fields; their widths in bits are parameters
(`sBits`, `nsBits`) of the arithmetic below.  The calls to `OS_log` only
write to the log and are left out. -/

/-- `nanotime_t`: seconds and nanoseconds. -/
structure nanotime_t where
  time_s : Nat
  time_ns : Nat
deriving DecidableEq

/-- Modelled from the spec: `NS_PER_S` of the absent `timer.h`, the number of
nanoseconds in a second ("1 bil ns" in the warning of `nanotime_less_than`). -/
def NS_PER_S : Nat := 1000000000

/-- `nanotime_less_than`. -/
def nanotime_less_than (time_a time_b : nanotime_t) : Bool :=
  decide (time_a.time_s < time_b.time_s) ||
    (decide (time_a.time_s = time_b.time_s) && decide (time_a.time_ns < time_b.time_ns))

/-- `nanotime_add`; unsigned arithmetic wraps at the width of the field. -/
def nanotime_add (sBits nsBits : Nat) (time_a time_b : nanotime_t) : nanotime_t :=
  if time_a.time_ns ≥ NS_PER_S ∨ time_b.time_ns ≥ NS_PER_S then ⟨0, 0⟩
  else
    let sum_ns := (time_a.time_ns + time_b.time_ns) % 2 ^ nsBits
    let carry : Bool := decide (sum_ns ≥ NS_PER_S)
    let sum_ns := if carry then (sum_ns + 2 ^ nsBits - NS_PER_S) % 2 ^ nsBits else sum_ns
    let sum_s := (time_a.time_s + time_b.time_s + (if carry then 1 else 0)) % 2 ^ sBits
    ⟨sum_s, sum_ns⟩

/-- `nanotime_subtract`; unsigned arithmetic wraps at the width of the field.
The second test compares `time_a.time_ns` with `time_b.time_s`, as the source
does. -/
def nanotime_subtract (sBits nsBits : Nat) (time_a time_b : nanotime_t) : nanotime_t :=
  if time_a.time_ns ≥ NS_PER_S ∨ time_b.time_ns ≥ NS_PER_S then ⟨0, 0⟩
  else if time_a.time_s < time_b.time_s ∨
      (time_a.time_s = time_b.time_s ∧ time_a.time_ns < time_b.time_s) then ⟨0, 0⟩
  else
    let diff_s := (time_a.time_s + 2 ^ sBits - time_b.time_s) % 2 ^ sBits
    let borrow : Bool := decide (time_b.time_ns > time_a.time_ns)
    let diff_s := if borrow then (diff_s + 2 ^ sBits - 1) % 2 ^ sBits else diff_s
    let a_ns := if borrow then (time_a.time_ns + NS_PER_S) % 2 ^ nsBits else time_a.time_ns
    let diff_ns := (a_ns + 2 ^ nsBits - time_b.time_ns) % 2 ^ nsBits
    ⟨diff_s, diff_ns⟩


/-! ## The timer list

`timer_item_t` and `task_t` are declared in the absent `timer.h`.  A task
pointer is an address, `NULL` being address `0`.  A pointer into `timer_list`
is the index of the slot it points to, `NULL` being `none`.  `items` is an
`unsigned`, taken to be 32 bits wide.  `Platform_set_alarm` only programs the
hardware alarm; what remains of the call is the dereference in its argument. -/

/-- `TIMER_LIST_SIZE`. -/
abbrev TIMER_LIST_SIZE : Nat := 16

/-- The null task pointer. -/
def NULL : Nat := 0

/-- Modelled from the spec: `timer_item_t` of the absent `timer.h`, with the
fields in the order of the initialiser in `Timer_insert`
(`{task, deadline, period, max_jitter_ns, max_drift_ns, one_shot}`); `task`,
`deadline`, `ideal_delay` and `one_shot` are named as `timer.c` reads them. -/
structure timer_item_t where
  task : Nat
  deadline : nanotime_t
  ideal_delay : nanotime_t
  max_jitter_ns : Nat
  max_drift_ns : Nat
  one_shot : Bool
deriving DecidableEq

/-- The value of `timer_item_t empty_timer = {0}`. -/
def empty_timer : timer_item_t := ⟨NULL, ⟨0, 0⟩, ⟨0, 0⟩, 0, 0, false⟩

/-- The statics `timer_list` and `items`. -/
structure TimerState where
  timer_list : Fin TIMER_LIST_SIZE → timer_item_t
  items : Nat

/-- The initial values `timer_list = {{0}}`, `items = 0`. -/
def timerInit : TimerState := ⟨fun _ => empty_timer, 0⟩

/-- One round of the loop of `Timer_earliest` at index `i`. -/
def Timer_earliest_step (timer_list : Fin TIMER_LIST_SIZE → timer_item_t)
    (min : Option (Fin TIMER_LIST_SIZE)) (i : Fin TIMER_LIST_SIZE) :
    Option (Fin TIMER_LIST_SIZE) :=
  if (timer_list i).task ≠ NULL then
    match min with
    | none => some i
    | some m =>
      if nanotime_less_than (timer_list i).deadline (timer_list m).deadline then some i
      else some m
  else min

/-- `Timer_earliest`: the slot pointed to, `none` for `NULL`. -/
def Timer_earliest (st : TimerState) : Option (Fin TIMER_LIST_SIZE) :=
  if st.items = 0 then none
  else (List.finRange TIMER_LIST_SIZE).foldl (Timer_earliest_step st.timer_list) none

/-- `items++` on an `unsigned`. -/
def itemsInc (items : Nat) : Nat := (items + 1) % 2 ^ 32

/-- `items--` on an `unsigned`. -/
def itemsDec (items : Nat) : Nat := (items + 2 ^ 32 - 1) % 2 ^ 32

/-- The loop of `Timer_insert_timer` over the indices still to visit; it stops
at the first slot whose task is `NULL`. -/
def Timer_insert_loop (timer : timer_item_t) : List (Fin TIMER_LIST_SIZE) → TimerState → TimerState
  | [], st => st
  | i :: rest, st =>
    if (st.timer_list i).task = NULL then
      ⟨Function.update st.timer_list i timer, itemsInc st.items⟩
    else Timer_insert_loop timer rest st

/-- `Timer_insert_timer`: the value returned and the statics afterwards; `none`
when `Timer_earliest()` is `NULL` where the argument of `Platform_set_alarm`
dereferences it. -/
def Timer_insert_timer (st : TimerState) (timer : timer_item_t) : Option (Bool × TimerState) :=
  if st.items = TIMER_LIST_SIZE then some (false, st)
  else
    let st1 := Timer_insert_loop timer (List.finRange TIMER_LIST_SIZE) st
    match Timer_earliest st1 with
    | none => none
    | some _ => some (true, st1)

/-- `Timer_expire_next`: the timer returned and the statics afterwards; `none`
when `next` is `NULL` where it is dereferenced. -/
def Timer_expire_next (st : TimerState) : Option (timer_item_t × TimerState) :=
  if st.items = 0 then some (empty_timer, st)
  else
    match Timer_earliest st with
    | none => none
    | some next =>
      some (st.timer_list next,
        ⟨Function.update st.timer_list next empty_timer, itemsDec st.items⟩)

/-- `Timer_is_active`. -/
def Timer_is_active (st : TimerState) : Bool := decide (st.items > 0)

/-- The loop of `Timer_clear_timers_for_task` over the indices still to visit. -/
def Timer_clear_loop (task : Nat) : List (Fin TIMER_LIST_SIZE) → TimerState → TimerState
  | [], st => st
  | i :: rest, st =>
    Timer_clear_loop task rest
      (if (st.timer_list i).task = task then
        ⟨Function.update st.timer_list i empty_timer, itemsDec st.items⟩
      else st)

/-- `Timer_clear_timers_for_task`. -/
def Timer_clear_timers_for_task (st : TimerState) (task : Nat) : TimerState :=
  Timer_clear_loop task (List.finRange TIMER_LIST_SIZE) st

/-- The number of slots of the list whose task is not `NULL`. -/
def activeCount (timer_list : Fin TIMER_LIST_SIZE → timer_item_t) : Nat :=
  (Finset.univ.filter (fun i => (timer_list i).task ≠ NULL)).card

/-- The timer-list invariant: `items` is the number of slots with a non-`NULL`
task, and `items <= 16`. -/
def TimerInv (st : TimerState) : Prop :=
  st.items = activeCount st.timer_list ∧ st.items ≤ TIMER_LIST_SIZE

instance (st : TimerState) : Decidable (TimerInv st) := by
  unfold TimerInv; infer_instance

/-- What the loop of `Timer_earliest` has established after the slots in `seen`:
`min` is `NULL` when none of them is active, and otherwise points to an active
slot among them that no active slot among them precedes, the lowest such. -/
def EarliestAmong (timer_list : Fin TIMER_LIST_SIZE → timer_item_t)
    (seen : List (Fin TIMER_LIST_SIZE)) : Option (Fin TIMER_LIST_SIZE) → Prop
  | none => ∀ j ∈ seen, (timer_list j).task = NULL
  | some k => k ∈ seen ∧ (timer_list k).task ≠ NULL ∧
      ∀ j ∈ seen, (timer_list j).task ≠ NULL →
        nanotime_less_than (timer_list j).deadline (timer_list k).deadline = false ∧
        (nanotime_less_than (timer_list k).deadline (timer_list j).deadline = false → k ≤ j)

/-- A list for examples: slots `0`, `2` and `5` are taken, with deadlines
`(7,0)`, `(3,5)` and `(3,5)`, by tasks `1`, `2` and `1`. -/
def exampleTimers : TimerState :=
  ⟨fun i =>
    if i = 0 then ⟨1, ⟨7, 0⟩, ⟨1, 0⟩, 0, 0, false⟩
    else if i = 2 then ⟨2, ⟨3, 5⟩, ⟨1, 0⟩, 0, 0, true⟩
    else if i = 5 then ⟨1, ⟨3, 5⟩, ⟨2, 0⟩, 0, 0, false⟩
    else empty_timer, 3⟩

/-- A timer for examples, of task `9`. -/
def exampleTimer : timer_item_t := ⟨9, ⟨1, 0⟩, ⟨1, 0⟩, 0, 0, false⟩

/-! # Theorems

Everything above is the embedding; everything below is proved about it. -/

section FloatRounding

/-! ## Rounding to `float` and `double` -/

theorem roundBinary_zero (p : Nat) (emin : Int) : roundBinary p emin 0 = 0 := by
  simp [roundBinary]

/-- A positive number with binary exponent `e` that lies within half a unit in
the last place of `m` units is rounded to `m` units. -/
theorem roundBinary_of_near (p : Nat) (emin : Int) (x : ℚ) (e m : Int) (hx : 0 < x)
    (h1 : (2 : ℚ) ^ e ≤ x) (h2 : x < (2 : ℚ) ^ (e + 1)) (he : emin ≤ e)
    (hm : |x / 2 ^ (e - ((p : Int) - 1)) - m| < 1 / 2) :
    roundBinary p emin x = m * 2 ^ (e - ((p : Int) - 1)) := by
  have hlog : Int.log 2 x = e := by
    apply le_antisymm
    · have := (Int.lt_zpow_iff_log_lt (b := 2) (by norm_num) hx (x := e + 1)).1
        (by exact_mod_cast h2)
      omega
    · exact (Int.zpow_le_iff_le_log (b := 2) (by norm_num) hx).1 (by exact_mod_cast h1)
  unfold roundBinary
  simp only [abs_of_pos hx, hlog, max_eq_left he, if_neg (not_lt.2 hx.le), one_mul]
  set t := x / 2 ^ (e - ((p : Int) - 1)) with ht
  have habs := abs_lt.1 hm
  by_cases hle : (m : ℚ) ≤ t
  · have hfl : ⌊t⌋ = m := by
      rw [Int.floor_eq_iff]
      constructor
      · exact hle
      · linarith [habs.2]
    rw [hfl, if_pos (by linarith [habs.2])]
  · have hfl : ⌊t⌋ = m - 1 := by
      rw [Int.floor_eq_iff]
      push_cast
      constructor
      · linarith [habs.1]
      · linarith [not_le.1 hle]
    rw [hfl]
    have hr : ¬ (t - ((m - 1 : Int) : ℚ) < 1 / 2) := by
      push_cast
      linarith [habs.1]
    have hr2 : 1 / 2 < t - ((m - 1 : Int) : ℚ) := by
      push_cast
      linarith [habs.1]
    rw [if_neg hr, if_pos hr2]
    push_cast
    ring

theorem roundBinary_neg (p : Nat) (emin : Int) (x : ℚ) (hx : 0 < x) :
    roundBinary p emin (-x) = -roundBinary p emin x := by
  unfold roundBinary
  simp only [abs_neg, if_pos (neg_lt_zero.2 hx), if_neg (not_lt.2 hx.le)]
  ring

theorem roundFloat_zero : roundFloat 0 = 0 := roundBinary_zero 24 (-126)

/-- The rounding to `float` of a positive number, from its exponent `e` and the
number `m` of units in the last place. -/
theorem roundFloat_of_near (x y : ℚ) (e m : Int) (hx : 0 < x) (h1 : (2 : ℚ) ^ e ≤ x)
    (h2 : x < (2 : ℚ) ^ (e + 1)) (he : -126 ≤ e) (hm : |x / 2 ^ (e - 23) - m| < 1 / 2)
    (hy : y = m * 2 ^ (e - 23)) : roundFloat x = y := by
  rw [hy]
  exact roundBinary_of_near 24 (-126) x e m hx h1 h2 he hm

/-- The rounding to `double` of a positive number, from its exponent `e` and
the number `m` of units in the last place. -/
theorem roundDouble_of_near (x y : ℚ) (e m : Int) (hx : 0 < x) (h1 : (2 : ℚ) ^ e ≤ x)
    (h2 : x < (2 : ℚ) ^ (e + 1)) (he : -1022 ≤ e) (hm : |x / 2 ^ (e - 52) - m| < 1 / 2)
    (hy : y = m * 2 ^ (e - 52)) : roundDouble x = y := by
  rw [hy]
  exact roundBinary_of_near 53 (-1022) x e m hx h1 h2 he hm

theorem roundFloat_one : roundFloat 1 = 1 :=
  roundFloat_of_near 1 1 0 8388608 (by norm_num) (by norm_num) (by norm_num) (by norm_num)
    (by norm_num [abs_lt]) (by norm_num)

/-- The `float` literals `1.0E-4f`, `9.81f`, `0.1f`, `0.981f`, `0.99f` and
`0.01f`. -/
theorem roundFloat_literals :
    roundFloat (1 / 10000) = 13743895 / 137438953472 ∧
      roundFloat (981 / 100) = 10286531 / 1048576 ∧
      roundFloat (1 / 10) = 13421773 / 134217728 ∧
      roundFloat (981 / 1000) = 16458449 / 16777216 ∧
      roundFloat (99 / 100) = 4152361 / 4194304 ∧
      roundFloat (1 / 100) = 5368709 / 536870912 :=
  ⟨roundFloat_of_near _ _ (-14) 13743895 (by norm_num) (by norm_num) (by norm_num)
      (by norm_num) (by norm_num [abs_lt]) (by norm_num),
    roundFloat_of_near _ _ 3 10286531 (by norm_num) (by norm_num) (by norm_num)
      (by norm_num) (by norm_num [abs_lt]) (by norm_num),
    roundFloat_of_near _ _ (-4) 13421773 (by norm_num) (by norm_num) (by norm_num)
      (by norm_num) (by norm_num [abs_lt]) (by norm_num),
    roundFloat_of_near _ _ (-1) 16458449 (by norm_num) (by norm_num) (by norm_num)
      (by norm_num) (by norm_num [abs_lt]) (by norm_num),
    roundFloat_of_near _ _ (-1) 16609444 (by norm_num) (by norm_num) (by norm_num)
      (by norm_num) (by norm_num [abs_lt]) (by norm_num),
    roundFloat_of_near _ _ (-7) 10737418 (by norm_num) (by norm_num) (by norm_num)
      (by norm_num) (by norm_num [abs_lt]) (by norm_num)⟩

/-- The value of `(0.1f * 9.81f) * (0.1f * 9.81f)` in `float` arithmetic. -/
theorem free_fall_threshold_sq_value :
    roundFloat (roundFloat (roundFloat (1 / 10) * roundFloat (981 / 100))
        * roundFloat (roundFloat (1 / 10) * roundFloat (981 / 100)))
      = 16145741 / 16777216 := by
  have h : roundFloat (13421773 / 134217728 * (10286531 / 1048576)) = 8229225 / 8388608 :=
    roundFloat_of_near _ _ (-1) 16458450 (by norm_num) (by norm_num) (by norm_num)
      (by norm_num) (by norm_num [abs_lt]) (by norm_num)
  rw [roundFloat_literals.2.2.1, roundFloat_literals.2.1, h]
  exact roundFloat_of_near _ _ (-1) 16145741 (by norm_num) (by norm_num) (by norm_num)
    (by norm_num) (by norm_num [abs_lt]) (by norm_num)

/-- The value of `1.0e-3 * 1.0e-3` in `double` arithmetic. -/
theorem cross_product_threshold_value :
    roundDouble (roundDouble (1 / 1000) * roundDouble (1 / 1000))
      = 4722366482869645 / 4722366482869645213696 := by
  have h : roundDouble (1 / 1000) = 1152921504606847 / 1152921504606846976 :=
    roundDouble_of_near _ _ (-10) 4611686018427388 (by norm_num) (by norm_num)
      (by norm_num) (by norm_num) (by norm_num [abs_lt]) (by norm_num)
  rw [h]
  exact roundDouble_of_near _ _ (-20) 4722366482869645 (by norm_num) (by norm_num)
    (by norm_num) (by norm_num) (by norm_num [abs_lt]) (by norm_num)

/-- The thresholds of `fusion.c` are the values of its macros in `float` and
`double` arithmetic. -/
theorem threshold_values :
    (kEps : ℚ) = roundFloat (1 / 10000) ∧
      (NOMINAL_GRAVITY : ℚ) = roundFloat (981 / 100) ∧
      (FREE_FALL_THRESHOLD : ℚ) = roundFloat (roundFloat (1 / 10) * NOMINAL_GRAVITY) ∧
      (FREE_FALL_THRESHOLD_SQ : ℚ) = roundFloat (FREE_FALL_THRESHOLD * FREE_FALL_THRESHOLD) ∧
      (MIN_VALID_CROSS_PRODUCT_MAG : ℚ) = roundDouble (1 / 1000) ∧
      (MIN_VALID_CROSS_PRODUCT_MAG_SQ : ℚ) =
        roundDouble (MIN_VALID_CROSS_PRODUCT_MAG * MIN_VALID_CROSS_PRODUCT_MAG) := by
  refine ⟨?_, ?_, ?_, ?_, ?_, ?_⟩
  · rw [roundFloat_literals.1]; rfl
  · rw [roundFloat_literals.2.1]; rfl
  · rw [roundFloat_literals.2.2.1]
    exact (roundFloat_of_near _ _ (-1) 16458450 (by norm_num [NOMINAL_GRAVITY])
      (by norm_num [NOMINAL_GRAVITY]) (by norm_num [NOMINAL_GRAVITY]) (by norm_num)
      (by norm_num [abs_lt, NOMINAL_GRAVITY]) (by norm_num [FREE_FALL_THRESHOLD])).symm
  · exact (roundFloat_of_near _ _ (-1) 16145741 (by norm_num [FREE_FALL_THRESHOLD])
      (by norm_num [FREE_FALL_THRESHOLD]) (by norm_num [FREE_FALL_THRESHOLD]) (by norm_num)
      (by norm_num [abs_lt, FREE_FALL_THRESHOLD]) (by norm_num [FREE_FALL_THRESHOLD_SQ])).symm
  · exact (roundDouble_of_near _ _ (-10) 4611686018427388 (by norm_num) (by norm_num)
      (by norm_num) (by norm_num) (by norm_num [abs_lt])
      (by norm_num [MIN_VALID_CROSS_PRODUCT_MAG])).symm
  · exact (roundDouble_of_near _ _ (-20) 4722366482869645
      (by norm_num [MIN_VALID_CROSS_PRODUCT_MAG]) (by norm_num [MIN_VALID_CROSS_PRODUCT_MAG])
      (by norm_num [MIN_VALID_CROSS_PRODUCT_MAG]) (by norm_num)
      (by norm_num [abs_lt, MIN_VALID_CROSS_PRODUCT_MAG])
      (by norm_num [MIN_VALID_CROSS_PRODUCT_MAG_SQ])).symm

end FloatRounding

section Basic

variable {α : Type} [LinearOrderedField α]

/-! ## Elementary facts -/

theorem required_mask_ne_zero (a b : Nat) :
    (ACC ||| (if a ≠ 0 then MAG else 0) ||| (if b ≠ 0 then GYRO else 0)) ≠ 0 := by
  split_ifs <;> decide

theorem fusion_init_complete_of_estimate (env : Env α) (f : Fusion α) (what : Nat)
    (d : Vec3 α) (dT : α) (h : fusionHasEstimate env f = true) :
    fusion_init_complete env f what d dT = (1, f) := by
  simp [fusion_init_complete, h]

theorem fusion_init_complete_fst (env : Env α) (f : Fusion α) (what : Nat)
    (d : Vec3 α) (dT : α) :
    (fusion_init_complete env f what d dT).1 = if fusionHasEstimate env f then 1 else 0 := by
  unfold fusion_init_complete
  by_cases h : fusionHasEstimate env f = true
  · simp [h]
  · simp only [h]
    split_ifs <;> rfl

/-! ## Return values of the accelerometer and magnetometer handlers -/

theorem fusionHandleAcc_ret_eq (env : Env α) (f : Fusion α) (c : α) (a : Vec3 α) (dT : α) :
    (fusionHandleAcc env f c a dT).ret =
      if fusionHasEstimate env f = true ∧ ¬ vec3NormSquaredF env a < FREE_FALL_THRESHOLD_SQ
      then 0 else -EINVAL := by
  by_cases h : fusionHasEstimate env f = true
  · by_cases hn : vec3NormSquaredF env a < (FREE_FALL_THRESHOLD_SQ : α)
    · simp [fusionHandleAcc, fusion_init_complete_of_estimate env f ACC a dT h, hn]
    · simp [fusionHandleAcc, fusion_init_complete_of_estimate env f ACC a dT h, hn, h]
  · simp [fusionHandleAcc, fusion_init_complete_fst, h]

theorem fusionHandleMag_ret_eq (env : Env α) (f : Fusion α) (c : α) (m : Vec3 α) :
    (fusionHandleMag env f c m).ret =
      if fusionHasEstimate env f = true ∧
          ¬ vec3NormSquaredF env m > MAX_VALID_MAGNETIC_FIELD_SQ ∧
          ¬ vec3NormSquaredF env m < MIN_VALID_MAGNETIC_FIELD_SQ ∧
          ¬ vec3NormSquaredF env
              (vec3CrossF env m (mat33ApplyF env (env.quatToMatrix f.x0) f.Ba))
            < MIN_VALID_CROSS_PRODUCT_MAG_SQ
      then 0 else -EINVAL := by
  by_cases h : fusionHasEstimate env f = true
  · by_cases h1 : vec3NormSquaredF env m > (MAX_VALID_MAGNETIC_FIELD_SQ : α)
    · simp [fusionHandleMag, fusion_init_complete_of_estimate env f MAG m 0 h, h1]
    · by_cases h2 : vec3NormSquaredF env m < (MIN_VALID_MAGNETIC_FIELD_SQ : α)
      · simp [fusionHandleMag, fusion_init_complete_of_estimate env f MAG m 0 h, h1, h2]
      · by_cases h3 : vec3NormSquaredF env
            (vec3CrossF env m (mat33ApplyF env (env.quatToMatrix f.x0) f.Ba))
            < (MIN_VALID_CROSS_PRODUCT_MAG_SQ : α)
        · simp [fusionHandleMag, fusionGetRotationMatrix,
            fusion_init_complete_of_estimate env f MAG m 0 h, h1, h2, h3]
        · simp [fusionHandleMag, fusionGetRotationMatrix,
            fusion_init_complete_of_estimate env f MAG m 0 h, h1, h2, h3, h]
  · simp [fusionHandleMag, fusion_init_complete_fst, h]

/-- C2, as the code has it: `fusionHandleAcc` returns `-EINVAL` exactly when
`fusionHasEstimate` was false on entry or the squared norm of the sample, as
computed in `float`, is below the `float` 16145741/16777216 = 0.96236115...,
the value of `(0.1f * 9.81f)^2` in `float` arithmetic; its result is always
`-EINVAL` or `0`, so in every other case it returns `0`. -/
theorem fusionHandleAcc_ret (env : Env α) (f : Fusion α) (c : α) (a : Vec3 α) (dT : α) :
    ((fusionHandleAcc env f c a dT).ret = -EINVAL ↔
        (fusionHasEstimate env f = false ∨
          vec3NormSquaredF env a < 16145741 / 16777216)) ∧
      ((fusionHandleAcc env f c a dT).ret = -EINVAL ∨
        (fusionHandleAcc env f c a dT).ret = 0) ∧
      (16145741 / 16777216 : ℚ) =
        roundFloat (roundFloat (roundFloat (1 / 10) * roundFloat (981 / 100))
          * roundFloat (roundFloat (1 / 10) * roundFloat (981 / 100))) := by
  have hthr : (FREE_FALL_THRESHOLD_SQ : α) = 16145741 / 16777216 := rfl
  have hE : (0 : Int) ≠ -EINVAL := by decide
  refine ⟨?_, ?_, ?_⟩
  · rw [fusionHandleAcc_ret_eq, hthr]
    by_cases h : fusionHasEstimate env f = true
    · by_cases hn : vec3NormSquaredF env a < (16145741 / 16777216 : α)
      · simp [h, hn]
      · simp [h, hn, hE]
    · simp [h]
  · rw [fusionHandleAcc_ret_eq]
    split_ifs
    · exact Or.inr rfl
    · exact Or.inl rfl
  · exact free_fall_threshold_sq_value.symm

/-- C3, as the code has it: `fusionHandleMag` returns `0` exactly when
`fusionHasEstimate` was true on entry, the squared norm of the sample as
computed in `float` lies in `[10^2, 100^2]`, and the squared norm of
`m × up` as computed in `float`, with `up = quatToMatrix(x0) · Ba`, is at least
the `double` 4722366482869645/4722366482869645213696, the value of
`1.0e-3 * 1.0e-3` in `double` arithmetic; its result is always `0` or
`-EINVAL`, so in every other case it returns `-EINVAL`. -/
theorem fusionHandleMag_ret (env : Env α) (f : Fusion α) (c : α) (m : Vec3 α) :
    ((fusionHandleMag env f c m).ret = 0 ↔
        (fusionHasEstimate env f = true ∧
          (10 : α) ^ 2 ≤ vec3NormSquaredF env m ∧ vec3NormSquaredF env m ≤ (100 : α) ^ 2 ∧
          4722366482869645 / 4722366482869645213696 ≤
            vec3NormSquaredF env
              (vec3CrossF env m (mat33ApplyF env (env.quatToMatrix f.x0) f.Ba)))) ∧
      ((fusionHandleMag env f c m).ret = 0 ∨
        (fusionHandleMag env f c m).ret = -EINVAL) ∧
      (4722366482869645 / 4722366482869645213696 : ℚ) =
        roundDouble (roundDouble (1 / 1000) * roundDouble (1 / 1000)) := by
  have hmax : (MAX_VALID_MAGNETIC_FIELD_SQ : α) = (100 : α) ^ 2 := by
    simp only [MAX_VALID_MAGNETIC_FIELD_SQ, MAX_VALID_MAGNETIC_FIELD]
    ring
  have hmin : (MIN_VALID_MAGNETIC_FIELD_SQ : α) = (10 : α) ^ 2 := by
    simp only [MIN_VALID_MAGNETIC_FIELD_SQ, MIN_VALID_MAGNETIC_FIELD]
    ring
  have hcr : (MIN_VALID_CROSS_PRODUCT_MAG_SQ : α)
      = 4722366482869645 / 4722366482869645213696 := rfl
  have hE : (-EINVAL : Int) ≠ 0 := by decide
  refine ⟨?_, ?_, ?_⟩
  · rw [fusionHandleMag_ret_eq, hmax, hmin, hcr]
    simp only [gt_iff_lt, not_lt]
    constructor
    · intro h0
      by_contra hc
      rw [if_neg (fun hh => hc ⟨hh.1, hh.2.2.1, hh.2.1, hh.2.2.2⟩)] at h0
      exact hE h0
    · intro hh
      rw [if_pos ⟨hh.1, hh.2.2.1, hh.2.1, hh.2.2.2⟩]
  · rw [fusionHandleMag_ret_eq]
    split_ifs
    · exact Or.inl rfl
    · exact Or.inr rfl
  · exact cross_product_threshold_value.symm

/-! ## Rejected samples leave the state alone -/

/-- C4: once `fusionHasEstimate` is true, a call of `fusionHandleAcc` or
`fusionHandleMag` that returns `-EINVAL` leaves the whole engine state and the
`fake_mag_decimation` accumulator exactly as they were. -/
theorem rejected_sample_leaves_state (env : Env α) (f : Fusion α) (c : α)
    (h : fusionHasEstimate env f = true) :
    (∀ (a : Vec3 α) (dT : α), (fusionHandleAcc env f c a dT).ret = -EINVAL →
        (fusionHandleAcc env f c a dT).fusion = f ∧
          (fusionHandleAcc env f c a dT).fake_mag_decimation = c) ∧
      (∀ m : Vec3 α, (fusionHandleMag env f c m).ret = -EINVAL →
        (fusionHandleMag env f c m).fusion = f ∧
          (fusionHandleMag env f c m).fake_mag_decimation = c) := by
  have hE : (0 : Int) ≠ -EINVAL := by decide
  constructor
  · intro a dT hret
    by_cases hn : vec3NormSquaredF env a < (FREE_FALL_THRESHOLD_SQ : α)
    · simp [fusionHandleAcc, fusion_init_complete_of_estimate env f ACC a dT h, hn]
    · have hr : (fusionHandleAcc env f c a dT).ret = 0 := by
        simp [fusionHandleAcc, fusion_init_complete_of_estimate env f ACC a dT h, hn]
      exact absurd (hr ▸ hret) hE
  · intro m hret
    by_cases h1 : vec3NormSquaredF env m > (MAX_VALID_MAGNETIC_FIELD_SQ : α)
    · simp [fusionHandleMag, fusion_init_complete_of_estimate env f MAG m 0 h, h1]
    · by_cases h2 : vec3NormSquaredF env m < (MIN_VALID_MAGNETIC_FIELD_SQ : α)
      · simp [fusionHandleMag, fusion_init_complete_of_estimate env f MAG m 0 h, h1, h2]
      · by_cases h3 : vec3NormSquaredF env
            (vec3CrossF env m (mat33ApplyF env (env.quatToMatrix f.x0) f.Ba))
            < (MIN_VALID_CROSS_PRODUCT_MAG_SQ : α)
        · simp [fusionHandleMag, fusionGetRotationMatrix,
            fusion_init_complete_of_estimate env f MAG m 0 h, h1, h2, h3]
        · have hr : (fusionHandleMag env f c m).ret = 0 := by
            simp [fusionHandleMag, fusionGetRotationMatrix,
              fusion_init_complete_of_estimate env f MAG m 0 h, h1, h2, h3]
          exact absurd (hr ▸ hret) hE

end Basic

theorem zeroFusion_hasEstimate : fusionHasEstimate evalEnv (zeroFusion 3 7) = true := by
  decide

theorem zeroFusion_acc_rejected :
    (fusionHandleAcc evalEnv (zeroFusion 3 7) (1 / 2) ⟨0, 0, 1 / 2⟩ (1 / 100)).ret = -EINVAL := by
  rw [fusionHandleAcc_ret_eq, if_neg]
  intro h
  apply h.2
  simp [vec3NormSquaredF, evalEnv, FREE_FALL_THRESHOLD_SQ]
  norm_num

theorem zeroFusion_mag_rejected :
    (fusionHandleMag evalEnv (zeroFusion 3 7) (1 / 2) ⟨200, 0, 0⟩).ret = -EINVAL := by
  rw [fusionHandleMag_ret_eq, if_neg]
  intro h
  apply h.2.1
  simp [vec3NormSquaredF, evalEnv, MAX_VALID_MAGNETIC_FIELD_SQ, MAX_VALID_MAGNETIC_FIELD]
  norm_num

/-- Witness for C4: a free-fall accelerometer sample and an over-strong
magnetometer sample on a bootstrapped 9-DOF engine. -/
theorem rejected_sample_leaves_state_witness :
    fusionHasEstimate evalEnv (zeroFusion 3 7) = true ∧
      (fusionHandleAcc evalEnv (zeroFusion 3 7) (1 / 2) ⟨0, 0, 1 / 2⟩ (1 / 100)).ret = -EINVAL ∧
      (fusionHandleMag evalEnv (zeroFusion 3 7) (1 / 2) ⟨200, 0, 0⟩).ret = -EINVAL ∧
      ((fusionHandleAcc evalEnv (zeroFusion 3 7) (1 / 2) ⟨0, 0, 1 / 2⟩ (1 / 100)).fusion
          = zeroFusion 3 7 ∧
        (fusionHandleAcc evalEnv (zeroFusion 3 7) (1 / 2) ⟨0, 0, 1 / 2⟩ (1 / 100)).fake_mag_decimation
          = 1 / 2) ∧
      ((fusionHandleMag evalEnv (zeroFusion 3 7) (1 / 2) ⟨200, 0, 0⟩).fusion = zeroFusion 3 7 ∧
        (fusionHandleMag evalEnv (zeroFusion 3 7) (1 / 2) ⟨200, 0, 0⟩).fake_mag_decimation
          = 1 / 2) :=
  ⟨zeroFusion_hasEstimate, zeroFusion_acc_rejected, zeroFusion_mag_rejected,
    (rejected_sample_leaves_state evalEnv (zeroFusion 3 7) (1 / 2) zeroFusion_hasEstimate).1
      ⟨0, 0, 1 / 2⟩ (1 / 100) zeroFusion_acc_rejected,
    (rejected_sample_leaves_state evalEnv (zeroFusion 3 7) (1 / 2) zeroFusion_hasEstimate).2
      ⟨200, 0, 0⟩ zeroFusion_mag_rejected⟩

section FloatHandlers

/-! ## The handlers in `float` arithmetic, at concrete samples -/

theorem floatEnv_hasEstimate : fusionHasEstimate floatEnv (identityFusion 3 7) = true := by
  decide

theorem floatEnv_fl (x : ℚ) : floatEnv.fl x = roundFloat x := rfl

theorem floatEnv_quatToMatrix (q : Quat ℚ) : floatEnv.quatToMatrix q = evalQuatToMatrix q := rfl

theorem floatEnv_normSquared_z (z : ℚ) :
    vec3NormSquaredF floatEnv ⟨0, 0, z⟩ = roundFloat (roundFloat (z * z)) := by
  unfold vec3NormSquaredF
  simp only [floatEnv_fl]
  rw [mul_zero, roundFloat_zero, add_zero, roundFloat_zero, zero_add]

/-- The squared norm of `(0, 0, 0.981f)` in `float` arithmetic. -/
theorem floatEnv_normSquared_near_threshold :
    vec3NormSquaredF floatEnv ⟨0, 0, 16458449 / 16777216⟩ = 16145739 / 16777216 := by
  rw [floatEnv_normSquared_z]
  have h1 : roundFloat (16458449 / 16777216 * (16458449 / 16777216)) = 16145739 / 16777216 :=
    roundFloat_of_near _ _ (-1) 16145739 (by norm_num) (by norm_num) (by norm_num)
      (by norm_num) (by norm_num [abs_lt]) (by norm_num)
  rw [h1]
  exact roundFloat_of_near _ _ (-1) 16145739 (by norm_num) (by norm_num) (by norm_num)
    (by norm_num) (by norm_num [abs_lt]) (by norm_num)

/-- Counterexample to C2 as stated: the sample `(0, 0, 0.981f)` has
`‖a‖² ≥ (0.1 · 9.81)²` and the engine has an estimate, yet `fusionHandleAcc`
returns `-EINVAL`: in `float` arithmetic its squared norm is below the `float`
threshold. -/
theorem fusionHandleAcc_rejects_at_decimal_threshold :
    roundFloat (981 / 1000) = 16458449 / 16777216 ∧
      fusionHasEstimate floatEnv (identityFusion 3 7) = true ∧
      ¬ vec3NormSquared (⟨0, 0, 16458449 / 16777216⟩ : Vec3 ℚ)
          < ((1 / 10 : ℚ) * (981 / 100)) ^ 2 ∧
      (fusionHandleAcc floatEnv (identityFusion 3 7) 0 ⟨0, 0, 16458449 / 16777216⟩
        (5368709 / 536870912)).ret = -EINVAL := by
  refine ⟨roundFloat_literals.2.2.2.1, floatEnv_hasEstimate, ?_, ?_⟩
  · simp only [vec3NormSquared]
    norm_num
  · rw [fusionHandleAcc_ret_eq, if_neg]
    intro h
    apply h.2
    rw [floatEnv_normSquared_near_threshold]
    norm_num [FREE_FALL_THRESHOLD_SQ]

/-- Witness for C2: the sample `(0, 0, 0.981f)` on a bootstrapped engine, in
`float` arithmetic. -/
theorem fusionHandleAcc_ret_witness :
    (fusionHandleAcc floatEnv (identityFusion 3 7) 0 ⟨0, 0, 16458449 / 16777216⟩
        (5368709 / 536870912)).ret = -EINVAL ↔
      (fusionHasEstimate floatEnv (identityFusion 3 7) = false ∨
        vec3NormSquaredF floatEnv ⟨0, 0, 16458449 / 16777216⟩ < 16145741 / 16777216) :=
  (fusionHandleAcc_ret floatEnv (identityFusion 3 7) 0 ⟨0, 0, 16458449 / 16777216⟩
    (5368709 / 536870912)).1

theorem roundFloat_integers :
    roundFloat 60 = 60 ∧ roundFloat 80 = 80 ∧ roundFloat 3600 = 3600 ∧
      roundFloat 6400 = 6400 ∧ roundFloat 10000 = 10000 ∧ roundFloat (-60) = -60 := by
  have h60 : roundFloat 60 = 60 :=
    roundFloat_of_near _ _ 5 15728640 (by norm_num) (by norm_num) (by norm_num) (by norm_num)
      (by norm_num [abs_lt]) (by norm_num)
  refine ⟨h60, ?_, ?_, ?_, ?_, ?_⟩
  · exact roundFloat_of_near _ _ 6 10485760 (by norm_num) (by norm_num) (by norm_num)
      (by norm_num) (by norm_num [abs_lt]) (by norm_num)
  · exact roundFloat_of_near _ _ 11 14745600 (by norm_num) (by norm_num) (by norm_num)
      (by norm_num) (by norm_num [abs_lt]) (by norm_num)
  · exact roundFloat_of_near _ _ 12 13107200 (by norm_num) (by norm_num) (by norm_num)
      (by norm_num) (by norm_num [abs_lt]) (by norm_num)
  · exact roundFloat_of_near _ _ 13 10240000 (by norm_num) (by norm_num) (by norm_num)
      (by norm_num) (by norm_num [abs_lt]) (by norm_num)
  · have := roundBinary_neg 24 (-126) 60 (by norm_num)
    rw [roundFloat, this, ← roundFloat, h60]

/-- The squared norm of `(60, 80, 0.01f)` in `float` arithmetic is 10000: the
third square is lost in the sum. -/
theorem floatEnv_normSquared_mag :
    vec3NormSquaredF floatEnv ⟨60, 80, 5368709 / 536870912⟩ = 10000 := by
  unfold vec3NormSquaredF
  simp only [floatEnv_fl]
  have h1 : (60 : ℚ) * 60 = 3600 := by norm_num
  have h2 : (80 : ℚ) * 80 = 6400 := by norm_num
  have h3 : (3600 : ℚ) + 6400 = 10000 := by norm_num
  have h4 : roundFloat (5368709 / 536870912 * (5368709 / 536870912))
      = 13743895 / 137438953472 :=
    roundFloat_of_near _ _ (-14) 13743895 (by norm_num) (by norm_num) (by norm_num)
      (by norm_num) (by norm_num [abs_lt]) (by norm_num)
  rw [h1, h2, roundFloat_integers.2.2.1, roundFloat_integers.2.2.2.1, h3,
    roundFloat_integers.2.2.2.2.1, h4]
  exact roundFloat_of_near _ _ 13 10240000 (by norm_num) (by norm_num) (by norm_num)
    (by norm_num) (by norm_num [abs_lt]) (by norm_num)

/-- At the identity attitude `up` is `(0, 0, 1)` and `m × up` for
`m = (60, 80, 0.01f)` is `(80, -60, 0)`, in `float` arithmetic. -/
theorem floatEnv_east :
    vec3CrossF floatEnv ⟨60, 80, 5368709 / 536870912⟩
        (mat33ApplyF floatEnv (floatEnv.quatToMatrix (identityFusion 3 7 : Fusion ℚ).x0)
          (identityFusion 3 7 : Fusion ℚ).Ba)
      = ⟨80, -60, 0⟩ := by
  have hup : mat33ApplyF floatEnv (floatEnv.quatToMatrix (identityFusion 3 7 : Fusion ℚ).x0)
      (identityFusion 3 7 : Fusion ℚ).Ba = ⟨0, 0, 1⟩ := by
    unfold mat33ApplyF
    simp only [floatEnv_fl, floatEnv_quatToMatrix, evalQuatToMatrix, identityFusion]
    simp [roundFloat_zero, roundFloat_one, Matrix.vecHead, Matrix.vecTail]
  rw [hup]
  unfold vec3CrossF
  simp only [floatEnv_fl]
  rw [mul_one, mul_one, mul_zero, mul_zero, mul_zero, roundFloat_zero, sub_zero, zero_sub,
    sub_zero, roundFloat_zero, roundFloat_integers.2.1, roundFloat_integers.1,
    roundFloat_integers.2.1, roundFloat_integers.2.2.2.2.2]

theorem floatEnv_normSquared_east : vec3NormSquaredF floatEnv ⟨80, -60, 0⟩ = 10000 := by
  unfold vec3NormSquaredF
  simp only [floatEnv_fl]
  have h1 : (-60 : ℚ) * -60 = 3600 := by norm_num
  have h2 : (80 : ℚ) * 80 = 6400 := by norm_num
  have h3 : (6400 : ℚ) + 3600 = 10000 := by norm_num
  rw [h1, h2, mul_zero, roundFloat_zero, add_zero, roundFloat_integers.2.2.1,
    roundFloat_integers.2.2.2.1, h3, roundFloat_integers.2.2.2.2.1,
    roundFloat_integers.2.2.2.2.1]

/-- Counterexample to C3 as stated: the sample `(60, 80, 0.01f)` has
`‖m‖² > 100²` and yet `fusionHandleMag` returns `0` on a bootstrapped engine at
the identity attitude: in `float` arithmetic its squared norm is 10000, which
the strict test against `100.0f * 100.0f` lets through. -/
theorem fusionHandleMag_accepts_above_decimal_bound :
    roundFloat (1 / 100) = 5368709 / 536870912 ∧
      fusionHasEstimate floatEnv (identityFusion 3 7) = true ∧
      ¬ vec3NormSquared (⟨60, 80, 5368709 / 536870912⟩ : Vec3 ℚ) ≤ (100 : ℚ) ^ 2 ∧
      (fusionHandleMag floatEnv (identityFusion 3 7) 0 ⟨60, 80, 5368709 / 536870912⟩).ret = 0 := by
  refine ⟨roundFloat_literals.2.2.2.2.2, floatEnv_hasEstimate, ?_, ?_⟩
  · simp only [vec3NormSquared]
    norm_num
  · rw [fusionHandleMag_ret_eq, if_pos]
    rw [floatEnv_east, floatEnv_normSquared_east, floatEnv_normSquared_mag]
    refine ⟨floatEnv_hasEstimate, ?_, ?_, ?_⟩
    · norm_num [MAX_VALID_MAGNETIC_FIELD_SQ, MAX_VALID_MAGNETIC_FIELD]
    · norm_num [MIN_VALID_MAGNETIC_FIELD_SQ, MIN_VALID_MAGNETIC_FIELD]
    · norm_num [MIN_VALID_CROSS_PRODUCT_MAG_SQ]

/-- Witness for C3: the sample `(60, 80, 0.01f)` on a bootstrapped engine at the
identity attitude, in `float` arithmetic. -/
theorem fusionHandleMag_ret_witness :
    (fusionHandleMag floatEnv (identityFusion 3 7) 0 ⟨60, 80, 5368709 / 536870912⟩).ret = 0 ↔
      (fusionHasEstimate floatEnv (identityFusion 3 7) = true ∧
        (10 : ℚ) ^ 2 ≤ vec3NormSquaredF floatEnv ⟨60, 80, 5368709 / 536870912⟩ ∧
        vec3NormSquaredF floatEnv ⟨60, 80, 5368709 / 536870912⟩ ≤ (100 : ℚ) ^ 2 ∧
        4722366482869645 / 4722366482869645213696 ≤
          vec3NormSquaredF floatEnv
            (vec3CrossF floatEnv ⟨60, 80, 5368709 / 536870912⟩
              (mat33ApplyF floatEnv (floatEnv.quatToMatrix (identityFusion 3 7 : Fusion ℚ).x0)
                (identityFusion 3 7 : Fusion ℚ).Ba))) :=
  (fusionHandleMag_ret floatEnv (identityFusion 3 7) 0 ⟨60, 80, 5368709 / 536870912⟩).1

end FloatHandlers

section Frames

variable {α : Type} [LinearOrderedField α]

/-! ## The singularity guard of `fusionPredict` -/

theorem fusionPredict_of_small (env : Env α) (f : Fusion α) (w : Vec3 α) (dT : α)
    (h : |vec3Norm env (vec3Sub w f.x1)| < kEps) : fusionPredict env f w dT = f := by
  unfold fusionPredict
  simp only [h, if_true]

theorem vec3NormSquared_nonneg (v : Vec3 α) : 0 ≤ vec3NormSquared v := by
  unfold vec3NormSquared
  have hx := mul_self_nonneg v.x
  have hy := mul_self_nonneg v.y
  have hz := mul_self_nonneg v.z
  linarith

/-- The `float` the literal `1.0E-4f` denotes is positive and below 1e-4. -/
theorem kEps_bounds : (0 : α) < kEps ∧ (kEps : α) < 1 / 10000 := by
  unfold kEps
  constructor
  · positivity
  · rw [div_lt_div_iff₀ (by norm_num) (by norm_num)]
    norm_num

end Frames

section PredictSpec

variable {α : Type} [LinearOrderedField α]

/-- Past its guard `fusionPredict` does what the specification says of Predict:
the transition blocks, the quaternion step, the covariance recursion with the
process noise added, and the sanity check. -/
theorem fusionPredict_eq_spec (env : Env α) (f : Fusion α) (w : Vec3 α) (dT : α)
    (h : ¬ |vec3Norm env (vec3Sub w f.x1)| < kEps) :
    fusionPredict env f w dT = fusionPredictSpec env f (vec3Sub w f.x1) dT := by
  unfold fusionPredict
  dsimp only
  rw [if_neg h]
  rfl

end PredictSpec

section Init

variable {α : Type} [LinearOrderedField α]

/-! ## `initFusion` -/

/-- C6: after `initFusion` with the REINITIALIZE bit set, `Ba = (0,0,1)`,
`Bm = (0,1,0)`, `x0 = (0,0,0,0)`, `x1 = (0,0,0)`, `mInitState = 0`, the three
counts and the three accumulators are zero, `mGyroRate = 0`, and
`fusionHasEstimate` is false, whatever the prior state. -/
theorem initFusion_reinit_resets (env : Env α) (f : Fusion α) (flags : Nat)
    (h : flags &&& env.FUSION_REINITIALIZE ≠ 0) :
    (initFusion env f flags).Ba = ⟨0, 0, 1⟩ ∧
      (initFusion env f flags).Bm = ⟨0, 1, 0⟩ ∧
      (initFusion env f flags).x0 = ⟨0, 0, 0, 0⟩ ∧
      (initFusion env f flags).x1 = ⟨0, 0, 0⟩ ∧
      (initFusion env f flags).mInitState = 0 ∧
      (initFusion env f flags).mCount0 = 0 ∧
      (initFusion env f flags).mCount1 = 0 ∧
      (initFusion env f flags).mCount2 = 0 ∧
      (initFusion env f flags).mData0 = ⟨0, 0, 0⟩ ∧
      (initFusion env f flags).mData1 = ⟨0, 0, 0⟩ ∧
      (initFusion env f flags).mData2 = ⟨0, 0, 0⟩ ∧
      (initFusion env f flags).mGyroRate = 0 ∧
      fusionHasEstimate env (initFusion env f flags) = false := by
  have hm : (initFusion env f flags).mInitState = 0 := by
    simp [initFusion, h]
  have hh : fusionHasEstimate env (initFusion env f flags) = false := by
    unfold fusionHasEstimate
    rw [hm]
    have := required_mask_ne_zero ((initFusion env f flags).flags &&& env.FUSION_USE_MAG)
      ((initFusion env f flags).flags &&& env.FUSION_USE_GYRO)
    rw [beq_eq_false_iff_ne]
    exact fun e => this e.symm
  refine ⟨?_, ?_, ?_, ?_, hm, ?_, ?_, ?_, ?_, ?_, ?_, ?_, hh⟩
  all_goals simp [initFusion, h, initVec3, initVec4]

/-- Witness for C6: all three flag bits on an engine that had an estimate. -/
theorem initFusion_reinit_resets_witness :
    7 &&& evalEnv.FUSION_REINITIALIZE ≠ 0 ∧
      (initFusion evalEnv (zeroFusion 3 7) 7).mInitState = 0 ∧
      fusionHasEstimate evalEnv (initFusion evalEnv (zeroFusion 3 7) 7) = false :=
  ⟨by decide,
    (initFusion_reinit_resets evalEnv (zeroFusion 3 7) 7 (by decide)).2.2.2.2.1,
    (initFusion_reinit_resets evalEnv (zeroFusion 3 7) 7 (by decide)).2.2.2.2.2.2.2.2.2.2.2.2⟩

/-- C7: `initFusion` without the REINITIALIZE bit narrows `mInitState` to
`old mInitState AND (ACC | (MAG if USE_MAG) | (GYRO if USE_GYRO))` for the new
flags, and the resulting state differs from the prior one in `flags`, the noise
parameters and `mInitState` only: `x0`, `x1`, the `P`, `GQGt` and `Phi0` blocks,
`Ba`, `Bm`, the counts, the accumulators and `mGyroRate` are those of the prior
state. -/
theorem initFusion_keep (env : Env α) (f : Fusion α) (flags : Nat)
    (h : flags &&& env.FUSION_REINITIALIZE = 0) :
    (initFusion env f flags).mInitState =
        f.mInitState &&&
          (ACC ||| (if flags &&& env.FUSION_USE_MAG ≠ 0 then MAG else 0)
               ||| (if flags &&& env.FUSION_USE_GYRO ≠ 0 then GYRO else 0)) ∧
      initFusion env f flags =
        { f with
            flags := flags
            param := (initFusion env f flags).param
            mInitState := (initFusion env f flags).mInitState } := by
  constructor
  · unfold initFusion
    by_cases hg : flags &&& env.FUSION_USE_GYRO = 0 <;> simp [h, hg]
  · unfold initFusion
    by_cases hg : flags &&& env.FUSION_USE_GYRO = 0 <;> simp [h, hg]

/-- Witness for C7: switching a bootstrapped 9-DOF engine to geomag mode keeps
the ACC and MAG bits and drops the GYRO bit. -/
theorem initFusion_keep_witness :
    1 &&& evalEnv.FUSION_REINITIALIZE = 0 ∧
      (initFusion evalEnv (zeroFusion 3 7) 1).mInitState =
        (zeroFusion 3 7).mInitState &&&
          (ACC ||| (if 1 &&& evalEnv.FUSION_USE_MAG ≠ 0 then MAG else 0)
               ||| (if 1 &&& evalEnv.FUSION_USE_GYRO ≠ 0 then GYRO else 0)) :=
  ⟨by decide, (initFusion_keep evalEnv (zeroFusion 3 7) 1 (by decide)).1⟩

end Init

section Bias

variable {α : Type} [LinearOrderedField α]

/-! ## The gyro bias `x1` -/

theorem fusionCheckState_frame (env : Env α) (f : Fusion α) :
    (fusionCheckState env f).x1 = f.x1 ∧ (fusionCheckState env f).flags = f.flags ∧
      (fusionCheckState env f).x0 = f.x0 := by
  unfold fusionCheckState
  split_ifs <;> simp

theorem fusionPredict_frame (env : Env α) (f : Fusion α) (w : Vec3 α) (dT : α) :
    (fusionPredict env f w dT).x1 = f.x1 ∧ (fusionPredict env f w dT).flags = f.flags := by
  by_cases h : |vec3Norm env (vec3Sub w f.x1)| < kEps
  · rw [fusionPredict_of_small env f w dT h]
    exact ⟨rfl, rfl⟩
  · unfold fusionPredict
    dsimp only
    rw [if_neg h]
    exact ⟨(fusionCheckState_frame env _).1, (fusionCheckState_frame env _).2.1⟩

theorem fusionUpdate_flags (env : Env α) (f : Fusion α) (z Bi : Vec3 α) (sigma : α) :
    (fusionUpdate env f z Bi sigma).flags = f.flags := by
  unfold fusionUpdate
  dsimp only
  exact (fusionCheckState_frame env _).2.1

theorem fusionUpdate_x1_of_no_mag (env : Env α) (f : Fusion α) (z Bi : Vec3 α) (sigma : α)
    (h : f.flags &&& env.FUSION_USE_MAG = 0) :
    (fusionUpdate env f z Bi sigma).x1 = f.x1 := by
  unfold fusionUpdate
  dsimp only
  rw [(fusionCheckState_frame env _).1]
  simp [h]

end Bias

section BiasClaims

variable {α : Type} [LinearOrderedField α]

theorem internalInit_x1 (f : Fusion α) (q : Quat α) (dT : α) :
    (internalInit f q dT).x1 = ⟨0, 0, 0⟩ := by
  simp [internalInit, initVec3]

/-- C8: with USE_MAG clear and `fusionHasEstimate` true, each of
`fusionHandleGyro`, `fusionHandleAcc` and `fusionHandleMag` leaves the gyro
bias `x1` as it was; and the seeding done by `internalInit` at the end of
bootstrap sets `x1 = (0,0,0)`. -/
theorem gyro_bias_frozen_without_mag (env : Env α) (f : Fusion α)
    (hm : f.flags &&& env.FUSION_USE_MAG = 0) (he : fusionHasEstimate env f = true) :
    (∀ (w : Vec3 α) (dT : α), (fusionHandleGyro env f w dT).x1 = f.x1) ∧
      (∀ (c : α) (a : Vec3 α) (dT : α), (fusionHandleAcc env f c a dT).fusion.x1 = f.x1) ∧
      (∀ (c : α) (m : Vec3 α), (fusionHandleMag env f c m).fusion.x1 = f.x1) ∧
      (∀ (q : Quat α) (dT : α), (internalInit f q dT).x1 = ⟨0, 0, 0⟩) := by
  refine ⟨?_, ?_, ?_, internalInit_x1 f⟩
  · intro w dT
    unfold fusionHandleGyro
    rw [fusion_init_complete_of_estimate env f GYRO w dT he]
    simp [(fusionPredict_frame env f w dT).1]
  · intro c a dT
    unfold fusionHandleAcc
    rw [fusion_init_complete_of_estimate env f ACC a dT he]
    dsimp only
    have hp : ∀ w, (fusionPredict env f w dT).flags &&& env.FUSION_USE_MAG = 0 := fun w => by
      rw [(fusionPredict_frame env f w dT).2]
      exact hm
    split_ifs <;>
      simp [fusionUpdate_x1_of_no_mag, fusionUpdate_flags, (fusionPredict_frame env f _ dT).1,
        (fusionPredict_frame env f _ dT).2, hm, hp]
  · intro c m
    unfold fusionHandleMag
    rw [fusion_init_complete_of_estimate env f MAG m 0 he]
    dsimp only
    split_ifs <;> simp [fusionUpdate_x1_of_no_mag, hm]

theorem zeroFusion_game_hasEstimate : fusionHasEstimate evalEnv (zeroFusion 2 5) = true := by
  decide

/-- Witness for C8: a bootstrapped game-rotation engine (USE_GYRO only). -/
theorem gyro_bias_frozen_without_mag_witness :
    (zeroFusion 2 5).flags &&& evalEnv.FUSION_USE_MAG = 0 ∧
      fusionHasEstimate evalEnv (zeroFusion 2 5) = true ∧
      (fusionHandleGyro evalEnv (zeroFusion 2 5) ⟨0, 0, 1⟩ (1 / 100)).x1 = (zeroFusion 2 5).x1 ∧
      (fusionHandleAcc evalEnv (zeroFusion 2 5) 0 ⟨0, 0, 981 / 100⟩ (1 / 100)).fusion.x1
        = (zeroFusion 2 5).x1 ∧
      (fusionHandleMag evalEnv (zeroFusion 2 5) 0 ⟨0, 30, -40⟩).fusion.x1 = (zeroFusion 2 5).x1 :=
  ⟨by decide, zeroFusion_game_hasEstimate,
    (gyro_bias_frozen_without_mag evalEnv (zeroFusion 2 5) (by decide)
      zeroFusion_game_hasEstimate).1 ⟨0, 0, 1⟩ (1 / 100),
    (gyro_bias_frozen_without_mag evalEnv (zeroFusion 2 5) (by decide)
      zeroFusion_game_hasEstimate).2.1 0 ⟨0, 0, 981 / 100⟩ (1 / 100),
    (gyro_bias_frozen_without_mag evalEnv (zeroFusion 2 5) (by decide)
      zeroFusion_game_hasEstimate).2.2.1 0 ⟨0, 30, -40⟩⟩

/-- C9, as the code has it: the bias update of `fusionUpdate` is gated on
USE_MAG alone, so for every engine state whose flags lack USE_MAG (game
rotation mode and the flagless mode) `fusionUpdate` leaves `x1` unchanged for
every measurement `(z, Bi, sigma)`. -/
theorem fusionUpdate_bias_unchanged_without_mag (env : Env α) (f : Fusion α)
    (z Bi : Vec3 α) (sigma : α) (h : f.flags &&& env.FUSION_USE_MAG = 0) :
    (fusionUpdate env f z Bi sigma).x1 = f.x1 :=
  fusionUpdate_x1_of_no_mag env f z Bi sigma h

/-- Witness for C9 as amended: an update on a game-rotation engine. -/
theorem fusionUpdate_bias_unchanged_without_mag_witness :
    (zeroFusion 2 5).flags &&& evalEnv.FUSION_USE_MAG = 0 ∧
      (fusionUpdate evalEnv (zeroFusion 2 5) ⟨1, 0, 0⟩ ⟨0, 0, 1⟩ 1).x1 = (zeroFusion 2 5).x1 :=
  ⟨by decide,
    fusionUpdate_bias_unchanged_without_mag evalEnv (zeroFusion 2 5) ⟨1, 0, 0⟩ ⟨0, 0, 1⟩ 1
      (by decide)⟩

end BiasClaims

section BiasCounterexample

theorem geomag_update_x1 :
    (fusionUpdate evalEnv geomagFusion ⟨1, 0, 0⟩ ⟨0, 0, 1⟩ 1).x1 = ⟨0, -1 / 2, 0⟩ := by
  unfold fusionUpdate
  dsimp only
  rw [(fusionCheckState_frame evalEnv _).1]
  have hA : evalEnv.quatToMatrix geomagFusion.x0 = 1 := by
    simp [evalEnv, evalQuatToMatrix, geomagFusion, Matrix.one_fin_three]
  have hf : geomagFusion.flags &&& evalEnv.FUSION_USE_MAG ≠ 0 := by decide
  rw [if_pos hf, hA]
  have hBb : mat33Apply (1 : Mat33 ℚ) ⟨0, 0, 1⟩ = ⟨0, 0, 1⟩ := by
    simp [mat33Apply, Matrix.one_apply]
  rw [hBb]
  have hL : matrixCross (⟨0, 0, 1⟩ : Vec3 ℚ) 0 = !![0, -1, 0; 1, 0, 0; 0, 0, 0] := by
    simp [matrixCross]
  rw [hL]
  have hP : geomagFusion.P00 = 1 ∧ geomagFusion.P01 = 1 ∧ geomagFusion.x1 = ⟨0, 0, 0⟩ :=
    ⟨rfl, rfl, rfl⟩
  rw [hP.1, hP.2.1, hP.2.2]
  have hS : mat33Add (scaleCovariance !![0, -1, 0; 1, 0, 0; 0, 0, 0] (1 : Mat33 ℚ))
      (initDiagonalMatrix (1 * 1)) = !![2, 0, 0; 0, 2, 0; 0, 0, 1] := by
    ext i j
    fin_cases i <;> fin_cases j <;>
      simp [mat33Add, scaleCovariance, scaleCovarianceEntry, initDiagonalMatrix, List.finRange,
        List.filter, Matrix.one_apply, Matrix.vecHead, Matrix.vecTail] <;> norm_num
  rw [hS]
  have hSi : mat33Invert (!![2, 0, 0; 0, 2, 0; 0, 0, 1] : Mat33 ℚ)
      = !![1 / 2, 0, 0; 0, 1 / 2, 0; 0, 0, 1] := by
    ext i j
    fin_cases i <;> fin_cases j <;>
      simp [mat33Invert, mat33Det, Matrix.vecHead, Matrix.vecTail]
    norm_num
  rw [hSi]
  simp [mat33MultiplyTransposed, mat33Apply, vec3Sub, vec3Add, Matrix.mul_apply,
    Fin.sum_univ_three, Matrix.transpose_apply, Matrix.vecHead, Matrix.vecTail]
  norm_num

end BiasCounterexample

/-- Counterexample to C9 as stated: in geomag mode (USE_MAG set, USE_GYRO
clear) the flags do not contain both bits, yet `fusionUpdate` moves the bias
from `(0,0,0)` to `(0,-1/2,0)`. -/
theorem fusionUpdate_bias_changes_in_geomag :
    ¬ (geomagFusion.flags &&& evalEnv.FUSION_USE_GYRO ≠ 0 ∧
        geomagFusion.flags &&& evalEnv.FUSION_USE_MAG ≠ 0) ∧
      geomagFusion.x1 = ⟨0, 0, 0⟩ ∧
      (fusionUpdate evalEnv geomagFusion ⟨1, 0, 0⟩ ⟨0, 0, 1⟩ 1).x1 = ⟨0, -1 / 2, 0⟩ ∧
      (fusionUpdate evalEnv geomagFusion ⟨1, 0, 0⟩ ⟨0, 0, 1⟩ 1).x1 ≠ geomagFusion.x1 := by
  refine ⟨by decide, rfl, geomag_update_x1, ?_⟩
  rw [geomag_update_x1]
  intro h
  have hy := congrArg Vec3.y h
  have h0 : geomagFusion.x1.y = 0 := rfl
  rw [h0] at hy
  norm_num at hy

section Bootstrap

variable {α : Type} [LinearOrderedField α]

/-! ## The bootstrap state machine -/

theorem maskOf_inj : ∀ a m g a' m' g' : Bool,
    maskOf a m g = maskOf a' m' g' → a = a' ∧ m = m' ∧ g = g' := by
  decide

theorem maskOf_or : ∀ a m g : Bool,
    maskOf a m g ||| ACC = maskOf true m g ∧ maskOf a m g ||| MAG = maskOf a true g ∧
      maskOf a m g ||| GYRO = maskOf a m true := by
  decide

omit [LinearOrderedField α] in
theorem fusionHasEstimate_iff (env : Env α) (f : Fusion α) :
    fusionHasEstimate env f = true ↔
      f.mInitState = maskOf true (decide (f.flags &&& env.FUSION_USE_MAG ≠ 0))
        (decide (f.flags &&& env.FUSION_USE_GYRO ≠ 0)) := by
  unfold fusionHasEstimate maskOf
  rw [beq_iff_eq]
  by_cases hm : f.flags &&& env.FUSION_USE_MAG = 0 <;>
    by_cases hg : f.flags &&& env.FUSION_USE_GYRO = 0 <;> simp [hm, hg]

theorem fusion_init_finalize_frame (env : Env α) (f : Fusion α) :
    (fusion_init_finalize env f).flags = f.flags ∧
      (fusion_init_finalize env f).mInitState = f.mInitState ∧
      (fusion_init_finalize env f).mCount0 = f.mCount0 := by
  unfold fusion_init_finalize internalInit
  dsimp only
  split_ifs <;> exact ⟨rfl, rfl, rfl⟩

theorem fusion_init_complete_frame (env : Env α) (f : Fusion α) (what : Nat) (d : Vec3 α)
    (dT : α) (h : fusionHasEstimate env f = false) :
    (fusion_init_complete env f what d dT).2.flags
        = (fusion_init_accumulate env f what d dT).flags ∧
      (fusion_init_complete env f what d dT).2.mInitState
        = (fusion_init_accumulate env f what d dT).mInitState ∧
      (fusion_init_complete env f what d dT).2.mCount0
        = (fusion_init_accumulate env f what d dT).mCount0 := by
  unfold fusion_init_complete
  simp only [h, Bool.false_eq_true, if_false]
  split_ifs
  · exact fusion_init_finalize_frame env _
  · exact ⟨rfl, rfl, rfl⟩

theorem fusion_init_accumulate_acc (env : Env α) (f : Fusion α) (d : Vec3 α) (dT : α) :
    (fusion_init_accumulate env f ACC d dT).flags = f.flags ∧
      (fusion_init_accumulate env f ACC d dT).mInitState
        = (if (f.mCount0 + 1) % 2 ^ 32 = 32 then f.mInitState ||| ACC else f.mInitState) ∧
      (fusion_init_accumulate env f ACC d dT).mCount0 = (f.mCount0 + 1) % 2 ^ 32 := by
  unfold fusion_init_accumulate
  simp only [if_true]
  split_ifs <;> exact ⟨rfl, rfl, rfl⟩

theorem fusion_init_accumulate_mag (env : Env α) (f : Fusion α) (d : Vec3 α) (dT : α) :
    (fusion_init_accumulate env f MAG d dT).flags = f.flags ∧
      (fusion_init_accumulate env f MAG d dT).mInitState = f.mInitState ||| MAG ∧
      (fusion_init_accumulate env f MAG d dT).mCount0 = f.mCount0 := by
  have h : MAG ≠ ACC := by decide
  unfold fusion_init_accumulate
  simp [h]

theorem fusion_init_accumulate_gyro (env : Env α) (f : Fusion α) (d : Vec3 α) (dT : α) :
    (fusion_init_accumulate env f GYRO d dT).flags = f.flags ∧
      (fusion_init_accumulate env f GYRO d dT).mInitState = f.mInitState ||| GYRO ∧
      (fusion_init_accumulate env f GYRO d dT).mCount0 = f.mCount0 := by
  have h : GYRO ≠ ACC := by decide
  have h2 : GYRO ≠ MAG := by decide
  unfold fusion_init_accumulate
  simp [h, h2]

theorem fusionHandleAcc_bootstrap (env : Env α) (f : Fusion α) (c : α) (a : Vec3 α) (dT : α)
    (h : fusionHasEstimate env f = false) :
    (fusionHandleAcc env f c a dT).fusion = (fusion_init_complete env f ACC a dT).2 := by
  simp [fusionHandleAcc, fusion_init_complete_fst, h]

theorem fusionHandleMag_bootstrap (env : Env α) (f : Fusion α) (c : α) (m : Vec3 α)
    (h : fusionHasEstimate env f = false) :
    (fusionHandleMag env f c m).fusion = (fusion_init_complete env f MAG m 0).2 := by
  simp [fusionHandleMag, fusion_init_complete_fst, h]

theorem fusionHandleGyro_bootstrap (env : Env α) (f : Fusion α) (w : Vec3 α) (dT : α)
    (h : fusionHasEstimate env f = false) :
    fusionHandleGyro env f w dT = (fusion_init_complete env f GYRO w dT).2 := by
  simp [fusionHandleGyro, fusion_init_complete_fst, h]

theorem handleSamples_snoc (env : Env α) (s : Fusion α × α) (p : List (Sample α))
    (x : Sample α) :
    handleSamples env s (p ++ [x]) = handleSample env (handleSamples env s p) x := by
  simp [handleSamples, List.foldl_append]

omit [LinearOrderedField α] in
theorem length_eq_counts (l : List (Sample α)) :
    l.length = l.countP Sample.isAcc + l.countP Sample.isMag + l.countP Sample.isGyro := by
  induction l with
  | nil => rfl
  | cons x t ih =>
    cases x <;> simp [List.countP_cons, Sample.isAcc, Sample.isMag, Sample.isGyro, ih] <;> omega

end Bootstrap

section BootstrapCount

variable {α : Type} [LinearOrderedField α]

theorem handleSample_bootstrap (env : Env α) (s : Fusion α × α) (x : Sample α)
    (h : fusionHasEstimate env s.1 = false) :
    (handleSample env s x).1.flags = s.1.flags ∧
      (handleSample env s x).1.mCount0
        = (if x.isAcc then (s.1.mCount0 + 1) % 2 ^ 32 else s.1.mCount0) ∧
      (handleSample env s x).1.mInitState
        = (if x.isAcc then
            (if (s.1.mCount0 + 1) % 2 ^ 32 = 32 then s.1.mInitState ||| ACC else s.1.mInitState)
          else if x.isMag then s.1.mInitState ||| MAG
          else s.1.mInitState ||| GYRO) := by
  cases x with
  | acc a dT =>
    simp only [handleSample, Sample.isAcc, if_true]
    rw [fusionHandleAcc_bootstrap env s.1 s.2 a dT h]
    obtain ⟨h1, h2, h3⟩ := fusion_init_complete_frame env s.1 ACC a dT h
    obtain ⟨g1, g2, g3⟩ := fusion_init_accumulate_acc env s.1 a dT
    exact ⟨h1.trans g1, h3.trans g3, h2.trans g2⟩
  | mag m =>
    simp only [handleSample, Sample.isAcc, Sample.isMag, if_true, Bool.false_eq_true, if_false]
    rw [fusionHandleMag_bootstrap env s.1 s.2 m h]
    obtain ⟨h1, h2, h3⟩ := fusion_init_complete_frame env s.1 MAG m 0 h
    obtain ⟨g1, g2, g3⟩ := fusion_init_accumulate_mag env s.1 m 0
    exact ⟨h1.trans g1, h3.trans g3, h2.trans g2⟩
  | gyro w dT =>
    simp only [handleSample, Sample.isAcc, Sample.isMag, Bool.false_eq_true, if_false]
    rw [fusionHandleGyro_bootstrap env s.1 w dT h]
    obtain ⟨h1, h2, h3⟩ := fusion_init_complete_frame env s.1 GYRO w dT h
    obtain ⟨g1, g2, g3⟩ := fusion_init_accumulate_gyro env s.1 w dT
    exact ⟨h1.trans g1, h3.trans g3, h2.trans g2⟩

omit [LinearOrderedField α] in
theorem countP_snoc (f : Sample α → Bool) (p : List (Sample α)) (x : Sample α) :
    (p ++ [x]).countP f = p.countP f + (if f x then 1 else 0) := by
  simp [List.countP_append, List.countP_cons]

omit [LinearOrderedField α] in
theorem sample_kinds (a : Vec3 α) (dT : α) :
    (Sample.acc a dT).isAcc = true ∧ (Sample.acc a dT).isMag = false ∧
      (Sample.acc a dT).isGyro = false ∧ (Sample.mag a).isAcc = false ∧
      (Sample.mag a).isMag = true ∧ (Sample.mag a).isGyro = false ∧
      (Sample.gyro a dT).isAcc = false ∧ (Sample.gyro a dT).isMag = false ∧
      (Sample.gyro a dT).isGyro = true :=
  ⟨rfl, rfl, rfl, rfl, rfl, rfl, rfl, rfl, rfl⟩

theorem bootstrap_track (env : Env α) (s0 : Fusion α × α) (h0 : s0.1.mInitState = 0)
    (hc0 : s0.1.mCount0 = 0) (p : List (Sample α)) :
    p.countP Sample.isAcc ≤ 32 →
    p.countP Sample.isMag ≤ (if s0.1.flags &&& env.FUSION_USE_MAG ≠ 0 then 1 else 0) →
    p.countP Sample.isGyro ≤ (if s0.1.flags &&& env.FUSION_USE_GYRO ≠ 0 then 1 else 0) →
    (handleSamples env s0 p).1.flags = s0.1.flags ∧
      (handleSamples env s0 p).1.mCount0 = p.countP Sample.isAcc ∧
      (handleSamples env s0 p).1.mInitState =
        maskOf (decide (32 ≤ p.countP Sample.isAcc)) (decide (1 ≤ p.countP Sample.isMag))
          (decide (1 ≤ p.countP Sample.isGyro)) := by
  induction p using List.reverseRecOn with
  | nil =>
    intro _ _ _
    simp [handleSamples, h0, hc0, maskOf]
  | append_singleton p x ih =>
    intro ha hm hg
    rw [countP_snoc] at ha hm hg
    obtain ⟨ihf, ihc, ihs⟩ := ih (by omega) (by omega) (by omega)
    rw [handleSamples_snoc]
    have hne : fusionHasEstimate env (handleSamples env s0 p).1 = false := by
      by_contra hcon
      have hy : fusionHasEstimate env (handleSamples env s0 p).1 = true := by
        simpa using hcon
      rw [fusionHasEstimate_iff, ihs, ihf] at hy
      obtain ⟨e1, e2, e3⟩ := maskOf_inj _ _ _ _ _ _ hy
      simp only [decide_eq_true_eq, decide_eq_decide] at e1 e2 e3
      cases x with
      | acc a dT =>
        simp only [(sample_kinds a dT).1, if_true] at ha
        omega
      | mag m =>
        simp only [(sample_kinds m 0).2.2.2.2.1, if_true] at hm
        by_cases hM : s0.1.flags &&& env.FUSION_USE_MAG ≠ 0
        · have := e2.mpr hM
          rw [if_pos hM] at hm
          omega
        · rw [if_neg hM] at hm
          omega
      | gyro w dT =>
        simp only [(sample_kinds w dT).2.2.2.2.2.2.2.2, if_true] at hg
        by_cases hG : s0.1.flags &&& env.FUSION_USE_GYRO ≠ 0
        · have := e3.mpr hG
          rw [if_pos hG] at hg
          omega
        · rw [if_neg hG] at hg
          omega
    obtain ⟨k1, k2, k3⟩ := handleSample_bootstrap env (handleSamples env s0 p) x hne
    rw [k1, k2, k3, ihf, ihc, ihs, countP_snoc, countP_snoc, countP_snoc]
    cases x with
    | acc a dT =>
      simp only [(sample_kinds a dT).1, (sample_kinds a dT).2.1, (sample_kinds a dT).2.2.1,
        if_true, Bool.false_eq_true, if_false, add_zero] at ha ⊢
      have hlt : ¬ (32 ≤ List.countP Sample.isAcc p) := by omega
      have hmod : (List.countP Sample.isAcc p + 1) % 2 ^ 32
          = List.countP Sample.isAcc p + 1 := by omega
      rw [hmod, decide_eq_false hlt]
      refine ⟨trivial, rfl, ?_⟩
      by_cases h32 : List.countP Sample.isAcc p + 1 = 32
      · rw [if_pos h32, decide_eq_true (by omega : 32 ≤ List.countP Sample.isAcc p + 1)]
        exact (maskOf_or _ _ _).1
      · rw [if_neg h32, decide_eq_false (by omega : ¬ 32 ≤ List.countP Sample.isAcc p + 1)]
    | mag m =>
      simp only [(sample_kinds m 0).2.2.2.1, (sample_kinds m 0).2.2.2.2.1,
        (sample_kinds m 0).2.2.2.2.2.1, if_true, Bool.false_eq_true, if_false, add_zero]
      rw [decide_eq_true (by omega : 1 ≤ List.countP Sample.isMag p + 1)]
      exact ⟨trivial, trivial, (maskOf_or _ _ _).2.1⟩
    | gyro w dT =>
      simp only [(sample_kinds w dT).2.2.2.2.2.2.1, (sample_kinds w dT).2.2.2.2.2.2.2.1,
        (sample_kinds w dT).2.2.2.2.2.2.2.2, if_true, Bool.false_eq_true, if_false, add_zero]
      rw [decide_eq_true (by omega : 1 ≤ List.countP Sample.isGyro p + 1)]
      exact ⟨trivial, trivial, (maskOf_or _ _ _).2.2⟩

end BootstrapCount

section BootstrapClaim

variable {α : Type} [LinearOrderedField α]

theorem initFusion_flags (env : Env α) (f : Fusion α) (flags : Nat) :
    (initFusion env f flags).flags = flags := by
  unfold initFusion
  dsimp only
  split_ifs <;> rfl

/-- C1: starting from the state `initFusion` leaves when REINITIALIZE is set,
after the handler calls for any sequence made of exactly 32 accelerometer
samples, one magnetometer sample if USE_MAG is set and one gyro sample if
USE_GYRO is set (no other samples, any interleaving, any sample values),
`fusionHasEstimate` is true, and it is false after every proper prefix of that
sequence. -/
theorem bootstrap_completes_exactly (env : Env α) (f0 : Fusion α) (c : α) (flags : Nat)
    (hR : flags &&& env.FUSION_REINITIALIZE ≠ 0) (l : List (Sample α))
    (hacc : l.countP Sample.isAcc = 32)
    (hmag : l.countP Sample.isMag = if flags &&& env.FUSION_USE_MAG ≠ 0 then 1 else 0)
    (hgyro : l.countP Sample.isGyro = if flags &&& env.FUSION_USE_GYRO ≠ 0 then 1 else 0) :
    fusionHasEstimate env (handleSamples env (initFusion env f0 flags, c) l).1 = true ∧
      ∀ p : List (Sample α), p <+: l → p ≠ l →
        fusionHasEstimate env (handleSamples env (initFusion env f0 flags, c) p).1 = false := by
  have hf : (initFusion env f0 flags, c).1.flags = flags := initFusion_flags env f0 flags
  have h0 : (initFusion env f0 flags, c).1.mInitState = 0 := by
    simp [initFusion, hR]
  have hc0 : (initFusion env f0 flags, c).1.mCount0 = 0 := by
    simp [initFusion, hR]
  have track := bootstrap_track env (initFusion env f0 flags, c) h0 hc0
  rw [hf] at track
  constructor
  · obtain ⟨t1, _, t3⟩ := track l (by omega) (by omega) (by omega)
    rw [fusionHasEstimate_iff, t3, t1, hacc, hmag, hgyro]
    by_cases hM : flags &&& env.FUSION_USE_MAG ≠ 0 <;>
      by_cases hG : flags &&& env.FUSION_USE_GYRO ≠ 0 <;> simp [hM, hG]
  · intro p hp hne
    have ba : p.countP Sample.isAcc ≤ l.countP Sample.isAcc := hp.sublist.countP_le _
    have bm : p.countP Sample.isMag ≤ l.countP Sample.isMag := hp.sublist.countP_le _
    have bg : p.countP Sample.isGyro ≤ l.countP Sample.isGyro := hp.sublist.countP_le _
    obtain ⟨t1, _, t3⟩ := track p (by omega) (by omega) (by omega)
    by_contra hcon
    have hy : fusionHasEstimate env (handleSamples env (initFusion env f0 flags, c) p).1
        = true := by
      simpa using hcon
    rw [fusionHasEstimate_iff, t3, t1] at hy
    obtain ⟨e1, e2, e3⟩ := maskOf_inj _ _ _ _ _ _ hy
    simp only [decide_eq_true_eq, decide_eq_decide] at e1 e2 e3
    have ea : p.countP Sample.isAcc = l.countP Sample.isAcc := by omega
    have em : p.countP Sample.isMag = l.countP Sample.isMag := by
      by_cases hM : flags &&& env.FUSION_USE_MAG ≠ 0
      · have := e2.mpr hM
        rw [if_pos hM] at hmag
        omega
      · rw [if_neg hM] at hmag
        omega
    have eg : p.countP Sample.isGyro = l.countP Sample.isGyro := by
      by_cases hG : flags &&& env.FUSION_USE_GYRO ≠ 0
      · have := e3.mpr hG
        rw [if_pos hG] at hgyro
        omega
      · rw [if_neg hG] at hgyro
        omega
    apply hne
    apply hp.eq_of_length
    rw [length_eq_counts p, length_eq_counts l, ea, em, eg]

end BootstrapClaim

/-- Witness for C1: 9-DOF mode, the gyro sample first, then 32 accelerometer
samples, then the magnetometer sample. -/
theorem bootstrap_completes_exactly_witness :
    7 &&& evalEnv.FUSION_REINITIALIZE ≠ 0 ∧
      (Sample.gyro ⟨0, 0, 0⟩ (1 / 100) ::
          (List.replicate 32 (Sample.acc ⟨0, 0, 981 / 100⟩ (1 / 100)) ++
            [Sample.mag (⟨0, 30, -40⟩ : Vec3 ℚ)])).countP Sample.isAcc = 32 ∧
      (Sample.gyro ⟨0, 0, 0⟩ (1 / 100) ::
          (List.replicate 32 (Sample.acc ⟨0, 0, 981 / 100⟩ (1 / 100)) ++
            [Sample.mag (⟨0, 30, -40⟩ : Vec3 ℚ)])).countP Sample.isMag
        = (if 7 &&& evalEnv.FUSION_USE_MAG ≠ 0 then 1 else 0) ∧
      (Sample.gyro ⟨0, 0, 0⟩ (1 / 100) ::
          (List.replicate 32 (Sample.acc ⟨0, 0, 981 / 100⟩ (1 / 100)) ++
            [Sample.mag (⟨0, 30, -40⟩ : Vec3 ℚ)])).countP Sample.isGyro
        = (if 7 &&& evalEnv.FUSION_USE_GYRO ≠ 0 then 1 else 0) ∧
      (fusionHasEstimate evalEnv (handleSamples evalEnv (initFusion evalEnv (zeroFusion 3 7) 7, 0)
          (Sample.gyro ⟨0, 0, 0⟩ (1 / 100) ::
            (List.replicate 32 (Sample.acc ⟨0, 0, 981 / 100⟩ (1 / 100)) ++
              [Sample.mag (⟨0, 30, -40⟩ : Vec3 ℚ)]))).1 = true ∧
        ∀ p : List (Sample ℚ),
          p <+: (Sample.gyro ⟨0, 0, 0⟩ (1 / 100) ::
            (List.replicate 32 (Sample.acc ⟨0, 0, 981 / 100⟩ (1 / 100)) ++
              [Sample.mag (⟨0, 30, -40⟩ : Vec3 ℚ)])) →
          p ≠ (Sample.gyro ⟨0, 0, 0⟩ (1 / 100) ::
            (List.replicate 32 (Sample.acc ⟨0, 0, 981 / 100⟩ (1 / 100)) ++
              [Sample.mag (⟨0, 30, -40⟩ : Vec3 ℚ)])) →
          fusionHasEstimate evalEnv
            (handleSamples evalEnv (initFusion evalEnv (zeroFusion 3 7) 7, 0) p).1 = false) :=
  ⟨by decide, rfl, rfl, rfl,
    bootstrap_completes_exactly evalEnv (zeroFusion 3 7) 0 7 (by decide) _ rfl rfl rfl⟩

section Covariance

variable {α : Type} [LinearOrderedField α]

/-! ## Symmetry of the covariance -/

theorem fusionCheckState_symmetric (env : Env α) (f : Fusion α) (h : CovSymmetric f) :
    CovSymmetric (fusionCheckState env f) := by
  unfold fusionCheckState
  split_ifs
  · simp [CovSymmetric, initZeroMatrix]
  · exact h

theorem fusionCheckState_P10 (env : Env α) (f : Fusion α) (h : f.P10 = f.P01.transpose) :
    (fusionCheckState env f).P10 = (fusionCheckState env f).P01.transpose := by
  unfold fusionCheckState
  split_ifs
  · simp [initZeroMatrix]
  · exact h

theorem initDiagonalMatrix_transpose (x : α) :
    (initDiagonalMatrix x).transpose = initDiagonalMatrix x := by
  simp [initDiagonalMatrix]

theorem predict_blocks_symmetric (F0 F1 P00 P01 P10 P11 Q00 Q01 Q10 Q11 : Mat33 α)
    (h10 : P10 = P01.transpose) (h00 : P00.transpose = P00) (h11 : P11.transpose = P11)
    (q00 : Q00.transpose = Q00) (q10 : Q10 = Q01.transpose) (q11 : Q11.transpose = Q11) :
    P10 * F0.transpose + P11 * F1.transpose + Q10
        = (F0 * P01 + F1 * P11 + Q01).transpose ∧
      ((F0 * P00 + F1 * P10) * F0.transpose + (F0 * P01 + F1 * P11) * F1.transpose + Q00).transpose
        = (F0 * P00 + F1 * P10) * F0.transpose + (F0 * P01 + F1 * P11) * F1.transpose + Q00 ∧
      (P11 + Q11).transpose = P11 + Q11 := by
  subst h10
  refine ⟨?_, ?_, ?_⟩
  · simp only [Matrix.transpose_add, Matrix.transpose_mul, h11, q10]
  · simp only [Matrix.transpose_add, Matrix.transpose_mul, Matrix.transpose_transpose, h00, h11,
      q00, Matrix.mul_add, Matrix.add_mul, Matrix.mul_assoc]
    abel
  · simp only [Matrix.transpose_add, h11, q11]

theorem update_blocks_symmetric (L Si P00 P01 P11 : Mat33 α) (hSi : Si.transpose = Si)
    (h00 : P00.transpose = P00) (h11 : P11.transpose = P11) :
    (P00 - P00 * (L.transpose * Si) * L * P00).transpose
        = P00 - P00 * (L.transpose * Si) * L * P00 ∧
      (P11 - P01.transpose * (L.transpose * Si) * L * P01).transpose
        = P11 - P01.transpose * (L.transpose * Si) * L * P01 := by
  constructor
  · simp only [Matrix.transpose_sub, Matrix.transpose_mul, Matrix.transpose_transpose, h00, hSi,
      Matrix.mul_assoc]
  · simp only [Matrix.transpose_sub, Matrix.transpose_mul, Matrix.transpose_transpose, h11, hSi,
      Matrix.mul_assoc]

theorem scaleCovariance_transpose (A P : Mat33 α) :
    (scaleCovariance A P).transpose = scaleCovariance A P := by
  ext i j
  simp only [Matrix.transpose_apply, scaleCovariance, Matrix.of_apply]
  by_cases h1 : i ≤ j <;> by_cases h2 : j ≤ i
  · have : i = j := le_antisymm h1 h2
    subst this
    rfl
  · simp [h1, h2]
  · simp [h1, h2]
  · exact absurd (le_of_lt (not_le.mp h1)) h2

theorem mat33Invert_transpose (S : Mat33 α) (h : S.transpose = S) :
    (mat33Invert S).transpose = mat33Invert S := by
  have h01 : S 1 0 = S 0 1 := congrFun (congrFun h 0) 1
  have h02 : S 2 0 = S 0 2 := congrFun (congrFun h 0) 2
  have h12 : S 2 1 = S 1 2 := congrFun (congrFun h 1) 2
  ext i j
  fin_cases i <;> fin_cases j <;>
    simp [mat33Invert, Matrix.transpose_apply, Matrix.vecHead, Matrix.vecTail, h01, h02, h12] <;>
    ring_nf <;> simp

end Covariance

section CovarianceClaim

variable {α : Type} [LinearOrderedField α]

theorem internalInit_symmetric (g : Fusion α) (q : Quat α) (dT : α) :
    CovSymmetric (internalInit g q dT) := by
  simp [CovSymmetric, internalInit, initZeroMatrix]

theorem fusionPredict_symmetric (env : Env α) (f g : Fusion α) (q : Quat α) (dT0 : α)
    (w : Vec3 α) (dT : α) (hQ : GQGtSeeded f g q dT0) (hS : CovSymmetric f) :
    CovSymmetric (fusionPredict env f w dT) := by
  by_cases h : |vec3Norm env (vec3Sub w f.x1)| < kEps
  · rw [fusionPredict_of_small env f w dT h]
    exact hS
  · obtain ⟨h10, h00, h11⟩ := hS
    obtain ⟨q00, q01, q10, q11⟩ := hQ
    have hq00 : f.GQGt00.transpose = f.GQGt00 := by
      rw [q00]
      exact initDiagonalMatrix_transpose _
    have hq11 : f.GQGt11.transpose = f.GQGt11 := by
      rw [q11]
      exact initDiagonalMatrix_transpose _
    have hq10 : f.GQGt10 = f.GQGt01.transpose := by
      rw [q10, q01]
      exact (initDiagonalMatrix_transpose _).symm
    unfold fusionPredict
    dsimp only
    rw [if_neg h]
    apply fusionCheckState_symmetric
    exact predict_blocks_symmetric _ _ _ _ _ _ _ _ _ _ h10 h00 h11 hq00 hq10 hq11

theorem fusionUpdate_symmetric (env : Env α) (f : Fusion α) (z Bi : Vec3 α) (sigma : α)
    (hS : CovSymmetric f) : CovSymmetric (fusionUpdate env f z Bi sigma) := by
  obtain ⟨_, h00, h11⟩ := hS
  unfold fusionUpdate
  dsimp only
  apply fusionCheckState_symmetric
  have hSi : (mat33Invert (mat33Add
      (scaleCovariance (matrixCross (mat33Apply (env.quatToMatrix f.x0) Bi) 0) f.P00)
      (initDiagonalMatrix (sigma * sigma)))).transpose
      = mat33Invert (mat33Add
          (scaleCovariance (matrixCross (mat33Apply (env.quatToMatrix f.x0) Bi) 0) f.P00)
          (initDiagonalMatrix (sigma * sigma))) := by
    apply mat33Invert_transpose
    unfold mat33Add
    rw [Matrix.transpose_add, scaleCovariance_transpose, initDiagonalMatrix_transpose]
  obtain ⟨u1, u2⟩ := update_blocks_symmetric
    (matrixCross (mat33Apply (env.quatToMatrix f.x0) Bi) 0) _ f.P00 f.P01 f.P11 hSi h00 h11
  exact ⟨rfl, u1, u2⟩

theorem fusionUpdate_P10 (env : Env α) (f : Fusion α) (z Bi : Vec3 α) (sigma : α) :
    (fusionUpdate env f z Bi sigma).P10 = (fusionUpdate env f z Bi sigma).P01.transpose := by
  unfold fusionUpdate
  dsimp only
  apply fusionCheckState_P10
  rfl

theorem fusionCheckState_GQGt (env : Env α) (f : Fusion α) :
    (fusionCheckState env f).GQGt00 = f.GQGt00 ∧ (fusionCheckState env f).GQGt01 = f.GQGt01 ∧
      (fusionCheckState env f).GQGt10 = f.GQGt10 ∧
      (fusionCheckState env f).GQGt11 = f.GQGt11 := by
  unfold fusionCheckState
  split_ifs <;> exact ⟨rfl, rfl, rfl, rfl⟩

theorem fusionPredict_seeded (env : Env α) (f g : Fusion α) (q : Quat α) (dT0 : α)
    (w : Vec3 α) (dT : α) (hQ : GQGtSeeded f g q dT0) :
    GQGtSeeded (fusionPredict env f w dT) g q dT0 := by
  by_cases h : |vec3Norm env (vec3Sub w f.x1)| < kEps
  · rw [fusionPredict_of_small env f w dT h]
    exact hQ
  · unfold fusionPredict
    dsimp only
    rw [if_neg h]
    unfold GQGtSeeded
    rw [(fusionCheckState_GQGt env _).1, (fusionCheckState_GQGt env _).2.1,
      (fusionCheckState_GQGt env _).2.2.1, (fusionCheckState_GQGt env _).2.2.2]
    exact hQ

theorem fusionUpdate_seeded (env : Env α) (f g : Fusion α) (q : Quat α) (dT0 : α)
    (z Bi : Vec3 α) (sigma : α) (hQ : GQGtSeeded f g q dT0) :
    GQGtSeeded (fusionUpdate env f z Bi sigma) g q dT0 := by
  unfold fusionUpdate
  dsimp only
  unfold GQGtSeeded
  rw [(fusionCheckState_GQGt env _).1, (fusionCheckState_GQGt env _).2.1,
    (fusionCheckState_GQGt env _).2.2.1, (fusionCheckState_GQGt env _).2.2.2]
  exact hQ

end CovarianceClaim

section CovarianceInvariant

variable {α : Type} [LinearOrderedField α]

/-- C10: in exact arithmetic the predicate "`P[1][0]` is the transpose of
`P[0][1]`, and `P[0][0]`, `P[1][1]` are symmetric" holds right after
`internalInit`, which also builds the `GQGt` blocks; it is preserved by every
`fusionPredict` call on a state whose `GQGt` blocks are those built by
`internalInit`, and by every `fusionUpdate` call; after `fusionUpdate`,
`P[1][0]` is the transpose of `P[0][1]` for every prior state; and neither
`fusionPredict` nor `fusionUpdate` changes the `GQGt` blocks. -/
theorem covariance_symmetry_invariant (env : Env α) :
    (∀ (g : Fusion α) (q : Quat α) (dT : α),
        CovSymmetric (internalInit g q dT) ∧ GQGtSeeded (internalInit g q dT) g q dT) ∧
      (∀ (f g : Fusion α) (q : Quat α) (dT0 : α) (w : Vec3 α) (dT : α),
        GQGtSeeded f g q dT0 → CovSymmetric f → CovSymmetric (fusionPredict env f w dT)) ∧
      (∀ (f : Fusion α) (z Bi : Vec3 α) (sigma : α),
        CovSymmetric f → CovSymmetric (fusionUpdate env f z Bi sigma)) ∧
      (∀ (f : Fusion α) (z Bi : Vec3 α) (sigma : α),
        (fusionUpdate env f z Bi sigma).P10 = (fusionUpdate env f z Bi sigma).P01.transpose) ∧
      (∀ (f g : Fusion α) (q : Quat α) (dT0 : α) (w z Bi : Vec3 α) (dT sigma : α),
        GQGtSeeded f g q dT0 →
          GQGtSeeded (fusionPredict env f w dT) g q dT0 ∧
            GQGtSeeded (fusionUpdate env f z Bi sigma) g q dT0) :=
  ⟨fun g q dT => ⟨internalInit_symmetric g q dT, rfl, rfl, rfl, rfl⟩,
    fun f g q dT0 w dT hQ hS => fusionPredict_symmetric env f g q dT0 w dT hQ hS,
    fun f z Bi sigma hS => fusionUpdate_symmetric env f z Bi sigma hS,
    fun f z Bi sigma => fusionUpdate_P10 env f z Bi sigma,
    fun f g q dT0 w z Bi dT sigma hQ =>
      ⟨fusionPredict_seeded env f g q dT0 w dT hQ,
        fusionUpdate_seeded env f g q dT0 z Bi sigma hQ⟩⟩

end CovarianceInvariant

theorem geomagFusion_seeded : GQGtSeeded geomagFusion (zeroFusion 1 3) ⟨0, 0, 0, 1⟩ (1 / 100) := by
  simp [GQGtSeeded, internalInit, initDiagonalMatrix, geomagFusion, zeroFusion]

theorem geomagFusion_symmetric : CovSymmetric geomagFusion := by
  simp [CovSymmetric, geomagFusion]

/-- Witness for C10: a predict step and an update step on a geomag engine with
identity covariance blocks. -/
theorem covariance_symmetry_invariant_witness :
    GQGtSeeded geomagFusion (zeroFusion 1 3) ⟨0, 0, 0, 1⟩ (1 / 100) ∧
      CovSymmetric geomagFusion ∧
      CovSymmetric (fusionPredict evalEnv geomagFusion ⟨0, 0, 1⟩ (1 / 100)) ∧
      CovSymmetric (fusionUpdate evalEnv geomagFusion ⟨1, 0, 0⟩ ⟨0, 0, 1⟩ 1) ∧
      (GQGtSeeded (fusionPredict evalEnv geomagFusion ⟨0, 0, 1⟩ (1 / 100)) (zeroFusion 1 3)
          ⟨0, 0, 0, 1⟩ (1 / 100) ∧
        GQGtSeeded (fusionUpdate evalEnv geomagFusion ⟨1, 0, 0⟩ ⟨0, 0, 1⟩ 1) (zeroFusion 1 3)
          ⟨0, 0, 0, 1⟩ (1 / 100)) :=
  ⟨geomagFusion_seeded, geomagFusion_symmetric,
    (covariance_symmetry_invariant evalEnv).2.1 geomagFusion (zeroFusion 1 3) ⟨0, 0, 0, 1⟩
      (1 / 100) ⟨0, 0, 1⟩ (1 / 100) geomagFusion_seeded geomagFusion_symmetric,
    (covariance_symmetry_invariant evalEnv).2.2.1 geomagFusion ⟨1, 0, 0⟩ ⟨0, 0, 1⟩ 1
      geomagFusion_symmetric,
    (covariance_symmetry_invariant evalEnv).2.2.2.2 geomagFusion (zeroFusion 1 3) ⟨0, 0, 0, 1⟩
      (1 / 100) ⟨0, 0, 1⟩ ⟨1, 0, 0⟩ ⟨0, 0, 1⟩ (1 / 100) 1 geomagFusion_seeded⟩

section PredictQuaternion

variable {α : Type} [LinearOrderedField α]

/-! ## The quaternion step of `fusionPredict` -/

theorem fusionPredict_x0 (env : Env α) (f : Fusion α) (w : Vec3 α) (dT : α)
    (h : ¬ |vec3Norm env (vec3Sub w f.x1)| < kEps) :
    (fusionPredict env f w dT).x0 =
      if (mat44Apply (fusionPredictO env (vec3Sub w f.x1) dT) f.x0).w < 0 then
        vec4Neg (mat44Apply (fusionPredictO env (vec3Sub w f.x1) dT) f.x0)
      else mat44Apply (fusionPredictO env (vec3Sub w f.x1) dT) f.x0 := by
  unfold fusionPredict
  dsimp only
  rw [if_neg h, (fusionCheckState_frame env _).2.2]
  rfl

end PredictQuaternion
section PredictOrthogonal

theorem quatMatrix_orthogonal {α : Type} [LinearOrderedField α] (k px py pz : α)
    (h : k * k + (px * px + py * py + pz * pz) = 1) :
    (!![k, pz, -py, px; -pz, k, px, py; py, -px, k, pz; -px, -py, -pz, k] :
        Mat44 α).transpose *
      !![k, pz, -py, px; -pz, k, px, py; py, -px, k, pz; -px, -py, -pz, k] = 1 := by
  ext i j
  fin_cases i <;> fin_cases j <;>
    simp [Matrix.mul_apply, Fin.sum_univ_four, Matrix.transpose_apply, Matrix.vecHead,
      Matrix.vecTail] <;> first | ring1 | linear_combination h

theorem quatMatrix_norm {α : Type} [LinearOrderedField α] (k px py pz : α) (q : Vec4 α)
    (h : k * k + (px * px + py * py + pz * pz) = 1) :
    vec4NormSquared
        (mat44Apply !![k, pz, -py, px; -pz, k, px, py; py, -px, k, pz; -px, -py, -pz, k] q)
      = vec4NormSquared q := by
  simp [vec4NormSquared, mat44Apply, Matrix.vecHead, Matrix.vecTail]
  linear_combination (q.x * q.x + q.y * q.y + q.z * q.z + q.w * q.w) * h

theorem fusionPredictO_eq {α : Type} [LinearOrderedField α] (env : Env α) (we : Vec3 α)
    (dT : α) :
    fusionPredictO env we dT =
      !![env.cosf (1 / 2 * (vec3Norm env we * dT)),
          we.z * (env.sinf (1 / 2 * (vec3Norm env we * dT)) * (1 / vec3Norm env we)),
          -(we.y * (env.sinf (1 / 2 * (vec3Norm env we * dT)) * (1 / vec3Norm env we))),
          we.x * (env.sinf (1 / 2 * (vec3Norm env we * dT)) * (1 / vec3Norm env we));
        -(we.z * (env.sinf (1 / 2 * (vec3Norm env we * dT)) * (1 / vec3Norm env we))),
          env.cosf (1 / 2 * (vec3Norm env we * dT)),
          we.x * (env.sinf (1 / 2 * (vec3Norm env we * dT)) * (1 / vec3Norm env we)),
          we.y * (env.sinf (1 / 2 * (vec3Norm env we * dT)) * (1 / vec3Norm env we));
        we.y * (env.sinf (1 / 2 * (vec3Norm env we * dT)) * (1 / vec3Norm env we)),
          -(we.x * (env.sinf (1 / 2 * (vec3Norm env we * dT)) * (1 / vec3Norm env we))),
          env.cosf (1 / 2 * (vec3Norm env we * dT)),
          we.z * (env.sinf (1 / 2 * (vec3Norm env we * dT)) * (1 / vec3Norm env we));
        -(we.x * (env.sinf (1 / 2 * (vec3Norm env we * dT)) * (1 / vec3Norm env we))),
          -(we.y * (env.sinf (1 / 2 * (vec3Norm env we * dT)) * (1 / vec3Norm env we))),
          -(we.z * (env.sinf (1 / 2 * (vec3Norm env we * dT)) * (1 / vec3Norm env we))),
          env.cosf (1 / 2 * (vec3Norm env we * dT))] := by
  ext i j
  fin_cases i <;> fin_cases j <;>
    simp [fusionPredictO, matrixCross, vec3ScalarMul, Matrix.vecHead, Matrix.vecTail]

theorem real_unit_coefficients (env : Env ℝ) (hsq : env.sqrtf = Real.sqrt)
    (hsin : env.sinf = Real.sin) (hcos : env.cosf = Real.cos) (we : Vec3 ℝ) (dT : ℝ)
    (h : 1 / 10000 ≤ vec3Norm env we) :
    env.cosf (1 / 2 * (vec3Norm env we * dT)) * env.cosf (1 / 2 * (vec3Norm env we * dT)) +
      (we.x * (env.sinf (1 / 2 * (vec3Norm env we * dT)) * (1 / vec3Norm env we)) *
          (we.x * (env.sinf (1 / 2 * (vec3Norm env we * dT)) * (1 / vec3Norm env we))) +
        we.y * (env.sinf (1 / 2 * (vec3Norm env we * dT)) * (1 / vec3Norm env we)) *
          (we.y * (env.sinf (1 / 2 * (vec3Norm env we * dT)) * (1 / vec3Norm env we))) +
        we.z * (env.sinf (1 / 2 * (vec3Norm env we * dT)) * (1 / vec3Norm env we)) *
          (we.z * (env.sinf (1 / 2 * (vec3Norm env we * dT)) * (1 / vec3Norm env we)))) = 1 := by
  have hn : vec3Norm env we * vec3Norm env we = vec3NormSquared we := by
    rw [vec3Norm, hsq]
    exact Real.mul_self_sqrt (vec3NormSquared_nonneg we)
  have hpos : vec3Norm env we ≠ 0 := by
    intro h0
    rw [h0] at h
    norm_num at h
  have hsc := Real.sin_sq_add_cos_sq (1 / 2 * (vec3Norm env we * dT))
  rw [hsin, hcos]
  unfold vec3NormSquared at hn
  generalize Real.sin (1 / 2 * (vec3Norm env we * dT)) = s at hsc ⊢
  generalize Real.cos (1 / 2 * (vec3Norm env we * dT)) = c at hsc ⊢
  generalize vec3Norm env we = n at hn hpos ⊢
  field_simp
  linear_combination (n * n) * hsc - s ^ 2 * hn

end PredictOrthogonal
section PredictOrthogonalClaim

theorem vec4NormSquared_neg {α : Type} [LinearOrderedField α] (v : Vec4 α) :
    vec4NormSquared (vec4Neg v) = vec4NormSquared v := by
  simp [vec4NormSquared, vec4Neg]

/-- C11: over the reals, with the library square root, sine and cosine being
the real ones, for every rate with `‖w − x1‖ ≥ 1e-4` and every `dT` the matrix
`O` built by `fusionPredict` satisfies `Oᵀ · O = I`, and `fusionPredict` leaves
the Euclidean norm of `x0` unchanged; a unit `x0` stays a unit quaternion. -/
theorem fusionPredict_orthogonal (env : Env ℝ) (hsq : env.sqrtf = Real.sqrt)
    (hsin : env.sinf = Real.sin) (hcos : env.cosf = Real.cos) (f : Fusion ℝ) (w : Vec3 ℝ)
    (dT : ℝ) (h : 1 / 10000 ≤ vec3Norm env (vec3Sub w f.x1)) :
    (fusionPredictO env (vec3Sub w f.x1) dT).transpose
        * fusionPredictO env (vec3Sub w f.x1) dT = 1 ∧
      vec4NormSquared (fusionPredict env f w dT).x0 = vec4NormSquared f.x0 ∧
      Real.sqrt (vec4NormSquared (fusionPredict env f w dT).x0)
        = Real.sqrt (vec4NormSquared f.x0) ∧
      (vec4NormSquared f.x0 = 1 → vec4NormSquared (fusionPredict env f w dT).x0 = 1) := by
  have hu := real_unit_coefficients env hsq hsin hcos (vec3Sub w f.x1) dT h
  have hg : ¬ |vec3Norm env (vec3Sub w f.x1)| < kEps := by
    rw [not_lt]
    exact le_trans (le_trans kEps_bounds.2.le h) (le_abs_self _)
  have hnorm : vec4NormSquared (fusionPredict env f w dT).x0 = vec4NormSquared f.x0 := by
    rw [fusionPredict_x0 env f w dT hg]
    have hq := quatMatrix_norm _ _ _ _ f.x0 hu
    rw [← fusionPredictO_eq] at hq
    split_ifs
    · rw [vec4NormSquared_neg, hq]
    · exact hq
  refine ⟨?_, hnorm, by rw [hnorm], fun h1 => by rw [hnorm, h1]⟩
  rw [fusionPredictO_eq]
  exact quatMatrix_orthogonal _ _ _ _ hu

theorem real_rate_norm :
    vec3Norm (stdEnv Real.sqrt Real.sin Real.cos Real.exp)
      (vec3Sub ⟨0, 0, 1⟩ (identityFusion 3 7 : Fusion ℝ).x1) = 1 := by
  simp [vec3Norm, vec3NormSquared, vec3Sub, identityFusion, stdEnv]

/-- Witness for C11: a rate of 1 rad/s about the z axis on the identity
attitude. -/
theorem fusionPredict_orthogonal_witness :
    (1 : ℝ) / 10000 ≤ vec3Norm (stdEnv Real.sqrt Real.sin Real.cos Real.exp)
        (vec3Sub ⟨0, 0, 1⟩ (identityFusion 3 7 : Fusion ℝ).x1) ∧
      vec4NormSquared (identityFusion 3 7 : Fusion ℝ).x0 = 1 ∧
      vec4NormSquared (fusionPredict (stdEnv Real.sqrt Real.sin Real.cos Real.exp)
        (identityFusion 3 7) ⟨0, 0, 1⟩ (1 / 100)).x0 = 1 := by
  have h : (1 : ℝ) / 10000 ≤ vec3Norm (stdEnv Real.sqrt Real.sin Real.cos Real.exp)
      (vec3Sub ⟨0, 0, 1⟩ (identityFusion 3 7 : Fusion ℝ).x1) := by
    rw [real_rate_norm]
    norm_num
  have h1 : vec4NormSquared (identityFusion 3 7 : Fusion ℝ).x0 = 1 := by
    simp [vec4NormSquared, identityFusion]
  exact ⟨h, h1,
    (fusionPredict_orthogonal (stdEnv Real.sqrt Real.sin Real.cos Real.exp) rfl rfl rfl
      (identityFusion 3 7) ⟨0, 0, 1⟩ (1 / 100) h).2.2.2 h1⟩

end PredictOrthogonalClaim

section StationaryBootstrap

variable {α : Type} [LinearOrderedField α]

/-! ## The stationary bootstrap scenario -/

theorem bootstrap_estimate_iff (env : Env α) (f0 : Fusion α) (c : α) (flags : Nat)
    (hR : flags &&& env.FUSION_REINITIALIZE ≠ 0) (p : List (Sample α))
    (ha : p.countP Sample.isAcc ≤ 32)
    (hm : p.countP Sample.isMag ≤ (if flags &&& env.FUSION_USE_MAG ≠ 0 then 1 else 0))
    (hg : p.countP Sample.isGyro ≤ (if flags &&& env.FUSION_USE_GYRO ≠ 0 then 1 else 0)) :
    fusionHasEstimate env (handleSamples env (initFusion env f0 flags, c) p).1 = true ↔
      (32 ≤ p.countP Sample.isAcc ∧
        (1 ≤ p.countP Sample.isMag ↔ flags &&& env.FUSION_USE_MAG ≠ 0) ∧
        (1 ≤ p.countP Sample.isGyro ↔ flags &&& env.FUSION_USE_GYRO ≠ 0)) := by
  have hf : (initFusion env f0 flags, c).1.flags = flags := initFusion_flags env f0 flags
  have h0 : (initFusion env f0 flags, c).1.mInitState = 0 := by
    simp [initFusion, hR]
  have hc0 : (initFusion env f0 flags, c).1.mCount0 = 0 := by
    simp [initFusion, hR]
  have track := bootstrap_track env (initFusion env f0 flags, c) h0 hc0 p
  rw [hf] at track
  obtain ⟨t1, _, t3⟩ := track ha hm hg
  rw [fusionHasEstimate_iff, t3, t1]
  constructor
  · intro hy
    obtain ⟨e1, e2, e3⟩ := maskOf_inj _ _ _ _ _ _ hy
    simp only [decide_eq_true_eq, decide_eq_decide] at e1 e2 e3
    exact ⟨e1, e2, e3⟩
  · rintro ⟨e1, e2, e3⟩
    rw [decide_eq_true e1, decide_eq_decide.mpr e2, decide_eq_decide.mpr e3]

omit [LinearOrderedField α] in
theorem scenario_counts (a m w : Vec3 α) (dT dTg : α) :
    (List.replicate 32 (Sample.acc a dT)).countP Sample.isAcc = 32 ∧
      (List.replicate 32 (Sample.acc a dT)).countP Sample.isMag = 0 ∧
      (List.replicate 32 (Sample.acc a dT)).countP Sample.isGyro = 0 ∧
      (List.replicate 32 (Sample.acc a dT) ++ [Sample.mag m]).countP Sample.isAcc = 32 ∧
      (List.replicate 32 (Sample.acc a dT) ++ [Sample.mag m]).countP Sample.isMag = 1 ∧
      (List.replicate 32 (Sample.acc a dT) ++ [Sample.mag m]).countP Sample.isGyro = 0 ∧
      (List.replicate 32 (Sample.acc a dT) ++ [Sample.mag m, Sample.gyro w dTg]).countP
        Sample.isAcc = 32 ∧
      (List.replicate 32 (Sample.acc a dT) ++ [Sample.mag m, Sample.gyro w dTg]).countP
        Sample.isMag = 1 ∧
      (List.replicate 32 (Sample.acc a dT) ++ [Sample.mag m, Sample.gyro w dTg]).countP
        Sample.isGyro = 1 :=
  ⟨rfl, rfl, rfl, rfl, rfl, rfl, rfl, rfl, rfl⟩

/-- C13, as the code has it: in 9-DOF mode after REINITIALIZE, feeding 32
accelerometer samples `(0,0,9.81)` at `dT = 0.01`, then the magnetometer sample
`(0,30,-40)`, then the gyro sample `(0,0,0)`, `fusionHasEstimate` is false
immediately after the 32nd accelerometer sample, still false after the
magnetometer sample, and true once the gyro sample has been handled. -/
theorem stationary_bootstrap_completes_at_gyro (env : Env α) (f0 : Fusion α) (c : α)
    (flags : Nat) (hR : flags &&& env.FUSION_REINITIALIZE ≠ 0)
    (hM : flags &&& env.FUSION_USE_MAG ≠ 0) (hG : flags &&& env.FUSION_USE_GYRO ≠ 0) :
    fusionHasEstimate env (handleSamples env (initFusion env f0 flags, c)
        (List.replicate 32 (Sample.acc ⟨0, 0, 981 / 100⟩ (1 / 100)))).1 = false ∧
      fusionHasEstimate env (handleSamples env (initFusion env f0 flags, c)
        (List.replicate 32 (Sample.acc ⟨0, 0, 981 / 100⟩ (1 / 100))
          ++ [Sample.mag ⟨0, 30, -40⟩])).1 = false ∧
      fusionHasEstimate env (handleSamples env (initFusion env f0 flags, c)
        (List.replicate 32 (Sample.acc ⟨0, 0, 981 / 100⟩ (1 / 100))
          ++ [Sample.mag ⟨0, 30, -40⟩, Sample.gyro ⟨0, 0, 0⟩ (1 / 100)])).1 = true := by
  obtain ⟨a1, a2, a3, b1, b2, b3, c1, c2, c3⟩ :=
    scenario_counts (⟨0, 0, 981 / 100⟩ : Vec3 α) ⟨0, 30, -40⟩ ⟨0, 0, 0⟩ (1 / 100) (1 / 100)
  refine ⟨?_, ?_, ?_⟩
  · rw [Bool.eq_false_iff, Ne, bootstrap_estimate_iff env f0 c flags hR _
      (by rw [a1]) (by rw [a2]; exact Nat.zero_le _) (by rw [a3]; exact Nat.zero_le _), a2]
    rintro ⟨_, e2, _⟩
    exact absurd (e2.mpr hM) (by decide)
  · rw [Bool.eq_false_iff, Ne, bootstrap_estimate_iff env f0 c flags hR _
      (by rw [b1]) (by rw [b2, if_pos hM]) (by rw [b3]; exact Nat.zero_le _), b3]
    rintro ⟨_, _, e3⟩
    exact absurd (e3.mpr hG) (by decide)
  · rw [bootstrap_estimate_iff env f0 c flags hR _
      (by rw [c1]) (by rw [c2, if_pos hM]) (by rw [c3, if_pos hG]), c1, c2, c3]
    exact ⟨le_refl _, ⟨fun _ => hM, fun _ => le_refl _⟩, ⟨fun _ => hG, fun _ => le_refl _⟩⟩

end StationaryBootstrap

/-- Witness for C13 as amended: the scenario on the evaluation environment. -/
theorem stationary_bootstrap_completes_at_gyro_witness :
    7 &&& evalEnv.FUSION_REINITIALIZE ≠ 0 ∧ 7 &&& evalEnv.FUSION_USE_MAG ≠ 0 ∧
      7 &&& evalEnv.FUSION_USE_GYRO ≠ 0 ∧
      fusionHasEstimate evalEnv (handleSamples evalEnv (initFusion evalEnv (zeroFusion 3 7) 7, 0)
        (List.replicate 32 (Sample.acc ⟨0, 0, 981 / 100⟩ (1 / 100))
          ++ [Sample.mag ⟨0, 30, -40⟩, Sample.gyro ⟨0, 0, 0⟩ (1 / 100)])).1 = true :=
  ⟨by decide, by decide, by decide,
    (stationary_bootstrap_completes_at_gyro evalEnv (zeroFusion 3 7) 0 7 (by decide) (by decide)
      (by decide)).2.2⟩

theorem scenario_after_acc :
    fusionHasEstimate evalEnv (handleSamples evalEnv (initFusion evalEnv (zeroFusion 3 7) 7, 0)
      (List.replicate 32 (Sample.acc ⟨0, 0, 981 / 100⟩ (1 / 100)))).1 = false := by
  rw [Bool.eq_false_iff, Ne, bootstrap_estimate_iff evalEnv (zeroFusion 3 7) 0 7 (by decide) _
    (by decide) (by decide) (by decide)]
  rintro ⟨_, e2, _⟩
  exact absurd (e2.mpr (by decide)) (by decide)

/-- Counterexample to C13 as stated: in the scenario, on the evaluation
environment, `fusionHasEstimate` is false immediately after the 32nd
accelerometer sample. -/
theorem stationary_bootstrap_not_after_acc :
    7 &&& evalEnv.FUSION_USE_MAG ≠ 0 ∧ 7 &&& evalEnv.FUSION_USE_GYRO ≠ 0 ∧
      7 &&& evalEnv.FUSION_REINITIALIZE ≠ 0 ∧
      ¬ (fusionHasEstimate evalEnv (handleSamples evalEnv
        (initFusion evalEnv (zeroFusion 3 7) 7, 0)
        (List.replicate 32 (Sample.acc ⟨0, 0, 981 / 100⟩ (1 / 100)))).1 = true) := by
  refine ⟨by decide, by decide, by decide, ?_⟩
  rw [scenario_after_acc]
  decide

section HandlerFrames

variable {α : Type} [LinearOrderedField α]

/-! ## What the handlers leave alone -/

theorem fusionCheckState_meta (env : Env α) (f : Fusion α) :
    (fusionCheckState env f).mInitState = f.mInitState ∧
      (fusionCheckState env f).param = f.param ∧
      (fusionCheckState env f).mGyroRate = f.mGyroRate := by
  unfold fusionCheckState
  split_ifs <;> exact ⟨rfl, rfl, rfl⟩

theorem fusionPredict_meta (env : Env α) (f : Fusion α) (w : Vec3 α) (dT : α) :
    (fusionPredict env f w dT).mInitState = f.mInitState ∧
      (fusionPredict env f w dT).param = f.param ∧
      (fusionPredict env f w dT).mGyroRate = f.mGyroRate := by
  by_cases h : |vec3Norm env (vec3Sub w f.x1)| < kEps
  · rw [fusionPredict_of_small env f w dT h]
    exact ⟨rfl, rfl, rfl⟩
  · unfold fusionPredict
    dsimp only
    rw [if_neg h]
    exact fusionCheckState_meta env _

theorem fusionUpdate_meta (env : Env α) (f : Fusion α) (z Bi : Vec3 α) (sigma : α) :
    (fusionUpdate env f z Bi sigma).mInitState = f.mInitState ∧
      (fusionUpdate env f z Bi sigma).param = f.param ∧
      (fusionUpdate env f z Bi sigma).mGyroRate = f.mGyroRate := by
  unfold fusionUpdate
  dsimp only
  exact fusionCheckState_meta env _

theorem fusionHandleAcc_estimate_meta (env : Env α) (f : Fusion α) (c : α) (a : Vec3 α)
    (dT : α) (he : fusionHasEstimate env f = true) :
    (fusionHandleAcc env f c a dT).fusion.flags = f.flags ∧
      (fusionHandleAcc env f c a dT).fusion.mInitState = f.mInitState ∧
      (fusionHandleAcc env f c a dT).fusion.param = f.param := by
  unfold fusionHandleAcc
  rw [fusion_init_complete_of_estimate env f ACC a dT he]
  dsimp only
  split_ifs <;>
    simp [fusionUpdate_flags, (fusionUpdate_meta env _ _ _ _).1, (fusionUpdate_meta env _ _ _ _).2.1,
      (fusionPredict_frame env f _ dT).2, (fusionPredict_meta env f _ dT).1,
      (fusionPredict_meta env f _ dT).2.1]

theorem fusionHandleMag_estimate_meta (env : Env α) (f : Fusion α) (c : α) (m : Vec3 α)
    (he : fusionHasEstimate env f = true) :
    (fusionHandleMag env f c m).fusion.flags = f.flags ∧
      (fusionHandleMag env f c m).fusion.mInitState = f.mInitState ∧
      (fusionHandleMag env f c m).fusion.param = f.param := by
  unfold fusionHandleMag
  rw [fusion_init_complete_of_estimate env f MAG m 0 he]
  dsimp only
  split_ifs <;>
    simp [fusionUpdate_flags, (fusionUpdate_meta env _ _ _ _).1, (fusionUpdate_meta env _ _ _ _).2.1]

theorem fusionHandleGyro_estimate_meta (env : Env α) (f : Fusion α) (w : Vec3 α) (dT : α)
    (he : fusionHasEstimate env f = true) :
    (fusionHandleGyro env f w dT).flags = f.flags ∧
      (fusionHandleGyro env f w dT).mInitState = f.mInitState ∧
      (fusionHandleGyro env f w dT).param = f.param := by
  unfold fusionHandleGyro
  rw [fusion_init_complete_of_estimate env f GYRO w dT he]
  simp [(fusionPredict_frame env f w dT).2, (fusionPredict_meta env f w dT).1,
    (fusionPredict_meta env f w dT).2.1]

theorem handleSample_estimate_meta (env : Env α) (s : Fusion α × α) (x : Sample α)
    (he : fusionHasEstimate env s.1 = true) :
    (handleSample env s x).1.flags = s.1.flags ∧
      (handleSample env s x).1.mInitState = s.1.mInitState ∧
      (handleSample env s x).1.param = s.1.param := by
  cases x with
  | acc a dT => exact fusionHandleAcc_estimate_meta env s.1 s.2 a dT he
  | mag m => exact fusionHandleMag_estimate_meta env s.1 s.2 m he
  | gyro w dT => exact fusionHandleGyro_estimate_meta env s.1 w dT he

theorem fusion_init_finalize_param (env : Env α) (f : Fusion α) :
    (fusion_init_finalize env f).param = f.param ∧
      (fusion_init_finalize env f).mGyroRate = f.mGyroRate := by
  unfold fusion_init_finalize internalInit
  dsimp only
  split_ifs <;> exact ⟨rfl, rfl⟩

theorem fusion_init_accumulate_param (env : Env α) (f : Fusion α) (what : Nat) (d : Vec3 α)
    (dT : α) : (fusion_init_accumulate env f what d dT).param = f.param := by
  unfold fusion_init_accumulate
  dsimp only
  split_ifs <;> rfl

theorem fusion_init_complete_param (env : Env α) (f : Fusion α) (what : Nat) (d : Vec3 α)
    (dT : α) : (fusion_init_complete env f what d dT).2.param = f.param := by
  unfold fusion_init_complete
  dsimp only
  split_ifs
  · rfl
  · rw [(fusion_init_finalize_param env _).1, fusion_init_accumulate_param]
  · rw [fusion_init_accumulate_param]

theorem handleSample_flags_param (env : Env α) (s : Fusion α × α) (x : Sample α) :
    (handleSample env s x).1.flags = s.1.flags ∧ (handleSample env s x).1.param = s.1.param := by
  by_cases he : fusionHasEstimate env s.1 = true
  · exact ⟨(handleSample_estimate_meta env s x he).1, (handleSample_estimate_meta env s x he).2.2⟩
  · have hf : fusionHasEstimate env s.1 = false := by simpa using he
    refine ⟨(handleSample_bootstrap env s x hf).1, ?_⟩
    cases x with
    | acc a dT =>
      simp only [handleSample]
      rw [fusionHandleAcc_bootstrap env s.1 s.2 a dT hf, fusion_init_complete_param]
    | mag m =>
      simp only [handleSample]
      rw [fusionHandleMag_bootstrap env s.1 s.2 m hf, fusion_init_complete_param]
    | gyro w dT =>
      simp only [handleSample]
      rw [fusionHandleGyro_bootstrap env s.1 w dT hf, fusion_init_complete_param]

theorem handleSamples_flags_param (env : Env α) (s : Fusion α × α) (l : List (Sample α)) :
    (handleSamples env s l).1.flags = s.1.flags ∧
      (handleSamples env s l).1.param = s.1.param := by
  induction l using List.reverseRecOn with
  | nil => exact ⟨rfl, rfl⟩
  | append_singleton p x ih =>
    rw [handleSamples_snoc]
    obtain ⟨h1, h2⟩ := handleSample_flags_param env (handleSamples env s p) x
    exact ⟨h1.trans ih.1, h2.trans ih.2⟩

/-- The bits of `mInitState` after one handler call: unchanged when an
estimate exists, otherwise the old word with at most one more bit. -/
theorem handleSample_mInitState (env : Env α) (s : Fusion α × α) (x : Sample α) :
    (handleSample env s x).1.mInitState = s.1.mInitState ∨
      (handleSample env s x).1.mInitState = s.1.mInitState ||| ACC ∨
      (handleSample env s x).1.mInitState = s.1.mInitState ||| MAG ∨
      (handleSample env s x).1.mInitState = s.1.mInitState ||| GYRO := by
  by_cases he : fusionHasEstimate env s.1 = true
  · exact Or.inl (handleSample_estimate_meta env s x he).2.1
  · have hf : fusionHasEstimate env s.1 = false := by simpa using he
    rw [(handleSample_bootstrap env s x hf).2.2]
    split_ifs
    · exact Or.inr (Or.inl rfl)
    · exact Or.inl rfl
    · exact Or.inr (Or.inr (Or.inl rfl))
    · exact Or.inr (Or.inr (Or.inr rfl))

theorem handleSample_testBit (env : Env α) (s : Fusion α × α) (x : Sample α) (i : Nat)
    (h : s.1.mInitState.testBit i = true) :
    (handleSample env s x).1.mInitState.testBit i = true := by
  rcases handleSample_mInitState env s x with e | e | e | e <;> rw [e]
  · exact h
  all_goals rw [Nat.testBit_or, h, Bool.true_or]

theorem handleSamples_testBit (env : Env α) (s : Fusion α × α) (l : List (Sample α)) (i : Nat)
    (h : s.1.mInitState.testBit i = true) :
    (handleSamples env s l).1.mInitState.testBit i = true := by
  induction l using List.reverseRecOn with
  | nil => exact h
  | append_singleton p x ih =>
    rw [handleSamples_snoc]
    exact handleSample_testBit env _ x i ih

omit [LinearOrderedField α] in
theorem no_estimate_of_stray_mag (env : Env α) (f : Fusion α)
    (hM : f.flags &&& env.FUSION_USE_MAG = 0) (hb : f.mInitState.testBit 1 = true) :
    fusionHasEstimate env f = false := by
  rw [Bool.eq_false_iff, Ne, fusionHasEstimate_iff]
  intro e
  rw [e] at hb
  by_cases hG : f.flags &&& env.FUSION_USE_GYRO = 0 <;> simp [hM, hG, maskOf] at hb <;>
    exact absurd hb (by decide)

omit [LinearOrderedField α] in
theorem no_estimate_of_stray_gyro (env : Env α) (f : Fusion α)
    (hG : f.flags &&& env.FUSION_USE_GYRO = 0) (hb : f.mInitState.testBit 2 = true) :
    fusionHasEstimate env f = false := by
  rw [Bool.eq_false_iff, Ne, fusionHasEstimate_iff]
  intro e
  rw [e] at hb
  by_cases hM : f.flags &&& env.FUSION_USE_MAG = 0 <;> simp [hM, hG, maskOf] at hb <;>
    exact absurd hb (by decide)

end HandlerFrames

section StraySample

variable {α : Type} [LinearOrderedField α]

/-- C18: no handler call clears a bit of `mInitState`; while
`fusionHasEstimate` is true no handler call changes `mInitState` at all; and
once a magnetometer sample has been handled during bootstrap with USE_MAG
clear, or a gyro sample with USE_GYRO clear, `fusionHasEstimate` is false
after every further sequence of handler calls. -/
theorem stray_sample_blocks_estimate (env : Env α) :
    (∀ (s : Fusion α × α) (x : Sample α) (i : Nat), s.1.mInitState.testBit i = true →
        (handleSample env s x).1.mInitState.testBit i = true) ∧
      (∀ (s : Fusion α × α) (x : Sample α), fusionHasEstimate env s.1 = true →
        (handleSample env s x).1.mInitState = s.1.mInitState) ∧
      (∀ (s : Fusion α × α) (m : Vec3 α) (l : List (Sample α)),
        fusionHasEstimate env s.1 = false → s.1.flags &&& env.FUSION_USE_MAG = 0 →
        fusionHasEstimate env (handleSamples env (handleSample env s (Sample.mag m)) l).1
          = false) ∧
      (∀ (s : Fusion α × α) (w : Vec3 α) (dT : α) (l : List (Sample α)),
        fusionHasEstimate env s.1 = false → s.1.flags &&& env.FUSION_USE_GYRO = 0 →
        fusionHasEstimate env (handleSamples env (handleSample env s (Sample.gyro w dT)) l).1
          = false) := by
  refine ⟨fun s x i h => handleSample_testBit env s x i h,
    fun s x he => (handleSample_estimate_meta env s x he).2.1, ?_, ?_⟩
  · intro s m l hf hM
    apply no_estimate_of_stray_mag
    · rw [(handleSamples_flags_param env _ l).1, (handleSample_flags_param env s _).1]
      exact hM
    · apply handleSamples_testBit
      rw [(handleSample_bootstrap env s (Sample.mag m) hf).2.2]
      simp only [(sample_kinds m 0).2.2.2.1, (sample_kinds m 0).2.2.2.2.1, Bool.false_eq_true,
        if_false, if_true]
      rw [Nat.testBit_or]
      have : MAG.testBit 1 = true := by decide
      rw [this, Bool.or_true]
  · intro s w dT l hf hG
    apply no_estimate_of_stray_gyro
    · rw [(handleSamples_flags_param env _ l).1, (handleSample_flags_param env s _).1]
      exact hG
    · apply handleSamples_testBit
      rw [(handleSample_bootstrap env s (Sample.gyro w dT) hf).2.2]
      simp only [(sample_kinds w dT).2.2.2.2.2.2.1, (sample_kinds w dT).2.2.2.2.2.2.2.1,
        Bool.false_eq_true, if_false]
      rw [Nat.testBit_or]
      have : GYRO.testBit 2 = true := by decide
      rw [this, Bool.or_true]

end StraySample

theorem game_reinit_no_estimate :
    fusionHasEstimate evalEnv (initFusion evalEnv (zeroFusion 3 7) 6, (0 : ℚ)).1 = false := by
  decide

/-- Witness for C18: game rotation mode (USE_GYRO only) after REINITIALIZE, a
stray magnetometer sample, then the 32 accelerometer samples and the gyro
sample that would otherwise complete bootstrap. -/
theorem stray_sample_blocks_estimate_witness :
    fusionHasEstimate evalEnv (initFusion evalEnv (zeroFusion 3 7) 6, (0 : ℚ)).1 = false ∧
      (initFusion evalEnv (zeroFusion 3 7) 6, (0 : ℚ)).1.flags &&& evalEnv.FUSION_USE_MAG = 0 ∧
      fusionHasEstimate evalEnv
        (handleSamples evalEnv
          (handleSample evalEnv (initFusion evalEnv (zeroFusion 3 7) 6, 0)
            (Sample.mag ⟨0, 30, -40⟩))
          (List.replicate 32 (Sample.acc ⟨0, 0, 981 / 100⟩ (1 / 100))
            ++ [Sample.gyro ⟨0, 0, 0⟩ (1 / 100)])).1 = false :=
  ⟨game_reinit_no_estimate, by decide,
    (stray_sample_blocks_estimate evalEnv).2.2.1 (initFusion evalEnv (zeroFusion 3 7) 6, 0)
      ⟨0, 30, -40⟩ _ game_reinit_no_estimate (by decide)⟩

section ScaleCovariance

/-! ## `scaleCovariance` against the triple product -/

theorem scaleCovariance_diag_entry {α : Type} [LinearOrderedField α] (A P : Mat33 α)
    (hP : P.transpose = P) (r : Fin 3) :
    scaleCovariance A P r r = scaleCovarianceSpecT A P r r := by
  have h01 : P 1 0 = P 0 1 := congrFun (congrFun hP 0) 1
  have h02 : P 2 0 = P 0 2 := congrFun (congrFun hP 0) 2
  have h12 : P 2 1 = P 1 2 := congrFun (congrFun hP 1) 2
  fin_cases r <;>
    simp [scaleCovariance, scaleCovarianceEntry, scaleCovarianceSpecT, mat33Multiply,
      mat33MultiplyTransposed, Matrix.mul_apply, Fin.sum_univ_three, Matrix.transpose_apply,
      List.finRange, List.filter, h01, h02, h12] <;> ring

theorem fusionUpdate_uses_S {α : Type} [LinearOrderedField α] (env : Env α) (f : Fusion α)
    (z Bi : Vec3 α) (sigma : α) (h : f.flags &&& env.FUSION_USE_MAG ≠ 0) :
    (fusionUpdate env f z Bi sigma).x1 =
      vec3Add f.x1
        (mat33Apply
          (mat33MultiplyTransposed f.P01
            (mat33MultiplyTransposed (matrixCross (mat33Apply (env.quatToMatrix f.x0) Bi) 0)
              (mat33Invert (fusionUpdateS env f Bi sigma))))
          (vec3Sub z (mat33Apply (env.quatToMatrix f.x0) Bi))) := by
  unfold fusionUpdate
  dsimp only
  rw [(fusionCheckState_frame env _).1, if_pos h]
  rfl

theorem coupled_L :
    matrixCross (mat33Apply (evalEnv.quatToMatrix coupledFusion.x0) ⟨0, 0, 1⟩) 0
      = !![0, -1, 0; 1, 0, 0; 0, 0, 0] := by
  have hA : evalEnv.quatToMatrix coupledFusion.x0 = 1 := by
    simp [evalEnv, evalQuatToMatrix, coupledFusion, Matrix.one_fin_three]
  rw [hA]
  have hBb : mat33Apply (1 : Mat33 ℚ) ⟨0, 0, 1⟩ = ⟨0, 0, 1⟩ := by
    simp [mat33Apply, Matrix.one_apply]
  rw [hBb]
  simp [matrixCross]

/-- C14, the code at the failing input: for the skew matrix `L = [(0,0,1)]×` and
the symmetric `P = [[2,1,0],[1,2,0],[0,0,1]]`, `scaleCovariance` stores `-2` in
entry `(0,1)` where both readings of the triple product, `L · P · Lᵀ` and
`Lᵀ · P · L`, have `-1`; the innovation covariance of `fusionUpdate` at the
identity attitude with `P[0][0] = P`, `Bi = (0,0,1)` and `sigma = 1` inherits
the entry. -/
theorem scaleCovariance_off_diagonal_differs :
    (!![0, -1, 0; 1, 0, 0; 0, 0, 0] : Mat33 ℚ).transpose = -!![0, -1, 0; 1, 0, 0; 0, 0, 0] ∧
      (!![2, 1, 0; 1, 2, 0; 0, 0, 1] : Mat33 ℚ).transpose = !![2, 1, 0; 1, 2, 0; 0, 0, 1] ∧
      scaleCovariance (!![0, -1, 0; 1, 0, 0; 0, 0, 0] : Mat33 ℚ)
        !![2, 1, 0; 1, 2, 0; 0, 0, 1] 0 1 = -2 ∧
      scaleCovarianceSpec (!![0, -1, 0; 1, 0, 0; 0, 0, 0] : Mat33 ℚ)
        !![2, 1, 0; 1, 2, 0; 0, 0, 1] 0 1 = -1 ∧
      scaleCovarianceSpecT (!![0, -1, 0; 1, 0, 0; 0, 0, 0] : Mat33 ℚ)
        !![2, 1, 0; 1, 2, 0; 0, 0, 1] 0 1 = -1 ∧
      fusionUpdateS evalEnv coupledFusion ⟨0, 0, 1⟩ 1 0 1 = -2 ∧
      (mat33Add (scaleCovarianceSpec
          (matrixCross (mat33Apply (evalEnv.quatToMatrix coupledFusion.x0) ⟨0, 0, 1⟩) 0)
          coupledFusion.P00) (initDiagonalMatrix (1 * 1))) 0 1 = -1 := by
  have hP : coupledFusion.P00 = !![2, 1, 0; 1, 2, 0; 0, 0, 1] := rfl
  have e1 : scaleCovariance (!![0, -1, 0; 1, 0, 0; 0, 0, 0] : Mat33 ℚ)
      !![2, 1, 0; 1, 2, 0; 0, 0, 1] 0 1 = -2 := by
    simp [scaleCovariance, scaleCovarianceEntry, List.finRange, List.filter, Matrix.vecHead,
      Matrix.vecTail]
  have e2 : scaleCovarianceSpec (!![0, -1, 0; 1, 0, 0; 0, 0, 0] : Mat33 ℚ)
      !![2, 1, 0; 1, 2, 0; 0, 0, 1] 0 1 = -1 := by
    simp [scaleCovarianceSpec, mat33Multiply, mat33MultiplyTransposed2, Matrix.mul_apply,
      Fin.sum_univ_three, Matrix.transpose_apply, Matrix.vecHead, Matrix.vecTail]
  have e3 : scaleCovarianceSpecT (!![0, -1, 0; 1, 0, 0; 0, 0, 0] : Mat33 ℚ)
      !![2, 1, 0; 1, 2, 0; 0, 0, 1] 0 1 = -1 := by
    simp [scaleCovarianceSpecT, mat33Multiply, mat33MultiplyTransposed, Matrix.mul_apply,
      Fin.sum_univ_three, Matrix.transpose_apply, Matrix.vecHead, Matrix.vecTail]
  refine ⟨?_, ?_, e1, e2, e3, ?_, ?_⟩
  · ext i j
    fin_cases i <;> fin_cases j <;> simp [Matrix.transpose_apply, Matrix.vecHead, Matrix.vecTail]
  · ext i j
    fin_cases i <;> fin_cases j <;> simp [Matrix.transpose_apply, Matrix.vecHead, Matrix.vecTail]
  · unfold fusionUpdateS
    rw [coupled_L, hP]
    simp only [mat33Add, Matrix.add_apply, e1]
    simp [initDiagonalMatrix]
  · rw [coupled_L, hP]
    simp only [mat33Add, Matrix.add_apply, e2]
    simp [initDiagonalMatrix]

end ScaleCovariance

section ProcessNoise

variable {α : Type} [LinearOrderedField α]

/-! ## The process-noise blocks seeded at the end of bootstrap -/

theorem fusion_init_complete_completes (env : Env α) (f : Fusion α) (what : Nat) (d : Vec3 α)
    (dT : α) (h0 : fusionHasEstimate env f = false)
    (h1 : fusionHasEstimate env (fusion_init_complete env f what d dT).2 = true) :
    (fusion_init_complete env f what d dT).2
      = fusion_init_finalize env (fusion_init_accumulate env f what d dT) := by
  unfold fusion_init_complete at h1 ⊢
  simp only [h0, Bool.false_eq_true, if_false] at h1 ⊢
  by_cases hc : fusionHasEstimate env (fusion_init_accumulate env f what d dT) = true
  · rw [if_pos hc]
  · rw [if_neg hc] at h1
    exact absurd h1 hc

theorem fusion_init_finalize_GQGt (env : Env α) (u : Fusion α) :
    (fusion_init_finalize env u).GQGt00 =
        Matrix.diagonal (fun _ =>
          (fusion_init_finalize env u).param.gyro_var * (fusion_init_finalize env u).mGyroRate +
            (33333 / 100000) * (fusion_init_finalize env u).param.gyro_bias_var
              * (fusion_init_finalize env u).mGyroRate ^ 3) ∧
      (fusion_init_finalize env u).GQGt01 =
        Matrix.diagonal (fun _ =>
          -((fusion_init_finalize env u).param.gyro_bias_var
              * (fusion_init_finalize env u).mGyroRate ^ 2 / 2)) ∧
      (fusion_init_finalize env u).GQGt10 =
        Matrix.diagonal (fun _ =>
          -((fusion_init_finalize env u).param.gyro_bias_var
              * (fusion_init_finalize env u).mGyroRate ^ 2 / 2)) ∧
      (fusion_init_finalize env u).GQGt11 =
        Matrix.diagonal (fun _ =>
          (fusion_init_finalize env u).param.gyro_var
            * (fusion_init_finalize env u).mGyroRate) := by
  rw [(fusion_init_finalize_param env u).1, (fusion_init_finalize_param env u).2]
  unfold fusion_init_finalize internalInit initDiagonalMatrix
  dsimp only
  have e00 : ∀ gv gb r : α, gv * r + 33333 / 100000 * gb * (r * r * r)
      = gv * r + 33333 / 100000 * gb * r ^ 3 := fun gv gb r => by ring
  have e01 : ∀ gb r : α, -(1 / 2 * gb * (r * r)) = -(gb * r ^ 2 / 2) := fun gb r => by ring
  refine ⟨?_, ?_, ?_, ?_⟩ <;> split_ifs <;> simp only [e00, e01]

theorem handleSample_completes (env : Env α) (s : Fusion α × α) (x : Sample α)
    (h0 : fusionHasEstimate env s.1 = false)
    (h1 : fusionHasEstimate env (handleSample env s x).1 = true) :
    ∃ u : Fusion α, (handleSample env s x).1 = fusion_init_finalize env u := by
  cases x with
  | acc a dT =>
    simp only [handleSample] at h1 ⊢
    rw [fusionHandleAcc_bootstrap env s.1 s.2 a dT h0] at h1 ⊢
    exact ⟨_, fusion_init_complete_completes env s.1 ACC a dT h0 h1⟩
  | mag m =>
    simp only [handleSample] at h1 ⊢
    rw [fusionHandleMag_bootstrap env s.1 s.2 m h0] at h1 ⊢
    exact ⟨_, fusion_init_complete_completes env s.1 MAG m 0 h0 h1⟩
  | gyro w dT =>
    simp only [handleSample] at h1 ⊢
    rw [fusionHandleGyro_bootstrap env s.1 w dT h0] at h1 ⊢
    exact ⟨_, fusion_init_complete_completes env s.1 GYRO w dT h0 h1⟩

/-- C15, as the code has it: after the handler call that completes bootstrap
(no estimate before the call, an estimate after it), with `dT = mGyroRate` and
the engine's parameter set, `GQGt[0][0] = diag(gyro_var·dT + 0.33333·gyro_bias_var·dT³)`,
`GQGt[0][1] = GQGt[1][0] = diag(−gyro_bias_var·dT²/2)` and
`GQGt[1][1] = diag(gyro_var·dT)`, all off-diagonal entries being zero; the call
leaves the parameter set as it was. -/
theorem bootstrap_seeds_process_noise (env : Env α) (s : Fusion α × α) (x : Sample α)
    (h0 : fusionHasEstimate env s.1 = false)
    (h1 : fusionHasEstimate env (handleSample env s x).1 = true) :
    (handleSample env s x).1.GQGt00 =
        Matrix.diagonal (fun _ =>
          (handleSample env s x).1.param.gyro_var * (handleSample env s x).1.mGyroRate +
            (33333 / 100000) * (handleSample env s x).1.param.gyro_bias_var
              * (handleSample env s x).1.mGyroRate ^ 3) ∧
      (handleSample env s x).1.GQGt01 =
        Matrix.diagonal (fun _ =>
          -((handleSample env s x).1.param.gyro_bias_var
              * (handleSample env s x).1.mGyroRate ^ 2 / 2)) ∧
      (handleSample env s x).1.GQGt10 =
        Matrix.diagonal (fun _ =>
          -((handleSample env s x).1.param.gyro_bias_var
              * (handleSample env s x).1.mGyroRate ^ 2 / 2)) ∧
      (handleSample env s x).1.GQGt11 =
        Matrix.diagonal (fun _ =>
          (handleSample env s x).1.param.gyro_var * (handleSample env s x).1.mGyroRate) ∧
      (handleSample env s x).1.param = s.1.param := by
  obtain ⟨u, hu⟩ := handleSample_completes env s x h0 h1
  obtain ⟨g1, g2, g3, g4⟩ := fusion_init_finalize_GQGt env u
  refine ⟨?_, ?_, ?_, ?_, (handleSample_flags_param env s x).2⟩
  · rw [hu]
    exact g1
  · rw [hu]
    exact g2
  · rw [hu]
    exact g3
  · rw [hu]
    exact g4

theorem handleSample_gyro_rate (env : Env α) (s : Fusion α × α) (w : Vec3 α) (dT : α)
    (h0 : fusionHasEstimate env s.1 = false)
    (h1 : fusionHasEstimate env (handleSample env s (Sample.gyro w dT)).1 = true) :
    (handleSample env s (Sample.gyro w dT)).1.mGyroRate = dT := by
  simp only [handleSample] at h1 ⊢
  rw [fusionHandleGyro_bootstrap env s.1 w dT h0] at h1 ⊢
  rw [fusion_init_complete_completes env s.1 GYRO w dT h0 h1,
    (fusion_init_finalize_param env _).2]
  have h : GYRO ≠ ACC := by decide
  have h2 : GYRO ≠ MAG := by decide
  unfold fusion_init_accumulate
  simp [h, h2]

end ProcessNoise

section ProcessNoiseScenario

theorem scenarioBeforeGyro_no_estimate :
    fusionHasEstimate evalEnv scenarioBeforeGyro.1 = false := by
  unfold scenarioBeforeGyro
  rw [Bool.eq_false_iff, Ne, bootstrap_estimate_iff evalEnv (zeroFusion 3 7) 0 7 (by decide) _
    (by decide) (by decide) (by decide)]
  rintro ⟨_, _, e3⟩
  exact absurd (e3.mpr (by decide)) (by decide)

theorem scenario_gyro_completes :
    fusionHasEstimate evalEnv
      (handleSample evalEnv scenarioBeforeGyro (Sample.gyro ⟨0, 0, 0⟩ (1 / 100))).1 = true := by
  unfold scenarioBeforeGyro
  rw [← handleSamples_snoc, bootstrap_estimate_iff evalEnv (zeroFusion 3 7) 0 7 (by decide) _
    (by decide) (by decide) (by decide)]
  decide

theorem scenario_param :
    (handleSample evalEnv scenarioBeforeGyro (Sample.gyro ⟨0, 0, 0⟩ (1 / 100))).1.param
      = ⟨1 / 10000000, 1 / 1000000000000, 15 / 1000, 10 / 1000⟩ := by
  rw [(handleSample_flags_param evalEnv _ _).2]
  unfold scenarioBeforeGyro
  rw [(handleSamples_flags_param evalEnv _ _).2]
  have h : (7 : Nat) &&& evalEnv.FUSION_USE_GYRO ≠ 0 := by decide
  have h2 : (7 : Nat) &&& evalEnv.FUSION_REINITIALIZE ≠ 0 := by decide
  simp [initFusion, h, h2, DEFAULT_GYRO_VAR, DEFAULT_GYRO_BIAS_VAR, DEFAULT_ACC_STDEV,
    DEFAULT_MAG_STDEV]

/-- Witness for C15 as amended: the gyro sample that completes the stationary
scenario. -/
theorem bootstrap_seeds_process_noise_witness :
    fusionHasEstimate evalEnv scenarioBeforeGyro.1 = false ∧
      fusionHasEstimate evalEnv
        (handleSample evalEnv scenarioBeforeGyro (Sample.gyro ⟨0, 0, 0⟩ (1 / 100))).1 = true ∧
      (handleSample evalEnv scenarioBeforeGyro (Sample.gyro ⟨0, 0, 0⟩ (1 / 100))).1.GQGt11 =
        Matrix.diagonal (fun _ =>
          (handleSample evalEnv scenarioBeforeGyro
              (Sample.gyro ⟨0, 0, 0⟩ (1 / 100))).1.param.gyro_var
            * (handleSample evalEnv scenarioBeforeGyro
              (Sample.gyro ⟨0, 0, 0⟩ (1 / 100))).1.mGyroRate) :=
  ⟨scenarioBeforeGyro_no_estimate, scenario_gyro_completes,
    (bootstrap_seeds_process_noise evalEnv scenarioBeforeGyro (Sample.gyro ⟨0, 0, 0⟩ (1 / 100))
      scenarioBeforeGyro_no_estimate scenario_gyro_completes).2.2.2.1⟩

theorem scenario_GQGt00 :
    (handleSample evalEnv scenarioBeforeGyro (Sample.gyro ⟨0, 0, 0⟩ (1 / 100))).1.GQGt00 0 0
      = 1 / 1000000000 + 33333 / 100000000000000000000000 := by
  obtain ⟨u, hu⟩ := handleSample_completes evalEnv scenarioBeforeGyro
    (Sample.gyro ⟨0, 0, 0⟩ (1 / 100)) scenarioBeforeGyro_no_estimate scenario_gyro_completes
  have hp := scenario_param
  have hr := handleSample_gyro_rate evalEnv scenarioBeforeGyro ⟨0, 0, 0⟩ (1 / 100)
    scenarioBeforeGyro_no_estimate scenario_gyro_completes
  rw [hu] at hp hr ⊢
  rw [(fusion_init_finalize_GQGt evalEnv u).1, hp, hr]
  simp only [Matrix.diagonal_apply_eq]
  norm_num

/-- Counterexample to C15 as stated: the gyro sample at `dT = 0.01` completes
the stationary scenario with the default parameters (`gyro_var = 1e-7`,
`gyro_bias_var = 1e-12`), and `GQGt[0][0]` then has the diagonal entry
`1e-9 + 0.33333e-18`, which is not `gyro_var·dT + gyro_bias_var·dT³/3`. -/
theorem process_noise_third_is_truncated :
    fusionHasEstimate evalEnv scenarioBeforeGyro.1 = false ∧
      fusionHasEstimate evalEnv
        (handleSample evalEnv scenarioBeforeGyro (Sample.gyro ⟨0, 0, 0⟩ (1 / 100))).1 = true ∧
      (handleSample evalEnv scenarioBeforeGyro (Sample.gyro ⟨0, 0, 0⟩ (1 / 100))).1.mGyroRate
        = 1 / 100 ∧
      (handleSample evalEnv scenarioBeforeGyro (Sample.gyro ⟨0, 0, 0⟩ (1 / 100))).1.GQGt00 0 0
        = 1 / 1000000000 + 33333 / 100000000000000000000000 ∧
      (handleSample evalEnv scenarioBeforeGyro (Sample.gyro ⟨0, 0, 0⟩ (1 / 100))).1.GQGt00 0 0 ≠
        (handleSample evalEnv scenarioBeforeGyro
            (Sample.gyro ⟨0, 0, 0⟩ (1 / 100))).1.param.gyro_var
          * (handleSample evalEnv scenarioBeforeGyro
            (Sample.gyro ⟨0, 0, 0⟩ (1 / 100))).1.mGyroRate
        + (handleSample evalEnv scenarioBeforeGyro
            (Sample.gyro ⟨0, 0, 0⟩ (1 / 100))).1.param.gyro_bias_var
          * (handleSample evalEnv scenarioBeforeGyro
            (Sample.gyro ⟨0, 0, 0⟩ (1 / 100))).1.mGyroRate ^ 3 / 3 := by
  have hr := handleSample_gyro_rate evalEnv scenarioBeforeGyro ⟨0, 0, 0⟩ (1 / 100)
    scenarioBeforeGyro_no_estimate scenario_gyro_completes
  refine ⟨scenarioBeforeGyro_no_estimate, scenario_gyro_completes, hr, scenario_GQGt00, ?_⟩
  rw [scenario_GQGt00, scenario_param, hr]
  norm_num

end ProcessNoiseScenario

section AccHandler

variable {α : Type} [LinearOrderedField α]

/-! ## The accepted branch of `fusionHandleAcc` -/

theorem fusionHandleAccPredict_flags (env : Env α) (f : Fusion α) (dT : α) :
    (fusionHandleAccPredict env f dT).flags = f.flags := by
  unfold fusionHandleAccPredict
  by_cases hG : ¬ (f.flags &&& env.FUSION_USE_GYRO ≠ 0)
  · rw [if_pos hG]
    exact (fusionPredict_frame env f _ dT).2
  · rw [if_neg hG]

theorem fusionHandleAcc_accepted (env : Env α) (f : Fusion α) (c : α) (a : Vec3 α) (dT : α)
    (he : fusionHasEstimate env f = true)
    (hn : ¬ vec3NormSquaredF env a < (FREE_FALL_THRESHOLD_SQ : α)) :
    fusionHandleAcc env f c a dT =
      ⟨0,
        fusionHandleAccUpdate env
          (if ¬ (f.flags &&& env.FUSION_USE_MAG ≠ 0) then
            (if env.fl (c + dT) > FAKE_MAG_INTERVAL then
              fusionHandleAccFakeMag env (fusionHandleAccPredict env f dT)
            else fusionHandleAccPredict env f dT)
          else fusionHandleAccPredict env f dT) a,
        if ¬ (f.flags &&& env.FUSION_USE_MAG ≠ 0) then
          (if env.fl (c + dT) > FAKE_MAG_INTERVAL then 0 else env.fl (c + dT))
        else c⟩ := by
  unfold fusionHandleAcc
  rw [fusion_init_complete_of_estimate env f ACC a dT he]
  dsimp only
  rw [if_neg (by decide : ¬ (1 : Int) = 0), if_neg hn]
  unfold fusionHandleAccUpdate fusionHandleAccFakeMag fusionHandleAccPredict
  by_cases hG : ¬ (f.flags &&& env.FUSION_USE_GYRO ≠ 0) <;>
    by_cases hM : ¬ (f.flags &&& env.FUSION_USE_MAG ≠ 0) <;>
    by_cases hc : env.fl (c + dT) > FAKE_MAG_INTERVAL <;>
    simp only [hG, hM, hc, (fusionPredict_frame env f _ dT).2, not_true_eq_false,
      not_false_eq_true, if_true, if_false]

/-- C17, as the code has it: for an accepted accelerometer sample
(`fusionHasEstimate` true, squared norm in `float` not below the free-fall
threshold) with period `dT` and accumulator `c`: with USE_MAG clear and the `float` sum `fl(c + dT)`
above 1 the synthetic update against `Bm` runs before the closing update and
the accumulator becomes 0; with USE_MAG clear and `fl(c + dT) ≤ 1` no synthetic
update runs and the accumulator becomes `fl(c + dT)`; with USE_MAG set no
synthetic update runs and the accumulator stays `c`.  The magnetometer handler,
the gyro handler and an accelerometer sample that is rejected or arrives during
bootstrap leave the accumulator as it was (`initFusion` has no access to it). -/
theorem fake_mag_heartbeat (env : Env α) :
    (∀ (f : Fusion α) (c : α) (a : Vec3 α) (dT : α), fusionHasEstimate env f = true →
        ¬ vec3NormSquaredF env a < 16145741 / 16777216 →
        (f.flags &&& env.FUSION_USE_MAG = 0 → env.fl (c + dT) > 1 →
          (fusionHandleAcc env f c a dT).fake_mag_decimation = 0 ∧
            (fusionHandleAcc env f c a dT).fusion =
              fusionHandleAccUpdate env
                (fusionHandleAccFakeMag env (fusionHandleAccPredict env f dT)) a) ∧
        (f.flags &&& env.FUSION_USE_MAG = 0 → ¬ env.fl (c + dT) > 1 →
          (fusionHandleAcc env f c a dT).fake_mag_decimation = env.fl (c + dT) ∧
            (fusionHandleAcc env f c a dT).fusion =
              fusionHandleAccUpdate env (fusionHandleAccPredict env f dT) a) ∧
        (f.flags &&& env.FUSION_USE_MAG ≠ 0 →
          (fusionHandleAcc env f c a dT).fake_mag_decimation = c ∧
            (fusionHandleAcc env f c a dT).fusion =
              fusionHandleAccUpdate env (fusionHandleAccPredict env f dT) a)) ∧
      (∀ (s : Fusion α × α) (m : Vec3 α), (handleSample env s (Sample.mag m)).2 = s.2) ∧
      (∀ (s : Fusion α × α) (w : Vec3 α) (dT : α),
        (handleSample env s (Sample.gyro w dT)).2 = s.2) ∧
      (∀ (s : Fusion α × α) (a : Vec3 α) (dT : α),
        (fusionHasEstimate env s.1 = false ∨
          vec3NormSquaredF env a < 16145741 / 16777216) →
        (handleSample env s (Sample.acc a dT)).2 = s.2) := by
  have hthr : (FREE_FALL_THRESHOLD_SQ : α) = 16145741 / 16777216 := rfl
  refine ⟨?_, ?_, ?_, ?_⟩
  · intro f c a dT he hn
    rw [← hthr] at hn
    rw [fusionHandleAcc_accepted env f c a dT he hn]
    have h1 : (FAKE_MAG_INTERVAL : α) = 1 := rfl
    refine ⟨fun hM hc => ?_, fun hM hc => ?_, fun hM => ?_⟩
    · rw [← h1] at hc
      simp [hM, hc]
    · rw [← h1] at hc
      simp [hM, hc]
    · simp [hM]
  · intro s m
    simp only [handleSample, fusionHandleMag]
    split_ifs <;> rfl
  · intro s w dT
    rfl
  · intro s a dT h
    simp only [handleSample]
    by_cases he : fusionHasEstimate env s.1 = true
    · rcases h with h | h
      · rw [he] at h
        exact absurd h (by decide)
      · rw [← hthr] at h
        simp [fusionHandleAcc, fusion_init_complete_of_estimate env s.1 ACC a dT he, h]
    · simp [fusionHandleAcc, fusion_init_complete_fst, he]

end AccHandler

theorem floatEnv_game_hasEstimate : fusionHasEstimate floatEnv (identityFusion 2 5) = true := by
  decide

/-- The sample `(0, 0, 9.81f)` passes the free-fall test in `float` arithmetic. -/
theorem floatEnv_gravity_accepted :
    ¬ vec3NormSquaredF floatEnv ⟨0, 0, 10286531 / 1048576⟩ < 16145741 / 16777216 := by
  rw [floatEnv_normSquared_z]
  have h1 : roundFloat (10286531 / 1048576 * (10286531 / 1048576)) = 12613859 / 131072 :=
    roundFloat_of_near _ _ 6 12613859 (by norm_num) (by norm_num) (by norm_num)
      (by norm_num) (by norm_num [abs_lt]) (by norm_num)
  have h2 : roundFloat (12613859 / 131072) = 12613859 / 131072 :=
    roundFloat_of_near _ _ 6 12613859 (by norm_num) (by norm_num) (by norm_num)
      (by norm_num) (by norm_num [abs_lt]) (by norm_num)
  rw [h1, h2]
  norm_num

/-- The `float` sum `0.99f + 0.01f` is 1. -/
theorem roundFloat_heartbeat_sum :
    roundFloat (4152361 / 4194304 + 5368709 / 536870912) = 1 :=
  roundFloat_of_near _ _ 0 8388608 (by norm_num) (by norm_num) (by norm_num)
    (by norm_num) (by norm_num [abs_lt]) (by norm_num)

/-- Counterexample to C17 as stated: a bootstrapped game-rotation engine
(USE_GYRO only) whose accumulator stands at `0.99f` accepts the sample
`(0, 0, 9.81f)` with `dT = 0.01f`.  Here `c + dT > 1.0`, yet the accumulator
does not become 0 and no synthetic update runs: the `float` sum is 1, which
is not above `FAKE_MAG_INTERVAL`. -/
theorem fake_mag_heartbeat_misses_exact_sum :
    roundFloat (99 / 100) = 4152361 / 4194304 ∧
      roundFloat (1 / 100) = 5368709 / 536870912 ∧
      fusionHasEstimate floatEnv (identityFusion 2 5) = true ∧
      (fusionHandleAcc floatEnv (identityFusion 2 5) (4152361 / 4194304)
        ⟨0, 0, 10286531 / 1048576⟩ (5368709 / 536870912)).ret = 0 ∧
      (identityFusion 2 5 : Fusion ℚ).flags &&& floatEnv.FUSION_USE_MAG = 0 ∧
      (4152361 / 4194304 : ℚ) + 5368709 / 536870912 > 1 ∧
      (fusionHandleAcc floatEnv (identityFusion 2 5) (4152361 / 4194304)
        ⟨0, 0, 10286531 / 1048576⟩ (5368709 / 536870912)).fake_mag_decimation = 1 ∧
      (fusionHandleAcc floatEnv (identityFusion 2 5) (4152361 / 4194304)
        ⟨0, 0, 10286531 / 1048576⟩ (5368709 / 536870912)).fusion =
        fusionHandleAccUpdate floatEnv
          (fusionHandleAccPredict floatEnv (identityFusion 2 5) (5368709 / 536870912))
          ⟨0, 0, 10286531 / 1048576⟩ := by
  have hn : ¬ vec3NormSquaredF floatEnv ⟨0, 0, 10286531 / 1048576⟩
      < (FREE_FALL_THRESHOLD_SQ : ℚ) := floatEnv_gravity_accepted
  have hM2 : ¬ ((identityFusion 2 5 : Fusion ℚ).flags &&& floatEnv.FUSION_USE_MAG ≠ 0) := by
    decide
  have hc : ¬ floatEnv.fl (4152361 / 4194304 + 5368709 / 536870912)
      > (FAKE_MAG_INTERVAL : ℚ) := by
    rw [floatEnv_fl, roundFloat_heartbeat_sum]
    exact lt_irrefl _
  have hacc := fusionHandleAcc_accepted floatEnv (identityFusion 2 5) (4152361 / 4194304)
    ⟨0, 0, 10286531 / 1048576⟩ (5368709 / 536870912) floatEnv_game_hasEstimate hn
  rw [if_pos hM2, if_pos hM2, if_neg hc, if_neg hc, floatEnv_fl, roundFloat_heartbeat_sum]
    at hacc
  refine ⟨roundFloat_literals.2.2.2.2.1, roundFloat_literals.2.2.2.2.2,
    floatEnv_game_hasEstimate, ?_, by decide, by norm_num, ?_, ?_⟩
  · rw [hacc]
  · rw [hacc]
  · rw [hacc]

/-- Witness for C17: the same engine and sample, in `float` arithmetic, with
the accumulator at `0.99f` and at 0.5. -/
theorem fake_mag_heartbeat_witness :
    fusionHasEstimate floatEnv (identityFusion 2 5) = true ∧
      ¬ vec3NormSquaredF floatEnv ⟨0, 0, 10286531 / 1048576⟩ < 16145741 / 16777216 ∧
      (identityFusion 2 5 : Fusion ℚ).flags &&& floatEnv.FUSION_USE_MAG = 0 ∧
      ¬ floatEnv.fl (4152361 / 4194304 + 5368709 / 536870912) > 1 ∧
      (fusionHandleAcc floatEnv (identityFusion 2 5) (4152361 / 4194304)
        ⟨0, 0, 10286531 / 1048576⟩ (5368709 / 536870912)).fake_mag_decimation
        = floatEnv.fl (4152361 / 4194304 + 5368709 / 536870912) :=
  have hc : ¬ floatEnv.fl (4152361 / 4194304 + 5368709 / 536870912) > 1 := by
    rw [floatEnv_fl, roundFloat_heartbeat_sum]
    exact lt_irrefl _
  ⟨floatEnv_game_hasEstimate, floatEnv_gravity_accepted, by decide, hc,
    (((fake_mag_heartbeat floatEnv).1 (identityFusion 2 5) (4152361 / 4194304)
      ⟨0, 0, 10286531 / 1048576⟩ (5368709 / 536870912)
      floatEnv_game_hasEstimate floatEnv_gravity_accepted).2.1 (by decide) hc).1⟩

section GeomagDummyRate

/-! ## The dummy rate of geomag mode -/

theorem dummy_rate_sub {α : Type} [LinearOrderedField α] (env : Env α) (hfl : ∀ x, env.fl x = x)
    (x1 : Vec3 α) :
    vec3Sub (initVec3 (env.fl (x1.x + kEps)) (env.fl (x1.y + kEps)) (env.fl (x1.z + kEps))) x1
      = ⟨kEps, kEps, kEps⟩ := by
  simp [vec3Sub, initVec3, hfl]

theorem dummy_rate_norm (env : Env ℝ) (hsq : env.sqrtf = Real.sqrt) :
    vec3Norm env ⟨kEps, kEps, kEps⟩ = Real.sqrt 3 * kEps := by
  rw [vec3Norm, hsq]
  have h : vec3NormSquared (⟨kEps, kEps, kEps⟩ : Vec3 ℝ) = 3 * (kEps * kEps) := by
    simp only [vec3NormSquared]
    ring
  rw [h, Real.sqrt_mul (by norm_num : (0 : ℝ) ≤ 3), Real.sqrt_mul_self kEps_bounds.1.le]

theorem sqrt_three_bound : (17 / 10 : ℝ) ≤ Real.sqrt 3 :=
  Real.le_sqrt_of_sq_le (by norm_num)

/-- C16: in exact arithmetic over the reals (`fl` the identity, the real square
root), in geomag mode (USE_GYRO clear) the Predict call of `fusionHandleAcc` is
driven with the dummy rate `x1 + kEps·(1,1,1)`, `kEps` being the `1.0E-4f` of
the source; whatever the bias `x1`, the bias-corrected rate is
`kEps·(1,1,1)`, of norm `√3 · kEps ≥ 1e-4`, so the guard of the early return is
false and the call runs the whole propagation of the specification: transition
blocks, quaternion step, covariance recursion with process noise, sanity
check; every accepted accelerometer sample returns 0 and leaves the state that
its updates compute from the propagated one. -/
theorem geomag_predict_not_singular (env : Env ℝ) (hsq : env.sqrtf = Real.sqrt)
    (hfl : ∀ x, env.fl x = x) (f : Fusion ℝ) (dT : ℝ)
    (hG : f.flags &&& env.FUSION_USE_GYRO = 0) :
    vec3Sub (initVec3 (env.fl (f.x1.x + kEps)) (env.fl (f.x1.y + kEps))
        (env.fl (f.x1.z + kEps))) f.x1 = ⟨kEps, kEps, kEps⟩ ∧
      vec3Norm env ⟨kEps, kEps, kEps⟩ = Real.sqrt 3 * kEps ∧
      1 / 10000 ≤ vec3Norm env ⟨kEps, kEps, kEps⟩ ∧
      ¬ |vec3Norm env ⟨kEps, kEps, kEps⟩| < kEps ∧
      fusionHandleAccPredict env f dT = fusionPredictSpec env f ⟨kEps, kEps, kEps⟩ dT ∧
      (∀ (c : ℝ) (a : Vec3 ℝ), fusionHasEstimate env f = true →
        ¬ vec3NormSquaredF env a < 16145741 / 16777216 →
        (fusionHandleAcc env f c a dT).ret = 0 ∧
          ((fusionHandleAcc env f c a dT).fusion
              = fusionHandleAccUpdate env (fusionPredictSpec env f ⟨kEps, kEps, kEps⟩ dT) a ∨
            (fusionHandleAcc env f c a dT).fusion
              = fusionHandleAccUpdate env
                  (fusionHandleAccFakeMag env
                    (fusionPredictSpec env f ⟨kEps, kEps, kEps⟩ dT)) a)) := by
  have hS := dummy_rate_sub env hfl f.x1
  have hN := dummy_rate_norm env hsq
  have hle : 1 / 10000 ≤ vec3Norm env ⟨kEps, kEps, kEps⟩ := by
    rw [hN]
    have h3 := sqrt_three_bound
    have hk : (1 / 17000 : ℝ) ≤ kEps := by
      unfold kEps
      norm_num
    nlinarith
  have hg : ¬ |vec3Norm env ⟨kEps, kEps, kEps⟩| < kEps := by
    rw [not_lt]
    exact le_trans (le_trans kEps_bounds.2.le hle) (le_abs_self _)
  have hP : fusionHandleAccPredict env f dT = fusionPredictSpec env f ⟨kEps, kEps, kEps⟩ dT := by
    unfold fusionHandleAccPredict
    have hG2 : ¬ (f.flags &&& env.FUSION_USE_GYRO ≠ 0) := not_not.mpr hG
    rw [if_pos hG2]
    dsimp only
    rw [fusionPredict_eq_spec env f _ dT (by rw [hS]; exact hg), hS]
  refine ⟨hS, hN, hle, hg, hP, ?_⟩
  intro c a he hn
  have hthr : (FREE_FALL_THRESHOLD_SQ : ℝ) = 16145741 / 16777216 := rfl
  rw [← hthr] at hn
  rw [fusionHandleAcc_accepted env f c a dT he hn, hP]
  dsimp only
  refine ⟨rfl, ?_⟩
  split_ifs <;> first | exact Or.inl rfl | exact Or.inr rfl

/-- Witness for C16: a geomag engine (USE_MAG only) at the identity attitude. -/
theorem geomag_predict_not_singular_witness :
    (stdEnv Real.sqrt Real.sin Real.cos Real.exp).sqrtf = Real.sqrt ∧
      (∀ x, (stdEnv Real.sqrt Real.sin Real.cos Real.exp).fl x = x) ∧
      (identityFusion 1 3 : Fusion ℝ).flags
        &&& (stdEnv Real.sqrt Real.sin Real.cos Real.exp).FUSION_USE_GYRO = 0 ∧
      ¬ |vec3Norm (stdEnv Real.sqrt Real.sin Real.cos Real.exp) ⟨kEps, kEps, kEps⟩| < kEps ∧
      fusionHandleAccPredict (stdEnv Real.sqrt Real.sin Real.cos Real.exp)
          (identityFusion 1 3) (1 / 20)
        = fusionPredictSpec (stdEnv Real.sqrt Real.sin Real.cos Real.exp)
          (identityFusion 1 3) ⟨kEps, kEps, kEps⟩ (1 / 20) :=
  ⟨rfl, fun _ => rfl, rfl,
    (geomag_predict_not_singular (stdEnv Real.sqrt Real.sin Real.cos Real.exp) rfl
      (fun _ => rfl) (identityFusion 1 3) (1 / 20) rfl).2.2.2.1,
    (geomag_predict_not_singular (stdEnv Real.sqrt Real.sin Real.cos Real.exp) rfl
      (fun _ => rfl) (identityFusion 1 3) (1 / 20) rfl).2.2.2.2.1⟩

end GeomagDummyRate

section Nanotime

/-! ## `nanotime_add` and `nanotime_subtract` -/

theorem total_mod (q r M : Nat) (hr : r < NS_PER_S) :
    (q * NS_PER_S + r) % (M * NS_PER_S) = (q % M) * NS_PER_S + r := by
  rcases Nat.eq_zero_or_pos M with hM | hM
  · subst hM
    simp
  · have hlt : (q % M) * NS_PER_S + r < M * NS_PER_S := by
      have h1 : q % M < M := Nat.mod_lt _ hM
      have h2 : (q % M + 1) * NS_PER_S ≤ M * NS_PER_S := Nat.mul_le_mul_right _ h1
      have h3 : (q % M + 1) * NS_PER_S = (q % M) * NS_PER_S + NS_PER_S := by ring
      omega
    have hq : q * NS_PER_S + r = (q % M) * NS_PER_S + r + (M * NS_PER_S) * (q / M) := by
      have := Nat.mod_add_div q M
      calc q * NS_PER_S + r = (q % M + M * (q / M)) * NS_PER_S + r := by rw [this]
        _ = (q % M) * NS_PER_S + r + (M * NS_PER_S) * (q / M) := by ring
    rw [hq, Nat.add_mul_mod_self_left, Nat.mod_eq_of_lt hlt]

theorem nanotime_add_normal (sBits nsBits : Nat) (hw : 2 * NS_PER_S ≤ 2 ^ nsBits)
    (a b : nanotime_t) (ha : a.time_ns < NS_PER_S) (hb : b.time_ns < NS_PER_S) :
    nanotime_add sBits nsBits a b =
      ⟨(a.time_s + b.time_s + (a.time_ns + b.time_ns) / NS_PER_S) % 2 ^ sBits,
        (a.time_ns + b.time_ns) % NS_PER_S⟩ := by
  unfold nanotime_add
  have hc : ¬ (a.time_ns ≥ NS_PER_S ∨ b.time_ns ≥ NS_PER_S) := by omega
  rw [if_neg hc]
  have hs : (a.time_ns + b.time_ns) % 2 ^ nsBits = a.time_ns + b.time_ns :=
    Nat.mod_eq_of_lt (by omega)
  simp only [hs]
  by_cases hcar : a.time_ns + b.time_ns ≥ NS_PER_S
  · have hd : (a.time_ns + b.time_ns) / NS_PER_S = 1 := by
      unfold NS_PER_S at *
      omega
    have hm : (a.time_ns + b.time_ns) % NS_PER_S = a.time_ns + b.time_ns - NS_PER_S := by
      unfold NS_PER_S at *
      omega
    have hx : (a.time_ns + b.time_ns + 2 ^ nsBits - NS_PER_S) % 2 ^ nsBits
        = a.time_ns + b.time_ns - NS_PER_S := by
      have e : a.time_ns + b.time_ns + 2 ^ nsBits - NS_PER_S
          = (a.time_ns + b.time_ns - NS_PER_S) + 2 ^ nsBits := by omega
      rw [e, Nat.add_mod_right]
      exact Nat.mod_eq_of_lt (by omega)
    simp [hcar, hd, hm, hx]
  · have hd : (a.time_ns + b.time_ns) / NS_PER_S = 0 := by
      unfold NS_PER_S at *
      omega
    have hm : (a.time_ns + b.time_ns) % NS_PER_S = a.time_ns + b.time_ns := by
      unfold NS_PER_S at *
      omega
    simp [hcar, hd, hm]

/-- C20: when the nanosecond field is wide enough to hold the sum of two
normalized values (`2 · NS_PER_S ≤ 2^nsBits`, true of 32 and 64 bits),
`nanotime_add` on normalized inputs returns a normalized time whose total
`time_s · NS_PER_S + time_ns` is the sum of the inputs' totals modulo
`2^sBits · NS_PER_S` (the seconds wrap at the width of `time_s`); `nanotime_add`
is commutative; and if either input has `time_ns ≥ NS_PER_S` the result is the
zero time. -/
theorem nanotime_add_spec (sBits nsBits : Nat) (hw : 2 * NS_PER_S ≤ 2 ^ nsBits) :
    (∀ a b : nanotime_t, a.time_ns < NS_PER_S → b.time_ns < NS_PER_S →
        (nanotime_add sBits nsBits a b).time_ns < NS_PER_S ∧
          (nanotime_add sBits nsBits a b).time_s < 2 ^ sBits ∧
          (nanotime_add sBits nsBits a b).time_s * NS_PER_S
              + (nanotime_add sBits nsBits a b).time_ns
            = (a.time_s * NS_PER_S + a.time_ns + (b.time_s * NS_PER_S + b.time_ns))
                % (2 ^ sBits * NS_PER_S)) ∧
      (∀ a b : nanotime_t, nanotime_add sBits nsBits a b = nanotime_add sBits nsBits b a) ∧
      (∀ a b : nanotime_t, (a.time_ns ≥ NS_PER_S ∨ b.time_ns ≥ NS_PER_S) →
        nanotime_add sBits nsBits a b = ⟨0, 0⟩) := by
  refine ⟨?_, ?_, ?_⟩
  · intro a b ha hb
    rw [nanotime_add_normal sBits nsBits hw a b ha hb]
    have hpos : 0 < NS_PER_S := by decide
    refine ⟨Nat.mod_lt _ hpos, Nat.mod_lt _ (Nat.pos_pow_of_pos _ (by decide)), ?_⟩
    have hr : (a.time_ns + b.time_ns) % NS_PER_S < NS_PER_S := Nat.mod_lt _ hpos
    have hdiv := Nat.mod_add_div (a.time_ns + b.time_ns) NS_PER_S
    have e : (a.time_s + b.time_s + (a.time_ns + b.time_ns) / NS_PER_S) * NS_PER_S
        = a.time_s * NS_PER_S + b.time_s * NS_PER_S
          + NS_PER_S * ((a.time_ns + b.time_ns) / NS_PER_S) := by ring
    have hq : a.time_s * NS_PER_S + a.time_ns + (b.time_s * NS_PER_S + b.time_ns)
        = (a.time_s + b.time_s + (a.time_ns + b.time_ns) / NS_PER_S) * NS_PER_S
          + (a.time_ns + b.time_ns) % NS_PER_S := by
      rw [e]
      omega
    rw [hq, total_mod _ _ _ hr]
  · intro a b
    by_cases h : a.time_ns ≥ NS_PER_S ∨ b.time_ns ≥ NS_PER_S
    · have h2 : b.time_ns ≥ NS_PER_S ∨ a.time_ns ≥ NS_PER_S := h.symm
      simp [nanotime_add, h, h2]
    · have ha : a.time_ns < NS_PER_S := by omega
      have hb : b.time_ns < NS_PER_S := by omega
      rw [nanotime_add_normal sBits nsBits hw a b ha hb,
        nanotime_add_normal sBits nsBits hw b a hb ha,
        Nat.add_comm a.time_s b.time_s, Nat.add_comm a.time_ns b.time_ns]
  · intro a b h
    simp [nanotime_add, h]

/-- Witness for C20: 32-bit fields, a sum that carries into the seconds. -/
theorem nanotime_add_spec_witness :
    2 * NS_PER_S ≤ 2 ^ 32 ∧
      (⟨1, 600000000⟩ : nanotime_t).time_ns < NS_PER_S ∧
      (⟨2, 700000000⟩ : nanotime_t).time_ns < NS_PER_S ∧
      nanotime_add 32 32 ⟨1, 600000000⟩ ⟨2, 700000000⟩ = ⟨4, 300000000⟩ ∧
      (nanotime_add 32 32 ⟨1, 600000000⟩ ⟨2, 700000000⟩).time_ns < NS_PER_S :=
  ⟨by decide, by decide, by decide, by decide,
    ((nanotime_add_spec 32 32 (by decide)).1 ⟨1, 600000000⟩ ⟨2, 700000000⟩ (by decide)
      (by decide)).1⟩

/-- C19, the code at two failing inputs with 32-bit fields.  `a = (5 s, 10 ns)`
is earlier than `b = (5 s, 20 ns)`, yet the result is not the zero time but
`(2^32 - 1 s, 999999990 ns)`: the guard compares `a.time_ns` with `b.time_s`.
`a = (5 s, 3 ns)` is not earlier than `b = (5 s, 2 ns)`, yet the result is the
zero time, and adding `b` back gives `b`, not `a`. -/
theorem nanotime_subtract_guard_mixes_fields :
    nanotime_less_than ⟨5, 10⟩ ⟨5, 20⟩ = true ∧
      nanotime_subtract 32 32 ⟨5, 10⟩ ⟨5, 20⟩ = ⟨4294967295, 999999990⟩ ∧
      nanotime_subtract 32 32 ⟨5, 10⟩ ⟨5, 20⟩ ≠ ⟨0, 0⟩ ∧
      nanotime_less_than ⟨5, 3⟩ ⟨5, 2⟩ = false ∧
      nanotime_subtract 32 32 ⟨5, 3⟩ ⟨5, 2⟩ = ⟨0, 0⟩ ∧
      nanotime_add 32 32 (nanotime_subtract 32 32 ⟨5, 3⟩ ⟨5, 2⟩) ⟨5, 2⟩ ≠ ⟨5, 3⟩ := by
  decide

end Nanotime

section TimerList

theorem nanotime_less_than_eq_true (a b : nanotime_t) :
    nanotime_less_than a b = true ↔
      a.time_s < b.time_s ∨ (a.time_s = b.time_s ∧ a.time_ns < b.time_ns) := by
  simp [nanotime_less_than]

theorem nanotime_less_than_eq_false (a b : nanotime_t) :
    nanotime_less_than a b = false ↔
      ¬ (a.time_s < b.time_s ∨ (a.time_s = b.time_s ∧ a.time_ns < b.time_ns)) := by
  rw [← nanotime_less_than_eq_true, Bool.not_eq_true]

theorem nanotime_less_than_irrefl (a : nanotime_t) : nanotime_less_than a a = false := by
  rw [nanotime_less_than_eq_false]; omega

theorem Timer_earliest_step_spec (timer_list : Fin TIMER_LIST_SIZE → timer_item_t)
    (seen : List (Fin TIMER_LIST_SIZE)) (min : Option (Fin TIMER_LIST_SIZE))
    (i : Fin TIMER_LIST_SIZE) (hlt : ∀ j ∈ seen, j < i)
    (h : EarliestAmong timer_list seen min) :
    EarliestAmong timer_list (seen ++ [i]) (Timer_earliest_step timer_list min i) := by
  unfold Timer_earliest_step
  by_cases hi : (timer_list i).task = NULL
  · rw [if_neg (by simpa using hi)]
    cases min with
    | none =>
      intro j hj
      rcases List.mem_append.1 hj with hj | hj
      · exact h j hj
      · rw [List.mem_singleton.1 hj]; exact hi
    | some k =>
      obtain ⟨hk, hka, hall⟩ := h
      refine ⟨List.mem_append_left _ hk, hka, ?_⟩
      intro j hj hja
      rcases List.mem_append.1 hj with hj | hj
      · exact hall j hj hja
      · rw [List.mem_singleton.1 hj] at hja; exact absurd hi hja
  · rw [if_pos hi]
    cases min with
    | none =>
      refine ⟨by simp, hi, ?_⟩
      intro j hj hja
      rcases List.mem_append.1 hj with hj | hj
      · exact absurd (h j hj) hja
      · rw [List.mem_singleton.1 hj]
        exact ⟨nanotime_less_than_irrefl _, fun _ => le_refl _⟩
    | some k =>
      obtain ⟨hk, hka, hall⟩ := h
      by_cases hlt2 : nanotime_less_than (timer_list i).deadline (timer_list k).deadline = true
      · simp only [hlt2, if_true]
        refine ⟨by simp, hi, ?_⟩
        intro j hj hja
        rcases List.mem_append.1 hj with hj | hj
        · have h1 := (hall j hj hja).1
          rw [nanotime_less_than_eq_true] at hlt2
          rw [nanotime_less_than_eq_false] at h1
          constructor
          · rw [nanotime_less_than_eq_false]; omega
          · intro h2
            rw [nanotime_less_than_eq_false] at h2
            omega
        · rw [List.mem_singleton.1 hj]
          exact ⟨nanotime_less_than_irrefl _, fun _ => le_refl _⟩
      · simp only [hlt2]
        refine ⟨List.mem_append_left _ hk, hka, ?_⟩
        intro j hj hja
        rcases List.mem_append.1 hj with hj | hj
        · exact hall j hj hja
        · rw [List.mem_singleton.1 hj]
          exact ⟨by simpa using hlt2, fun _ => le_of_lt (hlt k hk)⟩

theorem Timer_earliest_foldl_spec (timer_list : Fin TIMER_LIST_SIZE → timer_item_t) :
    ∀ (l seen : List (Fin TIMER_LIST_SIZE)) (min : Option (Fin TIMER_LIST_SIZE)),
      (seen ++ l).Pairwise (fun a b => a < b) → EarliestAmong timer_list seen min →
      EarliestAmong timer_list (seen ++ l) (l.foldl (Timer_earliest_step timer_list) min) := by
  intro l
  induction l with
  | nil => intro seen min _ h; simpa using h
  | cons i rest ih =>
    intro seen min hp h
    have hp2 : ((seen ++ [i]) ++ rest).Pairwise (fun a b => a < b) := by simpa using hp
    have hlt : ∀ j ∈ seen, j < i := by
      intro j hj
      exact (List.pairwise_append.1 hp).2.2 j hj i (List.mem_cons_self _ _)
    have := ih (seen ++ [i]) _ hp2 (Timer_earliest_step_spec timer_list seen min i hlt h)
    simpa using this

theorem Timer_earliest_loop_spec (timer_list : Fin TIMER_LIST_SIZE → timer_item_t) :
    EarliestAmong timer_list (List.finRange TIMER_LIST_SIZE)
      ((List.finRange TIMER_LIST_SIZE).foldl (Timer_earliest_step timer_list) none) := by
  have := Timer_earliest_foldl_spec timer_list (List.finRange TIMER_LIST_SIZE) [] none
    (by simpa using List.pairwise_lt_finRange TIMER_LIST_SIZE) (by intro j hj; simp at hj)
  simpa using this

/-- `Timer_earliest` is `NULL` exactly when `items` is 0 or no slot is active. -/
theorem Timer_earliest_eq_none_iff (st : TimerState) :
    Timer_earliest st = none ↔ st.items = 0 ∨ ∀ i, (st.timer_list i).task = NULL := by
  unfold Timer_earliest
  by_cases h0 : st.items = 0
  · simp [h0]
  · rw [if_neg h0]
    have h := Timer_earliest_loop_spec st.timer_list
    constructor
    · intro hn
      rw [hn] at h
      exact Or.inr (fun i => h i (List.mem_finRange i))
    · rintro (h1 | h1)
      · exact absurd h1 h0
      · cases hr : (List.finRange TIMER_LIST_SIZE).foldl (Timer_earliest_step st.timer_list) none with
        | none => rfl
        | some k =>
          rw [hr] at h
          exact absurd (h1 k) h.2.1

/-- Whatever slot `Timer_earliest` returns is active, no active slot has a
deadline before its deadline, and it is the lowest such slot. -/
theorem Timer_earliest_eq_some (st : TimerState) (k : Fin TIMER_LIST_SIZE)
    (hk : Timer_earliest st = some k) :
    st.items ≠ 0 ∧ (st.timer_list k).task ≠ NULL ∧
      ∀ j, (st.timer_list j).task ≠ NULL →
        nanotime_less_than (st.timer_list j).deadline (st.timer_list k).deadline = false ∧
        (nanotime_less_than (st.timer_list k).deadline (st.timer_list j).deadline = false →
          k ≤ j) := by
  unfold Timer_earliest at hk
  by_cases h0 : st.items = 0
  · simp [h0] at hk
  · rw [if_neg h0] at hk
    have h := Timer_earliest_loop_spec st.timer_list
    rw [hk] at h
    exact ⟨h0, h.2.1, fun j hj => h.2.2 j (List.mem_finRange j) hj⟩

theorem activeCount_le (timer_list : Fin TIMER_LIST_SIZE → timer_item_t) :
    activeCount timer_list ≤ TIMER_LIST_SIZE := by
  unfold activeCount
  have := Finset.card_filter_le (Finset.univ : Finset (Fin TIMER_LIST_SIZE))
    (fun i => (timer_list i).task ≠ NULL)
  simpa using this

theorem activeCount_eq_zero_iff (timer_list : Fin TIMER_LIST_SIZE → timer_item_t) :
    activeCount timer_list = 0 ↔ ∀ i, (timer_list i).task = NULL := by
  unfold activeCount
  rw [Finset.card_eq_zero, Finset.filter_eq_empty_iff]
  simp

theorem activeCount_lt_iff (timer_list : Fin TIMER_LIST_SIZE → timer_item_t) :
    activeCount timer_list < TIMER_LIST_SIZE ↔ ∃ i, (timer_list i).task = NULL := by
  unfold activeCount
  constructor
  · intro h
    by_contra hne
    push_neg at hne
    have : Finset.univ.filter (fun i => (timer_list i).task ≠ NULL) = Finset.univ :=
      Finset.filter_true_of_mem (fun i _ => hne i)
    rw [this] at h
    simp at h
  · rintro ⟨i, hi⟩
    have hss : Finset.univ.filter (fun i => (timer_list i).task ≠ NULL) ⊂ Finset.univ := by
      rw [Finset.ssubset_iff_of_subset (Finset.filter_subset _ _)]
      exact ⟨i, Finset.mem_univ i, by simp [hi]⟩
    have := Finset.card_lt_card hss
    simpa using this

theorem activeCount_update_free (timer_list : Fin TIMER_LIST_SIZE → timer_item_t)
    (i : Fin TIMER_LIST_SIZE) (v : timer_item_t) (hi : (timer_list i).task ≠ NULL)
    (hv : v.task = NULL) :
    activeCount (Function.update timer_list i v) + 1 = activeCount timer_list := by
  unfold activeCount
  have : Finset.univ.filter (fun j => (Function.update timer_list i v j).task ≠ NULL) =
      (Finset.univ.filter (fun j => (timer_list j).task ≠ NULL)).erase i := by
    ext j
    by_cases hj : j = i
    · subst hj; simp [hv]
    · simp [Function.update_noteq hj, hj]
  rw [this, Finset.card_erase_of_mem (by simp [hi])]
  have : 0 < (Finset.univ.filter (fun j => (timer_list j).task ≠ NULL)).card :=
    Finset.card_pos.2 ⟨i, by simp [hi]⟩
  omega

theorem activeCount_update_take (timer_list : Fin TIMER_LIST_SIZE → timer_item_t)
    (i : Fin TIMER_LIST_SIZE) (v : timer_item_t) (hi : (timer_list i).task = NULL)
    (hv : v.task ≠ NULL) :
    activeCount (Function.update timer_list i v) = activeCount timer_list + 1 := by
  unfold activeCount
  have : Finset.univ.filter (fun j => (Function.update timer_list i v j).task ≠ NULL) =
      insert i (Finset.univ.filter (fun j => (timer_list j).task ≠ NULL)) := by
    ext j
    by_cases hj : j = i
    · subst hj; simp [hv]
    · simp [Function.update_noteq hj, hj]
  rw [this, Finset.card_insert_of_not_mem (by simp [hi])]

theorem itemsInc_eq (items : Nat) (h : items < TIMER_LIST_SIZE) : itemsInc items = items + 1 := by
  unfold itemsInc
  have : items < 16 := h
  omega

theorem itemsDec_eq (items : Nat) (h0 : items ≠ 0) (h : items ≤ TIMER_LIST_SIZE) :
    itemsDec items + 1 = items := by
  unfold itemsDec
  have : items ≤ 16 := h
  omega

/-- The loop of `Timer_insert_timer` over increasing indices: either none of
them is free and nothing changes, or the timer goes to the first free one. -/
theorem Timer_insert_loop_spec (timer : timer_item_t) (st : TimerState) :
    ∀ l : List (Fin TIMER_LIST_SIZE), l.Pairwise (fun a b => a < b) →
      ((∀ j ∈ l, (st.timer_list j).task ≠ NULL) ∧ Timer_insert_loop timer l st = st) ∨
      (∃ i ∈ l, (st.timer_list i).task = NULL ∧
        (∀ j ∈ l, j < i → (st.timer_list j).task ≠ NULL) ∧
        Timer_insert_loop timer l st =
          ⟨Function.update st.timer_list i timer, itemsInc st.items⟩) := by
  intro l
  induction l with
  | nil => intro _; left; exact ⟨by simp, rfl⟩
  | cons i rest ih =>
    intro hp
    rw [List.pairwise_cons] at hp
    by_cases hi : (st.timer_list i).task = NULL
    · right
      refine ⟨i, List.mem_cons_self _ _, hi, ?_, ?_⟩
      · intro j hj hlt
        rcases List.mem_cons.1 hj with hj | hj
        · rw [hj] at hlt; exact absurd hlt (lt_irrefl _)
        · exact absurd (hp.1 j hj) (not_lt.2 (le_of_lt hlt))
      · simp [Timer_insert_loop, hi]
    · rcases ih hp.2 with ⟨hall, heq⟩ | ⟨k, hk, hkf, hlow, heq⟩
      · left
        refine ⟨?_, ?_⟩
        · intro j hj
          rcases List.mem_cons.1 hj with hj | hj
          · rw [hj]; exact hi
          · exact hall j hj
        · simp [Timer_insert_loop, hi, heq]
      · right
        refine ⟨k, List.mem_cons_of_mem _ hk, hkf, ?_, ?_⟩
        · intro j hj hlt
          rcases List.mem_cons.1 hj with hj | hj
          · rw [hj]; exact hi
          · exact hlow j hj hlt
        · simp [Timer_insert_loop, hi, heq]

/-- One round of the loop of `Timer_clear_timers_for_task`, and so the whole
loop, keeps the invariant when the task is not `NULL`. -/
theorem Timer_clear_loop_inv (task : Nat) (ht : task ≠ NULL) :
    ∀ (l : List (Fin TIMER_LIST_SIZE)) (st : TimerState), TimerInv st →
      TimerInv (Timer_clear_loop task l st) := by
  intro l
  induction l with
  | nil => intro st h; exact h
  | cons i rest ih =>
    intro st h
    unfold Timer_clear_loop
    apply ih
    by_cases hi : (st.timer_list i).task = task
    · rw [if_pos hi]
      have hact : (st.timer_list i).task ≠ NULL := by rw [hi]; exact ht
      have hc := activeCount_update_free st.timer_list i empty_timer hact rfl
      obtain ⟨h1, h2⟩ := h
      have h0 : st.items ≠ 0 := by omega
      have hd := itemsDec_eq st.items h0 h2
      constructor
      · show itemsDec st.items = activeCount (Function.update st.timer_list i empty_timer)
        omega
      · show itemsDec st.items ≤ TIMER_LIST_SIZE
        omega
    · rw [if_neg hi]; exact h

end TimerList
section TimerClaims

/-- Counterexample to C21 as stated: clearing the timers of the NULL task on
the initial list decrements `items` once per empty slot, to `2^32 - 16`; on
that list, and on an empty list with `items = 1`, `Timer_earliest` returns
NULL although `items` is not 0. -/
theorem Timer_earliest_none_with_items :
    (Timer_clear_timers_for_task timerInit NULL).items = 4294967280 ∧
      (Timer_clear_timers_for_task timerInit NULL).items ≠ 0 ∧
      Timer_earliest (Timer_clear_timers_for_task timerInit NULL) = none ∧
      (⟨fun _ => empty_timer, 1⟩ : TimerState).items ≠ 0 ∧
      Timer_earliest ⟨fun _ => empty_timer, 1⟩ = none := by
  decide

/-- C21, as the code has it: for every timer list whose `items` equals the
number of slots with a non-NULL task, `Timer_earliest` returns no timer exactly
when `items` is 0, and otherwise returns a slot `k` that is active (non-NULL
task), whose deadline no active slot precedes under `nanotime_less_than`, and
that has the lowest index among the active slots whose deadline it does not
precede (the ties). -/
theorem Timer_earliest_spec (st : TimerState) (h : st.items = activeCount st.timer_list) :
    (Timer_earliest st = none ↔ st.items = 0) ∧
    (st.items ≠ 0 → ∃ k, Timer_earliest st = some k ∧ (st.timer_list k).task ≠ NULL ∧
      ∀ j, (st.timer_list j).task ≠ NULL →
        nanotime_less_than (st.timer_list j).deadline (st.timer_list k).deadline = false ∧
        (nanotime_less_than (st.timer_list k).deadline (st.timer_list j).deadline = false →
          k ≤ j)) := by
  have hiff : Timer_earliest st = none ↔ st.items = 0 := by
    rw [Timer_earliest_eq_none_iff]
    constructor
    · rintro (h0 | h0)
      · exact h0
      · rw [h]; exact (activeCount_eq_zero_iff _).2 h0
    · exact Or.inl
  refine ⟨hiff, ?_⟩
  intro h0
  cases hr : Timer_earliest st with
  | none => exact absurd (hiff.1 hr) h0
  | some k =>
    have := Timer_earliest_eq_some st k hr
    exact ⟨k, rfl, this.2.1, this.2.2⟩

theorem Timer_earliest_spec_witness :
    exampleTimers.items = activeCount exampleTimers.timer_list ∧ exampleTimers.items ≠ 0 ∧
    ∃ k, Timer_earliest exampleTimers = some k ∧ (exampleTimers.timer_list k).task ≠ NULL ∧
      ∀ j, (exampleTimers.timer_list j).task ≠ NULL →
        nanotime_less_than (exampleTimers.timer_list j).deadline
          (exampleTimers.timer_list k).deadline = false ∧
        (nanotime_less_than (exampleTimers.timer_list k).deadline
          (exampleTimers.timer_list j).deadline = false → k ≤ j) :=
  ⟨by decide, by decide, (Timer_earliest_spec exampleTimers (by decide)).2 (by decide)⟩

/-- C22: the timer-list invariant (`items` equals the number of slots with a
non-NULL task, and `items <= 16`) holds initially and is preserved by
`Timer_insert_timer` for a timer with non-NULL task, by `Timer_expire_next`,
and by `Timer_clear_timers_for_task` for a non-NULL task, each of which returns;
`Timer_insert_timer` returns false exactly when `items == 16`, the statics then
unchanged, and otherwise (invariant holding, task non-NULL) returns true having
stored the timer in the lowest-index free slot and incremented `items`. -/
theorem timer_list_invariant :
    TimerInv timerInit ∧
    (∀ st timer, TimerInv st → timer.task ≠ NULL →
      ∃ r st1, Timer_insert_timer st timer = some (r, st1) ∧ TimerInv st1) ∧
    (∀ st, TimerInv st → ∃ t st1, Timer_expire_next st = some (t, st1) ∧ TimerInv st1) ∧
    (∀ st task, TimerInv st → task ≠ NULL → TimerInv (Timer_clear_timers_for_task st task)) ∧
    (∀ st timer st1, Timer_insert_timer st timer = some (false, st1) ↔
      (st.items = TIMER_LIST_SIZE ∧ st1 = st)) ∧
    (∀ st timer, TimerInv st → timer.task ≠ NULL → st.items ≠ TIMER_LIST_SIZE →
      ∃ i, (st.timer_list i).task = NULL ∧ (∀ j, j < i → (st.timer_list j).task ≠ NULL) ∧
        Timer_insert_timer st timer =
          some (true, ⟨Function.update st.timer_list i timer, st.items + 1⟩)) := by
  have hins : ∀ st timer, TimerInv st → timer.task ≠ NULL → st.items ≠ TIMER_LIST_SIZE →
      ∃ i, (st.timer_list i).task = NULL ∧ (∀ j, j < i → (st.timer_list j).task ≠ NULL) ∧
        Timer_insert_timer st timer =
          some (true, ⟨Function.update st.timer_list i timer, st.items + 1⟩) := by
    intro st timer hinv ht h16
    obtain ⟨h1, h2⟩ := hinv
    have hlt : st.items < TIMER_LIST_SIZE := lt_of_le_of_ne h2 h16
    obtain ⟨f, hf⟩ := (activeCount_lt_iff st.timer_list).1 (h1 ▸ hlt)
    rcases Timer_insert_loop_spec timer st (List.finRange TIMER_LIST_SIZE)
      (List.pairwise_lt_finRange TIMER_LIST_SIZE) with ⟨hall, _⟩ | ⟨i, _, hif, hlow, heq⟩
    · exact absurd hf (hall f (List.mem_finRange f))
    · refine ⟨i, hif, fun j hj => hlow j (List.mem_finRange j) hj, ?_⟩
      unfold Timer_insert_timer
      rw [if_neg h16]
      simp only [heq, itemsInc_eq st.items hlt]
      cases hr : Timer_earliest ⟨Function.update st.timer_list i timer, st.items + 1⟩ with
      | none =>
        rcases (Timer_earliest_eq_none_iff _).1 hr with h0 | h0
        · exact absurd h0 (Nat.succ_ne_zero _)
        · have := h0 i
          simp only [Function.update_same] at this
          exact absurd this ht
      | some k => rfl
  refine ⟨by decide, ?_, ?_, ?_, ?_, hins⟩
  · intro st timer hinv ht
    by_cases h16 : st.items = TIMER_LIST_SIZE
    · exact ⟨false, st, by simp [Timer_insert_timer, h16], hinv⟩
    · obtain ⟨i, hif, _, heq⟩ := hins st timer hinv ht h16
      refine ⟨true, _, heq, ?_⟩
      obtain ⟨h1, h2⟩ := hinv
      have hlt : st.items < TIMER_LIST_SIZE := lt_of_le_of_ne h2 h16
      constructor
      · show st.items + 1 = activeCount (Function.update st.timer_list i timer)
        rw [activeCount_update_take st.timer_list i timer hif ht, h1]
      · exact hlt
  · intro st hinv
    by_cases h0 : st.items = 0
    · exact ⟨empty_timer, st, by simp [Timer_expire_next, h0], hinv⟩
    · obtain ⟨h1, h2⟩ := hinv
      cases hr : Timer_earliest st with
      | none =>
        rcases (Timer_earliest_eq_none_iff st).1 hr with h3 | h3
        · exact absurd h3 h0
        · exact absurd (h1.trans ((activeCount_eq_zero_iff _).2 h3)) h0
      | some k =>
        refine ⟨st.timer_list k, ⟨Function.update st.timer_list k empty_timer,
          itemsDec st.items⟩, by simp [Timer_expire_next, h0, hr], ?_⟩
        have hact := (Timer_earliest_eq_some st k hr).2.1
        have hc := activeCount_update_free st.timer_list k empty_timer hact rfl
        have hd := itemsDec_eq st.items h0 h2
        constructor
        · show itemsDec st.items = activeCount (Function.update st.timer_list k empty_timer)
          omega
        · show itemsDec st.items ≤ TIMER_LIST_SIZE
          omega
  · intro st task hinv ht
    exact Timer_clear_loop_inv task ht _ st hinv
  · intro st timer st1
    unfold Timer_insert_timer
    by_cases h16 : st.items = TIMER_LIST_SIZE
    · rw [if_pos h16]
      constructor
      · intro h
        have := Option.some.inj h
        exact ⟨h16, (Prod.mk.inj this).2.symm⟩
      · rintro ⟨_, rfl⟩; rfl
    · rw [if_neg h16]
      constructor
      · intro h
        exfalso
        cases hr : Timer_earliest
          (Timer_insert_loop timer (List.finRange TIMER_LIST_SIZE) st) with
        | none => simp [hr] at h
        | some k => simp [hr] at h
      · rintro ⟨h, _⟩; exact absurd h h16

theorem timer_list_invariant_witness :
    TimerInv exampleTimers ∧ exampleTimer.task ≠ NULL ∧ (1 : Nat) ≠ NULL ∧
    exampleTimers.items ≠ TIMER_LIST_SIZE ∧
    (∃ r st1, Timer_insert_timer exampleTimers exampleTimer = some (r, st1) ∧ TimerInv st1) ∧
    (∃ t st1, Timer_expire_next exampleTimers = some (t, st1) ∧ TimerInv st1) ∧
    TimerInv (Timer_clear_timers_for_task exampleTimers 1) ∧
    (∃ i, (exampleTimers.timer_list i).task = NULL ∧
      (∀ j, j < i → (exampleTimers.timer_list j).task ≠ NULL) ∧
      Timer_insert_timer exampleTimers exampleTimer =
        some (true, ⟨Function.update exampleTimers.timer_list i exampleTimer,
          exampleTimers.items + 1⟩)) :=
  ⟨by decide, by decide, by decide, by decide,
    timer_list_invariant.2.1 exampleTimers exampleTimer (by decide) (by decide),
    timer_list_invariant.2.2.1 exampleTimers (by decide),
    timer_list_invariant.2.2.2.1 exampleTimers 1 (by decide) (by decide),
    timer_list_invariant.2.2.2.2.2 exampleTimers exampleTimer (by decide) (by decide)
      (by decide)⟩

/-- The restrictions to non-NULL tasks are needed: storing a timer whose task is
`NULL`, or clearing the timers of the `NULL` task, leaves `items` different
from the number of active slots. -/
theorem timer_list_invariant_needs_task :
    TimerInv exampleTimers ∧
    (∃ st1, Timer_insert_timer exampleTimers empty_timer = some (true, st1) ∧ ¬ TimerInv st1) ∧
    ¬ TimerInv (Timer_clear_timers_for_task exampleTimers NULL) ∧
    Timer_insert_timer timerInit empty_timer = none := by
  refine ⟨by decide, ⟨_, rfl, by decide⟩, by decide, rfl⟩

end TimerClaims

end ContextHub
